import Mathlib

/-!
Personal Trip Planner: route synthesis and constraint adjustment.

A shallow embedding of `server/services/LLMService.js` (waypoint parsing, road
router with plausibility check and repair, constraint adjuster, trip assembler
and final validation) and of the `POST /generate` handler with its
duplicate-request guard in `server/routes/trips.js`.

Modelling conventions.

* Distances and durations of a route are the whole numbers produced by the
  router's `Math.round`, so they are `Int`.
* The quotient and the product of `truncateRouteToDistance` are IEEE 754
  doubles, each rounded to nearest with ties to even (`roundToDouble`); the
  special values `NaN` and `±Infinity` are kept where the code can reach them
  (`JsNum`).  The other arithmetic on whole numbers (`Math.round`,
  `Math.ceil` of a quotient of whole numbers) is carried out exactly.
* A thrown `Error` is an `Except.error` carrying the data the message prints;
  a `TypeError` from reading a property of `undefined` is `none`.
* The routing service, the waypoint service and `JSON.parse` are oracles; the
  router functions return the requests they sent next to their result.
* Metres and seconds of a routing answer are exact rationals.
* The reservation table `recentRequests` is a finite map read through `get`,
  modelled as a function from keys to optional timestamps; the clock
  `Date.now()` is an explicit `Int` argument, one for each place where the
  handler reads it (`duplicateCheckAt`).  `duplicateCheck` is the run in
  which the readings of one request coincide.
-/

namespace TripPlanner

/-! ## Data model -/

/-- The three trip types the request validator lets through
(`isIn(["walk", "bike", "trek"])`). -/
inductive TripType
  | bike
  | walk
  | trek
  deriving DecidableEq, Repr

/-- A `[lon, lat]` pair, in fixed-point units. -/
structure Coord where
  lon : Int
  lat : Int
  deriving DecidableEq, Repr

/-- The `geometry` object of a route feature. -/
structure Geometry where
  type : String
  coordinates : List Coord
  deriving DecidableEq, Repr

/-- The `properties` object of a route feature.  `originalDistance` and
`adjusted` are absent (`none`) until the adjuster writes them. -/
structure Properties where
  distance : Int
  duration : Int
  routingEngine : String
  profile : String
  shortened : Bool
  day : Nat
  description : String
  waypoints : List String
  originalDistance : Option Int
  adjusted : Option Bool
  deriving DecidableEq, Repr

/-- A route feature as built by `createOSRMRoute`. -/
structure Route where
  geometry : Geometry
  properties : Properties
  deriving DecidableEq, Repr

/-- The destination object of a request. -/
structure Destination where
  country : String
  city : Option String
  coordinates : Option Coord
  deriving DecidableEq, Repr

/-- The `metadata` object of the waypoint response. -/
structure Metadata where
  title : Option String
  description : Option String
  difficulty : Option String
  deriving DecidableEq, Repr

/-- The object returned by `buildFinalTrip`. -/
structure Trip where
  routes : List Route
  destination : Destination
  tripType : TripType
  totalDistance : Int
  duration : String
  title : String
  description : String
  difficulty : String
  generatedAt : String
  source : String
  deriving DecidableEq, Repr

/-- The errors `validateFinalTrip` throws, with the values their messages print. -/
inductive ValidationError
  | bikeRouteCount (got : Nat)
  | exceedsLimit (day : Nat) (distance : Int)
  | tooShort (day : Nat) (distance : Int)
  | walkRouteCount (got : Nat)
  | walkOutOfRange (distance : Int)
  deriving DecidableEq, Repr

/-! ## JavaScript numbers -/

/-- A JavaScript number as far as the slicing code needs it: a whole number,
an infinity, or `NaN`. -/
inductive JsNum
  | nan
  | posInf
  | negInf
  | fin (k : Int)
  deriving DecidableEq, Repr

/-- JavaScript `Math.round(num / den)` for `den > 0`: nearest whole number, halves up. -/
def jsRoundDiv (num den : Int) : Int :=
  Int.fdiv (2 * num + den) (2 * den)

/-- JavaScript `Math.ceil(num / den)` for `den > 0`. -/
def jsCeilDiv (num den : Int) : Int :=
  -(Int.fdiv (-num) den)

/-- The number of binary digits of `n`, found by halving at most `fuel` times. -/
def bitLengthAux : Nat → Nat → Nat
  | 0, _ => 0
  | fuel + 1, n => if n = 0 then 0 else bitLengthAux fuel (n / 2) + 1

/-- The number of binary digits of `n`: `2 ^ (bitLength n - 1) ≤ n < 2 ^ bitLength n`
for `n > 0`. -/
def bitLength (n : Nat) : Nat := bitLengthAux n n

/-- The binary exponent `k` of a positive fraction: `2 ^ k ≤ num / den < 2 ^ (k + 1)`. -/
def floorLog2 (num den : Nat) : Int :=
  let k : Int := (bitLength num : Int) - (bitLength den : Int)
  if den * 2 ^ k.toNat ≤ num * 2 ^ (-k).toNat then k else k - 1

/-- The whole number nearest to `num / den`, a tie going to the even neighbour. -/
def roundHalfEven (num den : Nat) : Nat :=
  let q := num / den
  let r := num % den
  if 2 * r < den then q
  else if den < 2 * r then q + 1
  else if q % 2 = 0 then q else q + 1

/-- The IEEE 754 double nearest to `num / den ≥ 0`, as `mantissa * 2 ^ exponent`:
53 significant bits, the exponent no lower than `-1074` (subnormal numbers
below `2 ^ -1022`), ties to even; `none` is the overflow to `Infinity`. -/
def roundToDouble (num den : Nat) : Option (Nat × Int) :=
  let exponent := max (floorLog2 num den - 52) (-1074)
  let mantissa := roundHalfEven (num * 2 ^ (-exponent).toNat) (den * 2 ^ exponent.toNat)
  if 0 < exponent ∧ 2 ^ 1024 ≤ mantissa * 2 ^ exponent.toNat then none
  else some (mantissa, exponent)

/-- JavaScript `Math.floor(length * ratio)` with `ratio = targetDistance / distance`,
on doubles: the quotient is rounded to a double, the product of that double with
`length` is rounded again, and the floor is taken of the result.  The quotient
is `±Infinity` or `NaN` when `distance` is `0`, and `0 * Infinity` is `NaN`.  The
arguments stand for the doubles of the same value (every whole number up to
`2 ^ 53` in magnitude is one). -/
def jsFloorScaled (length : Nat) (targetDistance distance : Int) : JsNum :=
  if distance = 0 then
    if targetDistance = 0 then JsNum.nan
    else if length = 0 then JsNum.nan
    else if targetDistance > 0 then JsNum.posInf
    else JsNum.negInf
  else
    let negative : Bool := decide (targetDistance < 0) != decide (distance < 0)
    match roundToDouble targetDistance.natAbs distance.natAbs with
    | none =>
      if length = 0 then JsNum.nan
      else if negative then JsNum.negInf
      else JsNum.posInf
    | some (mantissa, exponent) =>
      match roundToDouble (length * mantissa * 2 ^ exponent.toNat) (2 ^ (-exponent).toNat) with
      | none => if negative then JsNum.negInf else JsNum.posInf
      | some (m, e) =>
        let num : Int := ((m * 2 ^ e.toNat : Nat) : Int)
        let den : Int := ((2 ^ (-e).toNat : Nat) : Int)
        JsNum.fin (Int.fdiv (if negative then -num else num) den)

/-- JavaScript `Math.max(2, x)`. -/
def jsMax2 : JsNum → JsNum
  | JsNum.nan => JsNum.nan
  | JsNum.posInf => JsNum.posInf
  | JsNum.negInf => JsNum.fin 2
  | JsNum.fin k => JsNum.fin (max 2 k)

/-- JavaScript `xs.slice(0, e)`: `NaN` counts as `0`, a negative end counts from the
back, and the end is clamped to the length. -/
def jsSliceFromStart {α : Type} (xs : List α) : JsNum → List α
  | JsNum.nan => []
  | JsNum.posInf => xs
  | JsNum.negInf => []
  | JsNum.fin k =>
    if k < 0 then xs.take ((xs.length : Int) + k).toNat else xs.take k.toNat

/-! ## Constraint adjuster -/

/-- Method `truncateRouteToDistance(route, maxDistance)`. -/
def truncateRouteToDistance (route : Route) (maxDistance : Int) : Route :=
  let coordinates := route.geometry.coordinates
  let targetDistance := maxDistance
  let newLength := jsFloorScaled coordinates.length targetDistance route.properties.distance
  let truncatedCoords := jsSliceFromStart coordinates (jsMax2 newLength)
  { route with
    geometry := { route.geometry with coordinates := truncatedCoords }
    properties := { route.properties with
      distance := targetDistance
      duration := jsRoundDiv (targetDistance * 60) 20 } }

/-- Method `extendRouteToDistance(route, minDistance)`. -/
def extendRouteToDistance (route : Route) (minDistance : Int) : Route :=
  { route with
    properties := { route.properties with
      distance := minDistance
      duration := jsRoundDiv (minDistance * 60) 20 } }

/-- The callback of `routes.map` in the bike branch of
`adjustRoutesToConstraints` (the index is only logged). -/
def adjustBikeRoute (route : Route) : Route :=
  let currentDistance := route.properties.distance
  let adjustedRoute :=
    if currentDistance > 60 then truncateRouteToDistance route 60
    else if currentDistance < 35 then extendRouteToDistance route 35
    else route
  { adjustedRoute with
    properties := { adjustedRoute.properties with
      originalDistance := some currentDistance
      adjusted := some (decide (currentDistance ≠ adjustedRoute.properties.distance)) } }

/-- The else branch of `adjustRoutesToConstraints`, applied to `routes[0]`. -/
def adjustWalkRoute (route : Route) : Route :=
  let currentDistance := route.properties.distance
  let targetDistance :=
    if currentDistance < 5 then 5
    else if currentDistance > 15 then 15
    else currentDistance
  { route with
    properties := { route.properties with
      distance := targetDistance
      duration := jsRoundDiv (targetDistance * 60) 4
      originalDistance := some currentDistance
      adjusted := some (decide (currentDistance ≠ targetDistance)) } }

/-- Method `adjustRoutesToConstraints(routes, tripType)`.  In the else branch
`routes[0]` of an empty array is `undefined` and reading its `properties`
throws: `none`. -/
def adjustRoutesToConstraints (routes : List Route) (tripType : TripType) :
    Option (List Route) :=
  if tripType = TripType.bike then
    some (routes.map adjustBikeRoute)
  else
    match routes with
    | [] => none
    | route :: _ => some [adjustWalkRoute route]

/-! ## Trip assembler and final validation -/

/-- The `routes.forEach` of the bike branch of `validateFinalTrip`, from
`index` on: the first offending day throws. -/
def checkBikeDays : List Route → Nat → Except ValidationError Unit
  | [], _ => Except.ok ()
  | route :: rest, index =>
    let distance := route.properties.distance
    if distance > 60 then Except.error (ValidationError.exceedsLimit (index + 1) distance)
    else if distance < 10 then Except.error (ValidationError.tooShort (index + 1) distance)
    else checkBikeDays rest (index + 1)

/-- Method `validateFinalTrip(routes, tripType)`; the total above 120 only warns. -/
def validateFinalTrip (routes : List Route) (tripType : TripType) :
    Except ValidationError Unit :=
  if tripType = TripType.bike then
    if routes.length ≠ 2 then Except.error (ValidationError.bikeRouteCount routes.length)
    else checkBikeDays routes 0
  else
    match routes with
    | [route] =>
      let distance := route.properties.distance
      if distance < 5 ∨ distance > 15 then
        Except.error (ValidationError.walkOutOfRange distance)
      else Except.ok ()
    | _ => Except.error (ValidationError.walkRouteCount routes.length)

/-- JavaScript `value || fallback` for an optional string: absent and empty are falsy. -/
def orDefault (value : Option String) (fallback : String) : String :=
  match value with
  | some s => if s = "" then fallback else s
  | none => fallback

/-- Method `buildFinalTrip(routes, destination, tripType, metadata)`; `generatedAt`
is the clock reading `new Date().toISOString()`. -/
def buildFinalTrip (routes : List Route) (destination : Destination)
    (tripType : TripType) (metadata : Option Metadata) (generatedAt : String) :
    Except ValidationError Trip :=
  let totalDistance := routes.foldl (fun sum route => sum + route.properties.distance) 0
  match validateFinalTrip routes tripType with
  | Except.error e => Except.error e
  | Except.ok _ =>
    Except.ok
      { routes := routes
        destination := { destination with
          coordinates := some
            (((routes.head?).bind (fun r => r.geometry.coordinates.head?)).getD ⟨0, 0⟩) }
        tripType := tripType
        totalDistance := totalDistance
        duration := if tripType = TripType.bike then "2 ימים רציפים" else "יום אחד"
        title := orDefault (metadata.bind (fun m => m.title))
          (if tripType = TripType.bike then "טיול אופניים" else "טיול הליכה")
        description := orDefault (metadata.bind (fun m => m.description)) "מסלול מותאם אישית"
        difficulty := orDefault (metadata.bind (fun m => m.difficulty)) "בינוני"
        generatedAt := generatedAt
        source := "Groq AI + OSRM" }

/-! ## Generation guard -/

/-- Constant `REQUEST_CACHE_TIME`, in milliseconds. -/
def REQUEST_CACHE_TIME : Int := 15000

/-- The `recentRequests` map: the timestamp stored under a key, if any. -/
abbrev RecentRequests (κ : Type) := κ → Option Int

/-- Map update `recentRequests.set(key, value)`. -/
def RecentRequests.set {κ : Type} [DecidableEq κ] (recentRequests : RecentRequests κ)
    (key : κ) (value : Int) : RecentRequests κ :=
  fun k => if k = key then some value else recentRequests k

/-- Map removal `recentRequests.delete(key)`. -/
def RecentRequests.delete {κ : Type} [DecidableEq κ] (recentRequests : RecentRequests κ)
    (key : κ) : RecentRequests κ :=
  fun k => if k = key then none else recentRequests k

/-- The outcome of the duplicate check of `POST /generate`. -/
inductive Verdict
  | refused (retryAfter : Int)
  | accepted
  deriving DecidableEq, Repr

/-- The duplicate check of `POST /generate`.  The handler reads the clock in
three places: `nowTest` in the test
`lastRequest && Date.now() - lastRequest < REQUEST_CACHE_TIME`, `nowRetry` in
the `retryAfter` of the 429 answer, and `nowSet` in
`recentRequests.set(requestKey, Date.now())`.  A refusal leaves the map alone.
A stored `0` is falsy. -/
def duplicateCheckAt {κ : Type} [DecidableEq κ] (recentRequests : RecentRequests κ)
    (requestKey : κ) (nowTest nowRetry nowSet : Int) : Verdict × RecentRequests κ :=
  match recentRequests requestKey with
  | some lastRequest =>
    if lastRequest ≠ 0 ∧ nowTest - lastRequest < REQUEST_CACHE_TIME then
      (Verdict.refused (jsCeilDiv (REQUEST_CACHE_TIME - (nowRetry - lastRequest)) 1000),
        recentRequests)
    else (Verdict.accepted, recentRequests.set requestKey nowSet)
  | none => (Verdict.accepted, recentRequests.set requestKey nowSet)

/-- The duplicate check in a run whose clock readings all coincide at `now`
(the handler gets through the check within one millisecond). -/
def duplicateCheck {κ : Type} [DecidableEq κ] (recentRequests : RecentRequests κ)
    (requestKey : κ) (now : Int) : Verdict × RecentRequests κ :=
  duplicateCheckAt recentRequests requestKey now now now

/-- The `setInterval` sweep run at clock reading `now`. -/
def sweep {κ : Type} (recentRequests : RecentRequests κ) (now : Int) : RecentRequests κ :=
  fun k =>
    match recentRequests k with
    | some timestamp => if now - timestamp > REQUEST_CACHE_TIME then none else some timestamp
    | none => none

/-- What can happen to the reservation table: a generation request, the
release in the failure handler, a sweep. -/
inductive GuardEvent (κ : Type)
  | request (key : κ) (now : Int)
  | release (key : κ)
  | sweep (now : Int)

/-- One event applied to the table. -/
def guardStep {κ : Type} [DecidableEq κ] (recentRequests : RecentRequests κ) :
    GuardEvent κ → RecentRequests κ
  | GuardEvent.request key now => (duplicateCheck recentRequests key now).2
  | GuardEvent.release key => recentRequests.delete key
  | GuardEvent.sweep now => sweep recentRequests now

/-- A sequence of events applied in order. -/
def guardRun {κ : Type} [DecidableEq κ] (recentRequests : RecentRequests κ)
    (events : List (GuardEvent κ)) : RecentRequests κ :=
  events.foldl guardStep recentRequests

/-- An event that leaves the reservation of `key` in place before time `t`:
it is not a request or release of `key`, and a sweep runs no later than `t`. -/
def GuardEvent.sparesUntil {κ : Type} (key : κ) (t : Int) : GuardEvent κ → Prop
  | GuardEvent.request k _ => k ≠ key
  | GuardEvent.release k => k ≠ key
  | GuardEvent.sweep now => now ≤ t

/-! ## Road router, plausibility check and repair -/

/-- JavaScript `Math.round(x)` on an exact number: the nearest whole number,
halves towards `+∞`. -/
def jsRound (x : ℚ) : Int :=
  ⌊x + 1 / 2⌋

/-- A waypoint that passed the filter of `parseGroqWaypoints`; `day` is `none`
when the field is absent or not a number. -/
structure Waypoint where
  day : Option Int
  name : String
  coordinates : Coord
  type : String
  deriving DecidableEq, Repr

/-- The object `getWaypointsFromGroq` resolves to. -/
structure GroqData where
  waypoints : List Waypoint
  metadata : Option Metadata
  deriving DecidableEq, Repr

/-- One entry of `response.data.routes` of the routing service: distance in
metres, duration in seconds. -/
structure OsrmRoute where
  geometry : Geometry
  distance : ℚ
  duration : ℚ

/-- What `axios.get` on the routing service yields: a rejection (network
error, timeout, error status) or the `routes` array (absent counts as empty). -/
inductive OsrmReply
  | failed
  | routes (routes : List OsrmRoute)

/-- A request to the routing service: the profile and the coordinates in the
URL; `annotations` tells the URL of `createOSRMRoute`
(`steps=false&annotations=true`) from the one of `createShorterOSRMRoute`. -/
structure OsrmRequest where
  profile : String
  coordinates : List Coord
  annotations : Bool
  deriving DecidableEq, Repr

/-- The routing service as an oracle: its reply to a request, given how many
requests the run has issued before it. -/
abbrev Osrm := Nat → OsrmRequest → OsrmReply

/-- Errors `createOSRMRoute` rethrows. -/
inductive RoutingError
  | requestFailed
  | noRoutes
  deriving DecidableEq, Repr

/-- Method `isValidRoute(coordinates, distanceKm)`.  For `distanceKm = 0` the
quotient is `Infinity` or `NaN` in JavaScript and `0` here; the test
`distanceKm > 20` fails either way. -/
def isValidRoute (coordinates : List Coord) (distanceKm : Int) : Bool :=
  let pointsPerKm : ℚ := (coordinates.length : ℚ) / (distanceKm : ℚ)
  if pointsPerKm < 2 ∧ distanceKm > 20 then false else true

/-- The feature both router methods build from `routes[0]`; `day`,
`description` and `waypoints` are filled in by the callers. -/
def osrmFeature (route : OsrmRoute) (profile : String) (shortened : Bool) : Route :=
  { geometry := route.geometry
    properties := { distance := jsRound (route.distance / 1000)
                    duration := jsRound (route.duration / 60)
                    routingEngine := "OSRM", profile := profile, shortened := shortened
                    day := 0, description := "", waypoints := []
                    originalDistance := none, adjusted := none } }

/-- Method `createShorterOSRMRoute(originalCoords, profile)`, issued as request
number `issued`: the result (`none` is `null`) and the request it sent.  A
rejected request is caught and only logged. -/
def createShorterOSRMRoute (osrm : Osrm) (issued : Nat) (originalCoords : List Coord)
    (profile : String) : Option Route × List OsrmRequest :=
  let shorterCoords :=
    jsSliceFromStart originalCoords (JsNum.fin (jsCeilDiv originalCoords.length 2))
  let request : OsrmRequest :=
    { profile := profile, coordinates := shorterCoords, annotations := false }
  match osrm issued request with
  | OsrmReply.routes (route :: _) => (some (osrmFeature route profile true), [request])
  | _ => (none, [request])

/-- Method `createOSRMRoute(coordinates, profile)`, starting at request number
`issued`: the result (a thrown error, `null`, or a feature) and the requests
it sent, in order. -/
def createOSRMRoute (osrm : Osrm) (issued : Nat) (coordinates : List Coord)
    (profile : String) : Except RoutingError (Option Route) × List OsrmRequest :=
  let request : OsrmRequest :=
    { profile := profile, coordinates := coordinates, annotations := true }
  match osrm issued request with
  | OsrmReply.failed => (Except.error RoutingError.requestFailed, [request])
  | OsrmReply.routes [] => (Except.error RoutingError.noRoutes, [request])
  | OsrmReply.routes (route :: _) =>
    let distanceKm := jsRound (route.distance / 1000)
    let result := osrmFeature route profile false
    if isValidRoute route.geometry.coordinates distanceKm then
      (Except.ok (some result), [request])
    else
      let shorter := createShorterOSRMRoute osrm (issued + 1) coordinates profile
      (Except.ok shorter.1, request :: shorter.2)

/-- The name of the first (`last = false`) or last waypoint of a day. -/
def endpointName (dayWaypoints : List Waypoint) (last : Bool) : String :=
  ((if last then dayWaypoints.getLast? else dayWaypoints.head?).map (fun wp => wp.name)).getD ""

/-- The object pushed for a day in `createBikeRoutesWithOSRM`. -/
def bikeDayFeature (day : Nat) (label : String) (dayWaypoints : List Waypoint)
    (route : Route) : Route :=
  { route with
    properties := { route.properties with
      day := day
      description :=
        label ++ endpointName dayWaypoints false ++ " → " ++ endpointName dayWaypoints true
      waypoints := dayWaypoints.map (fun wp => wp.name) } }

/-- One of the two day blocks of `createBikeRoutesWithOSRM`: with fewer than 2
waypoints nothing is requested; a `null` route is not pushed. -/
def bikeDay (osrm : Osrm) (issued : Nat) (day : Nat) (label : String)
    (dayWaypoints : List Waypoint) : Except RoutingError (List Route) × List OsrmRequest :=
  if dayWaypoints.length ≥ 2 then
    let routed := createOSRMRoute osrm issued (dayWaypoints.map (fun wp => wp.coordinates))
      "cycling"
    match routed.1 with
    | Except.error e => (Except.error e, routed.2)
    | Except.ok none => (Except.ok [], routed.2)
    | Except.ok (some dayRoute) =>
      (Except.ok [bikeDayFeature day label dayWaypoints dayRoute], routed.2)
  else (Except.ok [], [])

/-- Method `createBikeRoutesWithOSRM(waypoints)`: day 1, then day 2. -/
def createBikeRoutesWithOSRM (osrm : Osrm) (issued : Nat) (waypoints : List Waypoint) :
    Except RoutingError (List Route) × List OsrmRequest :=
  let day1Waypoints := waypoints.filter (fun wp => wp.day = some 1)
  let day2Waypoints := waypoints.filter (fun wp => wp.day = some 2)
  let first := bikeDay osrm issued 1 "יום 1: " day1Waypoints
  match first.1 with
  | Except.error e => (Except.error e, first.2)
  | Except.ok routes1 =>
    let second := bikeDay osrm (issued + first.2.length) 2 "יום 2: " day2Waypoints
    match second.1 with
    | Except.error e => (Except.error e, first.2 ++ second.2)
    | Except.ok routes2 => (Except.ok (routes1 ++ routes2), first.2 ++ second.2)

/-- The arrays `coordinates` and `waypoints` of `createWalkRouteWithOSRM` after
the closing step; `none` when `waypoints` is empty (`firstCoord[0]` throws). -/
def closeWalkLoop (waypoints : List Waypoint) : Option (List Coord × List Waypoint) :=
  let coordinates := waypoints.map (fun wp => wp.coordinates)
  match waypoints.head?, coordinates.head?, coordinates.getLast? with
  | some firstWaypoint, some firstCoord, some lastCoord =>
    if firstCoord.lon ≠ lastCoord.lon ∨ firstCoord.lat ≠ lastCoord.lat then
      some (coordinates ++ [firstCoord],
        waypoints ++ [{ firstWaypoint with
          name := "חזרה ל" ++ firstWaypoint.name, type := "end" }])
    else some (coordinates, waypoints)
  | _, _, _ => none

/-- Errors of `generateTrip`. -/
inductive GenerationError
  | missingApiKey
  | waypointsFailed
  | typeError
  | routing (e : RoutingError)
  | noRealRoutes
  | validation (e : ValidationError)
  deriving DecidableEq, Repr

/-- Method `createWalkRouteWithOSRM(waypoints)`: `ok none` is `null`. -/
def createWalkRouteWithOSRM (osrm : Osrm) (issued : Nat) (waypoints : List Waypoint) :
    Except GenerationError (Option (List Route)) × List OsrmRequest :=
  match closeWalkLoop waypoints with
  | none => (Except.error GenerationError.typeError, [])
  | some (coordinates, closedWaypoints) =>
    let routed := createOSRMRoute osrm issued coordinates "foot"
    match routed.1 with
    | Except.error e => (Except.error (GenerationError.routing e), routed.2)
    | Except.ok none => (Except.ok none, routed.2)
    | Except.ok (some route) =>
      (Except.ok (some [{ route with
        properties := { route.properties with
          day := 1
          description := "מסלול הליכה סגור: " ++ endpointName closedWaypoints false
          waypoints := closedWaypoints.map (fun wp => wp.name) } }]), routed.2)

/-- Method `createRealRoutesFromWaypoints(groqData, tripType)`. -/
def createRealRoutesFromWaypoints (osrm : Osrm) (issued : Nat) (groqData : GroqData)
    (tripType : TripType) : Except GenerationError (Option (List Route)) × List OsrmRequest :=
  if tripType = TripType.bike then
    let routed := createBikeRoutesWithOSRM osrm issued groqData.waypoints
    match routed.1 with
    | Except.error e => (Except.error (GenerationError.routing e), routed.2)
    | Except.ok routes => (Except.ok (some routes), routed.2)
  else createWalkRouteWithOSRM osrm issued groqData.waypoints

/-- Method `generateTrip(destination, tripType)`.  The waypoint step
`getWaypointsFromGroq` is an oracle (`none` when it throws); the result comes
with the routing requests sent, in order. -/
def generateTrip (groqApiKey : Option String)
    (groq : Destination → TripType → Option GroqData) (osrm : Osrm)
    (destination : Destination) (tripType : TripType) (generatedAt : String) :
    Except GenerationError Trip × List OsrmRequest :=
  if orDefault groqApiKey "" = "" then (Except.error GenerationError.missingApiKey, [])
  else
    let tripType := if tripType = TripType.trek then TripType.walk else tripType
    match groq destination tripType with
    | none => (Except.error GenerationError.waypointsFailed, [])
    | some groqWaypoints =>
      let realRoutes := createRealRoutesFromWaypoints osrm 0 groqWaypoints tripType
      match realRoutes.1 with
      | Except.error e => (Except.error e, realRoutes.2)
      | Except.ok none => (Except.error GenerationError.noRealRoutes, realRoutes.2)
      | Except.ok (some []) => (Except.error GenerationError.noRealRoutes, realRoutes.2)
      | Except.ok (some (route :: rest)) =>
        match adjustRoutesToConstraints (route :: rest) tripType with
        | none => (Except.error GenerationError.typeError, realRoutes.2)
        | some adjustedRoutes =>
          match buildFinalTrip adjustedRoutes destination tripType groqWaypoints.metadata
              generatedAt with
          | Except.error e => (Except.error (GenerationError.validation e), realRoutes.2)
          | Except.ok finalTrip => (Except.ok finalTrip, realRoutes.2)

/-! ## Waypoint proposer: parsing the response -/

/-- A value produced by `JSON.parse`; numbers are in fixed-point units and the
fields of an object are its own properties, each key once. -/
inductive Json
  | null
  | bool (b : Bool)
  | num (n : Int)
  | str (s : String)
  | arr (items : List Json)
  | obj (fields : List (String × Json))

/-- Truthiness of a parsed value. -/
def Json.truthy : Json → Bool
  | Json.null => false
  | Json.bool b => b
  | Json.num n => decide (n ≠ 0)
  | Json.str s => decide (s ≠ "")
  | Json.arr _ => true
  | Json.obj _ => true

/-- Property read `value.key` on a value other than `null`: `none` is
`undefined`, which is what every key reads as on a non-object. -/
def Json.get (value : Json) (key : String) : Option Json :=
  match value with
  | Json.obj fields => fields.lookup key
  | _ => none

/-- Assignment `value.key = newValue` on an object that has the key. -/
def Json.set (value : Json) (key : String) (newValue : Json) : Json :=
  match value with
  | Json.obj fields =>
    Json.obj (fields.map (fun field => if field.1 == key then (field.1, newValue) else field))
  | other => other

/-- The code points `String.prototype.trim` strips: white space and line
terminators. -/
def jsIsWhiteSpace (c : Char) : Bool :=
  c.val.toNat ∈ [0x09, 0x0A, 0x0B, 0x0C, 0x0D, 0x20, 0xA0, 0x1680, 0x2028, 0x2029, 0x202F,
      0x205F, 0x3000, 0xFEFF] ||
    (0x2000 ≤ c.val.toNat && c.val.toNat ≤ 0x200A)

/-- JavaScript `s.trim()` on the characters of a string. -/
def jsTrimChars (cs : List Char) : List Char :=
  ((cs.dropWhile jsIsWhiteSpace).reverse.dropWhile jsIsWhiteSpace).reverse

/-- JavaScript `s.trim()`. -/
def jsTrim (s : String) : String :=
  String.mk (jsTrimChars s.toList)

/-- JavaScript `s.indexOf(c)` for a single character: `-1` when absent. -/
def jsIndexOf (cs : List Char) (c : Char) : Int :=
  if c ∈ cs then (cs.indexOf c : Int) else -1

/-- JavaScript `s.lastIndexOf(c)` for a single character: `-1` when absent. -/
def jsLastIndexOf (cs : List Char) (c : Char) : Int :=
  if c ∈ cs then (cs.length : Int) - 1 - (cs.reverse.indexOf c : Int) else -1

/-- The text `parseGroqWaypoints` hands to `JSON.parse`: the trimmed response,
cut down to `substring(jsonStart, jsonEnd)` when the braces are found. -/
def extractJsonText (llmResponse : String) : String :=
  let cleanResponse := jsTrimChars llmResponse.toList
  let jsonStart := jsIndexOf cleanResponse '\x7b'
  let jsonEnd := jsLastIndexOf cleanResponse '\x7d' + 1
  if jsonStart ≠ -1 ∧ jsonEnd > jsonStart then
    String.mk ((cleanResponse.take jsonEnd.toNat).drop jsonStart.toNat)
  else String.mk cleanResponse

/-- The callback of `parsedData.waypoints.filter`: `none` when evaluating it
throws a `TypeError` (reading `coordinates` of `null`, or calling `trim` on a
truthy `name` that is not a string). -/
def keepWaypoint (wp : Json) : Option Bool :=
  match wp with
  | Json.null => none
  | _ =>
    match wp.get "coordinates" with
    | some (Json.arr [Json.num _, Json.num _]) =>
      match wp.get "name" with
      | some (Json.str name) => some (decide (name ≠ "") && decide ((jsTrim name).length > 0))
      | some other => if other.truthy then none else some false
      | none => some false
    | _ => some false

/-- The call `parsedData.waypoints.filter(...)`, element by element: `none`
when the callback throws. -/
def filterWaypoints : List Json → Option (List Json)
  | [] => some []
  | wp :: rest =>
    match keepWaypoint wp with
    | none => none
    | some keep =>
      match filterWaypoints rest with
      | none => none
      | some kept => some (if keep then wp :: kept else kept)

/-- The one error `parseGroqWaypoints` lets out: its `catch` rethrows everything
as `Invalid waypoints response from Groq`. -/
inductive ParseError
  | invalidResponse

/-- The part of `parseGroqWaypoints` after `JSON.parse`: the `waypoints` check,
the filter, the count check. -/
def filterParsedData (parsedData : Json) : Except ParseError Json :=
  match parsedData with
  | Json.null => Except.error ParseError.invalidResponse
  | _ =>
    match parsedData.get "waypoints" with
    | some (Json.arr waypoints) =>
      match filterWaypoints waypoints with
      | none => Except.error ParseError.invalidResponse
      | some kept =>
        if kept.length < 2 then Except.error ParseError.invalidResponse
        else Except.ok (parsedData.set "waypoints" (Json.arr kept))
    | _ => Except.error ParseError.invalidResponse

/-- Method `parseGroqWaypoints(llmResponse)`, with `JSON.parse` as an oracle
(`none` when it throws). -/
def parseGroqWaypoints (jsonParse : String → Option Json) (llmResponse : String) :
    Except ParseError Json :=
  match jsonParse (extractJsonText llmResponse) with
  | none => Except.error ParseError.invalidResponse
  | some parsedData => filterParsedData parsedData

/-- What the specification calls a valid waypoint: a coordinate array of two
numbers and a name that is not empty after trimming. -/
def validWaypoint (wp : Json) : Bool :=
  match wp.get "coordinates", wp.get "name" with
  | some (Json.arr [Json.num _, Json.num _]), some (Json.str name) =>
    decide ((jsTrim name).length > 0)
  | _, _ => false

/-! ## Request handler of `POST /generate` -/

/-- The key `userId-JSON.stringify(destination)-tripType`, as the data the
string is built from: a destination is its `country`, `city` and
`coordinates`, an absent property being `none`.  `JSON.stringify` also tells
apart the order in which the request body lists the properties and any further
property of it, which this record leaves out. -/
structure RequestKey where
  userId : String
  destination : Destination
  tripType : TripType
  deriving DecidableEq, Repr

/-- The template string that builds the request key. -/
def requestKey (userId : String) (destination : Destination) (tripType : TripType) :
    RequestKey :=
  { userId := userId, destination := destination, tripType := tripType }

/-- The statement `if (!destination.city) destination.city = destination.country`,
which writes into `req.body.destination`. -/
def defaultCity (destination : Destination) : Destination :=
  if orDefault destination.city "" = "" then
    { destination with city := some destination.country }
  else destination

/-- How a run of the handler ends: status 429, status 200 with the trip, or the
`catch` block. -/
inductive HandlerOutcome (ε : Type)
  | tooManyRequests (retryAfter : Int)
  | success (trip : Trip)
  | failure (error : ε)

/-- The handler of `POST /generate` for a request that passed validation, in a
run whose duplicate check reads the clock as `now` throughout; `service` stands
for the race between `llmService.generateTrip` and the 30 second timeout.  The
`catch` block rebuilds the key from `req.body`, that is from the destination
after `defaultCity`. -/
def generateHandler {ε : Type} (recentRequests : RecentRequests RequestKey) (userId : String)
    (destination : Destination) (tripType : TripType) (now : Int)
    (service : Destination → TripType → Except ε Trip) :
    HandlerOutcome ε × RecentRequests RequestKey :=
  let checked := duplicateCheck recentRequests (requestKey userId destination tripType) now
  match checked.1 with
  | Verdict.refused retryAfter => (HandlerOutcome.tooManyRequests retryAfter, checked.2)
  | Verdict.accepted =>
    let destination := defaultCity destination
    match service destination tripType with
    | Except.ok tripData => (HandlerOutcome.success tripData, checked.2)
    | Except.error error =>
      (HandlerOutcome.failure error,
        checked.2.delete (requestKey userId destination tripType))

/-! ## Sample data -/

/-- A route with `n` collinear coordinates and the given distance. -/
def sampleRoute (n : Nat) (distance : Int) : Route :=
  { geometry := { type := "LineString"
                  coordinates := (List.range n).map (fun i => ⟨(i : Int), 0⟩) }
    properties := { distance := distance, duration := 3 * distance
                    routingEngine := "OSRM", profile := "cycling", shortened := false
                    day := 1, description := "", waypoints := []
                    originalDistance := none, adjusted := none } }

/-- A table holding one reservation, of key `7` at clock reading `1000`. -/
def sampleReserved : RecentRequests Nat :=
  (duplicateCheck (fun _ => none) 7 1000).2

/-- A request and a release of another key with a sweep in between. -/
def sampleEvents : List (GuardEvent Nat) :=
  [GuardEvent.request 8 2000, GuardEvent.sweep 3000, GuardEvent.release 8]

/-- A closed walk of 9 km that starts and ends at `[12, 41]`. -/
def sampleLoop : Route :=
  { geometry := { type := "LineString", coordinates := [⟨12, 41⟩, ⟨13, 42⟩, ⟨12, 41⟩] }
    properties := { distance := 9, duration := 135
                    routingEngine := "OSRM", profile := "foot", shortened := false
                    day := 1, description := "", waypoints := []
                    originalDistance := none, adjusted := none } }

/-- A routing answer of 12500 m and 3630 s over three coordinates. -/
def sampleOsrmRoute : OsrmRoute :=
  { geometry := { type := "LineString", coordinates := [⟨0, 0⟩, ⟨1, 1⟩, ⟨2, 2⟩] }
    distance := 12500, duration := 3630 }

/-- A routing service that always answers with `sampleOsrmRoute`. -/
def sampleOsrm : Osrm :=
  fun _ _ => OsrmReply.routes [sampleOsrmRoute]

/-- Four walk waypoints whose last coordinate is not the first. -/
def sampleOpenWalk : List Waypoint :=
  [⟨some 1, "Main Square", ⟨10, 10⟩, "start"⟩, ⟨some 1, "Cathedral", ⟨11, 10⟩, "interest"⟩,
   ⟨some 1, "City Park", ⟨11, 11⟩, "interest"⟩, ⟨some 1, "Old Town", ⟨10, 11⟩, "interest"⟩]

/-- Four walk waypoints that already return to the first coordinate. -/
def sampleClosedWalk : List Waypoint :=
  [⟨some 1, "Main Square", ⟨10, 10⟩, "start"⟩, ⟨some 1, "Cathedral", ⟨11, 10⟩, "interest"⟩,
   ⟨some 1, "City Park", ⟨11, 11⟩, "interest"⟩, ⟨some 1, "Main Square", ⟨10, 10⟩, "end"⟩]

/-- A routing answer of 30000 m over three coordinates, too sparse to pass
the plausibility check. -/
def sparseOsrmRoute : OsrmRoute :=
  { geometry := { type := "LineString", coordinates := [⟨0, 0⟩, ⟨1, 1⟩, ⟨2, 2⟩] }
    distance := 30000, duration := 5400 }

/-- A routing service that answers `createOSRMRoute` with the sparse route and
rejects the repair request. -/
def sparseOsrm : Osrm :=
  fun _ request =>
    if request.annotations then OsrmReply.routes [sparseOsrmRoute] else OsrmReply.failed

/-- A waypoint service that always proposes `sampleOpenWalk`. -/
def sampleWalkGroq : Destination → TripType → Option GroqData :=
  fun _ _ => some ⟨sampleOpenWalk, none⟩

/-- A parsed waypoint with a string name. -/
def sampleJsonWaypoint (name : String) (lon lat : Int) : Json :=
  Json.obj [("day", Json.num 1), ("name", Json.str name),
    ("coordinates", Json.arr [Json.num lon, Json.num lat]), ("type", Json.str "interest")]

/-- A parsed response with two well-formed waypoints after one whose name is
the number 5. -/
def sampleNumericName : Json :=
  Json.obj [("waypoints", Json.arr
    [Json.obj [("day", Json.num 1), ("name", Json.num 5),
      ("coordinates", Json.arr [Json.num 10, Json.num 10])],
     sampleJsonWaypoint "Cathedral" 11 10, sampleJsonWaypoint "City Park" 11 11]),
    ("metadata", Json.obj [("title", Json.str "Walking Tour")])]

/-- A request for Italy without a city. -/
def sampleNoCity : Destination :=
  { country := "Italy", city := none, coordinates := none }

/-- A request for Rome, Italy. -/
def sampleWithCity : Destination :=
  { country := "Italy", city := some "Rome", coordinates := none }

/-- A pipeline that always fails. -/
def sampleFailingService : Destination → TripType → Except String Trip :=
  fun _ _ => Except.error "No routes returned from OSRM"

/-- Bike waypoints with two points on day 1 and a single point on day 2. -/
def sampleShortDay : List Waypoint :=
  [⟨some 1, "Central Square", ⟨10, 10⟩, "start"⟩, ⟨some 1, "Nearby Town", ⟨12, 10⟩, "overnight"⟩,
   ⟨some 2, "Final Town", ⟨14, 11⟩, "end"⟩]

/-- A waypoint service that always proposes `sampleShortDay`. -/
def sampleShortDayGroq : Destination → TripType → Option GroqData :=
  fun _ _ => some ⟨sampleShortDay, none⟩

/-- A routing service that rejects every request. -/
def rejectingOsrm : Osrm :=
  fun _ _ => OsrmReply.failed

/-! ## Final validation: lemmas -/

theorem checkBikeDays_ok_iff (routes : List Route) (index : Nat) :
    checkBikeDays routes index = Except.ok () ↔
      ∀ r ∈ routes, 10 ≤ r.properties.distance ∧ r.properties.distance ≤ 60 := by
  induction routes generalizing index with
  | nil => simp [checkBikeDays]
  | cons route rest ih =>
    simp only [checkBikeDays, List.mem_cons, forall_eq_or_imp]
    by_cases h60 : route.properties.distance > 60
    · simp only [h60, if_true]
      constructor
      · intro h; cases h
      · intro h; omega
    · by_cases h10 : route.properties.distance < 10
      · simp only [h60, h10, if_true, if_false]
        constructor
        · intro h; cases h
        · intro h; omega
      · simp only [h60, h10, if_false, ih]
        constructor
        · intro h; exact ⟨by omega, h⟩
        · intro h; exact h.2

theorem buildFinalTrip_ok_routes {routes : List Route} {destination : Destination}
    {tripType : TripType} {metadata : Option Metadata} {generatedAt : String} {trip : Trip}
    (h : buildFinalTrip routes destination tripType metadata generatedAt = Except.ok trip) :
    validateFinalTrip routes tripType = Except.ok () ∧ trip.routes = routes ∧
      trip.totalDistance = routes.foldl (fun sum route => sum + route.properties.distance) 0 := by
  unfold buildFinalTrip at h
  cases hv : validateFinalTrip routes tripType with
  | error e => rw [hv] at h; cases h
  | ok u =>
    rw [hv] at h
    simp only [Except.ok.injEq] at h
    subst h
    exact ⟨rfl, rfl, rfl⟩

theorem buildFinalTrip_returns_iff (routes : List Route) (destination : Destination)
    (tripType : TripType) (metadata : Option Metadata) (generatedAt : String) :
    (∃ trip, buildFinalTrip routes destination tripType metadata generatedAt = Except.ok trip) ↔
      validateFinalTrip routes tripType = Except.ok () := by
  constructor
  · rintro ⟨trip, h⟩
    exact (buildFinalTrip_ok_routes h).1
  · intro hv
    unfold buildFinalTrip
    rw [hv]
    exact ⟨_, rfl⟩

/-! ## Final validation: claims -/

/-- C1: for trip type bike, `validateFinalTrip` succeeds exactly when there are
2 routes and every route's distance lies in [10, 60]; `buildFinalTrip` returns
a trip exactly when that validation succeeds, and every bike trip it returns
has 2 routes, each with distance in [10, 60]. -/
theorem C1_bike_validation (routes : List Route) :
    (validateFinalTrip routes TripType.bike = Except.ok () ↔
      routes.length = 2 ∧
        ∀ r ∈ routes, 10 ≤ r.properties.distance ∧ r.properties.distance ≤ 60) ∧
    (∀ destination metadata generatedAt,
      ((∃ trip, buildFinalTrip routes destination TripType.bike metadata generatedAt
          = Except.ok trip) ↔ validateFinalTrip routes TripType.bike = Except.ok ()) ∧
      ∀ trip, buildFinalTrip routes destination TripType.bike metadata generatedAt
          = Except.ok trip →
        trip.routes.length = 2 ∧
          ∀ r ∈ trip.routes, 10 ≤ r.properties.distance ∧ r.properties.distance ≤ 60) := by
  have key : validateFinalTrip routes TripType.bike = Except.ok () ↔
      routes.length = 2 ∧
        ∀ r ∈ routes, 10 ≤ r.properties.distance ∧ r.properties.distance ≤ 60 := by
    unfold validateFinalTrip
    by_cases hlen : routes.length = 2
    · simp [hlen, checkBikeDays_ok_iff]
    · simp [hlen]
  refine ⟨key, fun destination metadata generatedAt =>
    ⟨buildFinalTrip_returns_iff _ _ _ _ _, ?_⟩⟩
  intro trip h
  obtain ⟨hv, hr, _⟩ := buildFinalTrip_ok_routes h
  rw [hr]
  exact key.mp hv

/-- C1 at two days of 40 km and 55 km: validation succeeds and a trip is returned. -/
theorem C1_bike_validation_witness :
    validateFinalTrip [sampleRoute 5 40, sampleRoute 5 55] TripType.bike = Except.ok () ∧
    ∃ trip, buildFinalTrip [sampleRoute 5 40, sampleRoute 5 55] ⟨"Italy", some "Rome", none⟩
      TripType.bike none "now" = Except.ok trip :=
  have h := C1_bike_validation [sampleRoute 5 40, sampleRoute 5 55]
  have hv := h.1.mpr ⟨rfl, by simp [sampleRoute]⟩
  ⟨hv, ((h.2 ⟨"Italy", some "Rome", none⟩ none "now").1).mpr hv⟩

/-- C2: for trip type walk, `validateFinalTrip` succeeds exactly when there is
1 route and its distance lies in [5, 15]; `buildFinalTrip` returns a trip
exactly when that validation succeeds, and every walk trip it returns has 1
route and a total distance in [5, 15]. -/
theorem C2_walk_validation (routes : List Route) :
    (validateFinalTrip routes TripType.walk = Except.ok () ↔
      routes.length = 1 ∧
        ∀ r ∈ routes, 5 ≤ r.properties.distance ∧ r.properties.distance ≤ 15) ∧
    (∀ destination metadata generatedAt,
      ((∃ trip, buildFinalTrip routes destination TripType.walk metadata generatedAt
          = Except.ok trip) ↔ validateFinalTrip routes TripType.walk = Except.ok ()) ∧
      ∀ trip, buildFinalTrip routes destination TripType.walk metadata generatedAt
          = Except.ok trip →
        trip.routes.length = 1 ∧ 5 ≤ trip.totalDistance ∧ trip.totalDistance ≤ 15) := by
  have key : validateFinalTrip routes TripType.walk = Except.ok () ↔
      routes.length = 1 ∧
        ∀ r ∈ routes, 5 ≤ r.properties.distance ∧ r.properties.distance ≤ 15 := by
    unfold validateFinalTrip
    match routes with
    | [] => simp
    | [route] =>
      by_cases h : route.properties.distance < 5 ∨ route.properties.distance > 15
      · simp only [h, if_true]
        constructor
        · intro h'; simp at h'
        · intro h'; simp at h'; omega
      · simp only [h, if_false]
        simp
        omega
    | _ :: _ :: _ => simp
  refine ⟨key, fun destination metadata generatedAt =>
    ⟨buildFinalTrip_returns_iff _ _ _ _ _, ?_⟩⟩
  intro trip h
  obtain ⟨hv, hr, ht⟩ := buildFinalTrip_ok_routes h
  obtain ⟨hlen, hd⟩ := key.mp hv
  rw [hr, ht]
  match routes, hlen, hd with
  | [route], _, hd =>
    have := hd route (List.mem_singleton.mpr rfl)
    simpa using this

/-- C2 at one route of 9 km: validation succeeds and a trip is returned. -/
theorem C2_walk_validation_witness :
    validateFinalTrip [sampleRoute 5 9] TripType.walk = Except.ok () ∧
    ∃ trip, buildFinalTrip [sampleRoute 5 9] ⟨"Greece", some "Athens", none⟩
      TripType.walk none "now" = Except.ok trip :=
  have h := C2_walk_validation [sampleRoute 5 9]
  have hv := h.1.mpr ⟨rfl, by simp [sampleRoute]⟩
  ⟨hv, ((h.2 ⟨"Greece", some "Athens", none⟩ none "now").1).mpr hv⟩

/-! ## Constraint adjuster: lemmas -/

theorem jsSliceFromStart_initial {α : Type} (xs : List α) (e : JsNum) :
    jsSliceFromStart xs e <+: xs := by
  cases e with
  | nan => exact List.nil_prefix
  | posInf => exact List.prefix_refl xs
  | negInf => exact List.nil_prefix
  | fin k =>
    simp only [jsSliceFromStart]
    split
    · exact List.take_prefix _ xs
    · exact List.take_prefix _ xs

theorem jsSliceFromStart_length_le {α : Type} (xs : List α) (e : JsNum) :
    (jsSliceFromStart xs e).length ≤ xs.length :=
  (jsSliceFromStart_initial xs e).length_le

/-- Each segment the adjuster returns is the adjusted form of the input
segment at the same position. -/
theorem adjustRoutesToConstraints_getElem? {routes out : List Route} {tripType : TripType}
    (h : adjustRoutesToConstraints routes tripType = some out) {i : Nat} {r : Route}
    (hr : out[i]? = some r) :
    ∃ r0, routes[i]? = some r0 ∧
      r = if tripType = TripType.bike then adjustBikeRoute r0 else adjustWalkRoute r0 := by
  unfold adjustRoutesToConstraints at h
  by_cases hb : tripType = TripType.bike
  · simp only [hb, if_true, Option.some.injEq] at h
    subst h
    rw [List.getElem?_map] at hr
    cases hi : routes[i]? with
    | none => rw [hi] at hr; cases hr
    | some r0 =>
      rw [hi] at hr
      simp only [Option.map_some', Option.some.injEq] at hr
      exact ⟨r0, rfl, by simp [hb, hr]⟩
  · simp only [hb, if_false] at h
    match routes, h with
    | route :: rest, h =>
      simp only [Option.some.injEq] at h
      subst h
      match i, hr with
      | 0, hr =>
        simp only [List.getElem?_cons_zero, Option.some.injEq] at hr
        exact ⟨route, by simp, by simp [hb, hr]⟩

theorem adjustRoutesToConstraints_isSome (routes : List Route) (tripType : TripType)
    (h : tripType = TripType.bike ∨ routes ≠ []) :
    ∃ out, adjustRoutesToConstraints routes tripType = some out := by
  unfold adjustRoutesToConstraints
  by_cases hb : tripType = TripType.bike
  · exact ⟨routes.map adjustBikeRoute, by simp [hb]⟩
  · match routes, h with
    | route :: rest, _ => exact ⟨[adjustWalkRoute route], by simp [hb]⟩
    | [], h =>
      rcases h with h | h
      · exact absurd h hb
      · exact absurd rfl h

theorem adjustBikeRoute_adjusted (r0 : Route) :
    (adjustBikeRoute r0).properties.adjusted =
      some (decide ((adjustBikeRoute r0).properties.distance ≠ r0.properties.distance)) := by
  unfold adjustBikeRoute
  simp only [ne_eq, decide_not, Option.some.injEq]
  congr 1
  exact decide_eq_decide.mpr eq_comm

theorem adjustWalkRoute_adjusted (r0 : Route) :
    (adjustWalkRoute r0).properties.adjusted =
      some (decide ((adjustWalkRoute r0).properties.distance ≠ r0.properties.distance)) := by
  unfold adjustWalkRoute
  simp only [ne_eq, decide_not, Option.some.injEq]
  congr 1
  exact decide_eq_decide.mpr eq_comm

/-- The floor of the scaled length is a number, not `NaN`, for a non-empty array
and a non-zero target. -/
theorem jsFloorScaled_ne_nan (length : Nat) (targetDistance distance : Int)
    (hlen : length ≠ 0) (ht : targetDistance ≠ 0) :
    jsFloorScaled length targetDistance distance ≠ JsNum.nan := by
  unfold jsFloorScaled
  split
  · split <;> simp
  · simp only
    split
    · split <;> simp
    · split
      · split <;> simp
      · simp

theorem jsSliceFromStart_max2 {α : Type} (xs : List α) (v : JsNum) (hv : v ≠ JsNum.nan)
    (hlen : 2 ≤ xs.length) : 2 ≤ (jsSliceFromStart xs (jsMax2 v)).length := by
  cases v with
  | nan => exact absurd rfl hv
  | posInf => exact hlen
  | negInf =>
    simp only [jsMax2, jsSliceFromStart]
    rw [if_neg (by decide)]
    simp only [List.length_take]
    omega
  | fin k =>
    simp only [jsMax2, jsSliceFromStart]
    have h3 : ¬ max 2 k < 0 := by omega
    simp only [h3, if_false, List.length_take]
    omega

theorem jsSliceFromStart_max2_length {α : Type} (xs : List α) (maxDistance distance : Int)
    (hlen : 2 ≤ xs.length) (hmax : 0 < maxDistance) :
    2 ≤ (jsSliceFromStart xs (jsMax2 (jsFloorScaled xs.length maxDistance distance))).length :=
  jsSliceFromStart_max2 xs _
    (jsFloorScaled_ne_nan xs.length maxDistance distance (by omega) (by omega)) hlen

theorem truncateRouteToDistance_coordinates_initial (route : Route) (maxDistance : Int) :
    (truncateRouteToDistance route maxDistance).geometry.coordinates <+:
      route.geometry.coordinates := by
  unfold truncateRouteToDistance
  exact jsSliceFromStart_initial _ _

/-! ## Constraint adjuster: claims -/

/-- C3: for every trip type and route list, each returned segment corresponds
to the input segment at the same position, and its `adjusted` flag is `true`
exactly when its final distance differs from that input segment's distance
(and `false` exactly when it does not); the adjuster returns for every bike
list and every non-empty list. -/
theorem C3_adjusted_iff_distance_changed (routes : List Route) (tripType : TripType) :
    (tripType = TripType.bike ∨ routes ≠ [] →
      ∃ out, adjustRoutesToConstraints routes tripType = some out) ∧
    ∀ out, adjustRoutesToConstraints routes tripType = some out →
      ∀ (i : Nat) (r : Route), out[i]? = some r →
        ∃ r0 : Route, routes[i]? = some r0 ∧
          (r.properties.adjusted = some true ↔
            r.properties.distance ≠ r0.properties.distance) ∧
          (r.properties.adjusted = some false ↔
            r.properties.distance = r0.properties.distance) := by
  refine ⟨adjustRoutesToConstraints_isSome routes tripType, ?_⟩
  intro out h i r hr
  obtain ⟨r0, h0, hr0⟩ := adjustRoutesToConstraints_getElem? h hr
  refine ⟨r0, h0, ?_⟩
  have hadj : r.properties.adjusted =
      some (decide (r.properties.distance ≠ r0.properties.distance)) := by
    by_cases hb : tripType = TripType.bike
    · simp only [hb, if_true] at hr0
      rw [hr0]; exact adjustBikeRoute_adjusted r0
    · simp only [hb, if_false] at hr0
      rw [hr0]; exact adjustWalkRoute_adjusted r0
  rw [hadj]
  by_cases hd : r.properties.distance = r0.properties.distance
  · simp [hd]
  · simp [hd]

/-- C3 on a bike list of 72 km and 40 km: the first segment is flagged, the
second is not. -/
theorem C3_adjusted_iff_distance_changed_witness :
    ∃ out, adjustRoutesToConstraints [sampleRoute 13 72, sampleRoute 12 40] TripType.bike
        = some out ∧
      (out.map (fun r => r.properties.adjusted)) = [some true, some false] ∧
      ∀ (i : Nat) (r : Route), out[i]? = some r →
        ∃ r0 : Route, [sampleRoute 13 72, sampleRoute 12 40][i]? = some r0 ∧
          (r.properties.adjusted = some true ↔
            r.properties.distance ≠ r0.properties.distance) ∧
          (r.properties.adjusted = some false ↔
            r.properties.distance = r0.properties.distance) :=
  ⟨[adjustBikeRoute (sampleRoute 13 72), adjustBikeRoute (sampleRoute 12 40)], rfl, by decide,
    (C3_adjusted_iff_distance_changed [sampleRoute 13 72, sampleRoute 12 40] TripType.bike).2
      _ rfl⟩

/-- C4: truncating a route whose geometry has at least 2 coordinates to a
positive `maxDistance` leaves at least 2 coordinates and no more than the
original count. -/
theorem C4_truncate_keeps_two (route : Route) (maxDistance : Int)
    (hlen : 2 ≤ route.geometry.coordinates.length) (hmax : 0 < maxDistance) :
    2 ≤ (truncateRouteToDistance route maxDistance).geometry.coordinates.length ∧
    (truncateRouteToDistance route maxDistance).geometry.coordinates.length ≤
      route.geometry.coordinates.length :=
  ⟨jsSliceFromStart_max2_length _ _ _ hlen hmax,
    (truncateRouteToDistance_coordinates_initial route maxDistance).length_le⟩

/-- C4 on a 3-point route of 600 km cut to 60 km: 2 of the 3 coordinates stay. -/
theorem C4_truncate_keeps_two_witness :
    (truncateRouteToDistance (sampleRoute 3 600) 60).geometry.coordinates.length = 2 ∧
    2 ≤ (truncateRouteToDistance (sampleRoute 3 600) 60).geometry.coordinates.length ∧
    (truncateRouteToDistance (sampleRoute 3 600) 60).geometry.coordinates.length ≤
      (sampleRoute 3 600).geometry.coordinates.length :=
  ⟨by decide, C4_truncate_keeps_two (sampleRoute 3 600) 60 (by decide) (by decide)⟩

/-- C5: in a bike list, a segment whose routed distance `d` exceeds 60 comes
back at the same position with distance 60, `adjusted = true`,
`originalDistance = d`, and a geometry whose coordinates are a prefix of the
original coordinates. -/
theorem C5_bike_over_limit (routes : List Route) (i : Nat) (r0 : Route)
    (h0 : routes[i]? = some r0) (hd : 60 < r0.properties.distance) :
    ∃ out r, adjustRoutesToConstraints routes TripType.bike = some out ∧
      out.length = routes.length ∧ out[i]? = some r ∧
      r.properties.distance = 60 ∧ r.properties.adjusted = some true ∧
      r.properties.originalDistance = some r0.properties.distance ∧
      r.geometry.coordinates <+: r0.geometry.coordinates ∧
      r.geometry.type = r0.geometry.type := by
  refine ⟨routes.map adjustBikeRoute, adjustBikeRoute r0, by simp [adjustRoutesToConstraints],
    by simp, by simp [List.getElem?_map, h0], ?_⟩
  have hgt : r0.properties.distance > 60 := hd
  have hne : ¬ r0.properties.distance = 60 := by omega
  refine ⟨?_, ?_, ?_, ?_, ?_⟩
  · simp [adjustBikeRoute, hgt, truncateRouteToDistance]
  · simp [adjustBikeRoute, hgt, truncateRouteToDistance, hne]
  · simp [adjustBikeRoute]
  · simp only [adjustBikeRoute, hgt, if_true]
    exact truncateRouteToDistance_coordinates_initial r0 60
  · simp [adjustBikeRoute, hgt, truncateRouteToDistance]

/-- C5 at a first day of 72 km over 13 coordinates: distance 60, flagged, the
original 72 kept, and the first 10 coordinates kept. -/
theorem C5_bike_over_limit_witness :
    (adjustRoutesToConstraints [sampleRoute 13 72, sampleRoute 12 40] TripType.bike).map
        (fun out => out.map (fun r => (r.properties.distance, r.properties.adjusted,
          r.properties.originalDistance, r.geometry.coordinates.length)))
      = some [(60, some true, some 72, 10), (40, some false, some 40, 12)] ∧
    ∃ out r, adjustRoutesToConstraints [sampleRoute 13 72, sampleRoute 12 40] TripType.bike
        = some out ∧
      out.length = [sampleRoute 13 72, sampleRoute 12 40].length ∧ out[0]? = some r ∧
      r.properties.distance = 60 ∧ r.properties.adjusted = some true ∧
      r.properties.originalDistance = some (sampleRoute 13 72).properties.distance ∧
      r.geometry.coordinates <+: (sampleRoute 13 72).geometry.coordinates ∧
      r.geometry.type = (sampleRoute 13 72).geometry.type :=
  ⟨by decide,
    C5_bike_over_limit [sampleRoute 13 72, sampleRoute 12 40] 0 (sampleRoute 13 72) rfl
      (by decide)⟩

/-- C6: in a bike list, a segment whose routed distance `d` is below 35 comes
back at the same position with distance 35, `adjusted = true`,
`originalDistance = d`, and the input geometry unchanged. -/
theorem C6_bike_under_limit (routes : List Route) (i : Nat) (r0 : Route)
    (h0 : routes[i]? = some r0) (hd : r0.properties.distance < 35) :
    ∃ out r, adjustRoutesToConstraints routes TripType.bike = some out ∧
      out.length = routes.length ∧ out[i]? = some r ∧
      r.properties.distance = 35 ∧ r.properties.adjusted = some true ∧
      r.properties.originalDistance = some r0.properties.distance ∧
      r.geometry = r0.geometry := by
  refine ⟨routes.map adjustBikeRoute, adjustBikeRoute r0, by simp [adjustRoutesToConstraints],
    by simp, by simp [List.getElem?_map, h0], ?_⟩
  have hgt : ¬ r0.properties.distance > 60 := by omega
  have hne : ¬ r0.properties.distance = 35 := by omega
  refine ⟨?_, ?_, ?_, ?_⟩
  · simp [adjustBikeRoute, hgt, hd, extendRouteToDistance]
  · simp [adjustBikeRoute, hgt, hd, extendRouteToDistance, hne]
  · simp [adjustBikeRoute]
  · simp [adjustBikeRoute, hgt, hd, extendRouteToDistance]

/-- C6 at a second day of 20 km: distance 35, flagged, geometry untouched. -/
theorem C6_bike_under_limit_witness :
    ∃ out r, adjustRoutesToConstraints [sampleRoute 12 40, sampleRoute 7 20] TripType.bike
        = some out ∧
      out.length = [sampleRoute 12 40, sampleRoute 7 20].length ∧ out[1]? = some r ∧
      r.properties.distance = 35 ∧ r.properties.adjusted = some true ∧
      r.properties.originalDistance = some (sampleRoute 7 20).properties.distance ∧
      r.geometry = (sampleRoute 7 20).geometry :=
  C6_bike_under_limit [sampleRoute 12 40, sampleRoute 7 20] 1 (sampleRoute 7 20) rfl
    (by decide)

/-- C7: for a walk list with first route of routed distance `d`, the adjuster
returns one segment whose distance is 5 when `d < 5`, 15 when `d > 15` and `d`
otherwise, that is `d` clamped into [5, 15], and whose geometry is the input
geometry in every case. -/
theorem C7_walk_clamp (route : Route) (rest : List Route) :
    ∃ r, adjustRoutesToConstraints (route :: rest) TripType.walk = some [r] ∧
      (route.properties.distance < 5 → r.properties.distance = 5) ∧
      (15 < route.properties.distance → r.properties.distance = 15) ∧
      (5 ≤ route.properties.distance → route.properties.distance ≤ 15 →
        r.properties.distance = route.properties.distance) ∧
      r.properties.distance = max 5 (min 15 route.properties.distance) ∧
      r.geometry = route.geometry := by
  refine ⟨adjustWalkRoute route, by simp [adjustRoutesToConstraints], ?_⟩
  have hdist : (adjustWalkRoute route).properties.distance =
      if route.properties.distance < 5 then 5
      else if route.properties.distance > 15 then 15 else route.properties.distance := rfl
  refine ⟨?_, ?_, ?_, ?_, rfl⟩
  · intro h; rw [hdist, if_pos h]
  · intro h; rw [hdist]; split_ifs <;> omega
  · intro h1 h2; rw [hdist]; split_ifs <;> omega
  · rw [hdist]; split_ifs <;> omega

/-- C7 at a walk of 3 km: distance 5, `adjusted = true`, geometry unchanged. -/
theorem C7_walk_clamp_witness :
    adjustRoutesToConstraints [sampleRoute 9 3] TripType.walk
      = some [adjustWalkRoute (sampleRoute 9 3)] ∧
    (adjustWalkRoute (sampleRoute 9 3)).properties.distance = 5 ∧
    (adjustWalkRoute (sampleRoute 9 3)).properties.adjusted = some true ∧
    (adjustWalkRoute (sampleRoute 9 3)).geometry = (sampleRoute 9 3).geometry ∧
    ∃ r, adjustRoutesToConstraints [sampleRoute 9 3] TripType.walk = some [r] ∧
      ((sampleRoute 9 3).properties.distance < 5 → r.properties.distance = 5) ∧
      (15 < (sampleRoute 9 3).properties.distance → r.properties.distance = 15) ∧
      (5 ≤ (sampleRoute 9 3).properties.distance →
        (sampleRoute 9 3).properties.distance ≤ 15 →
        r.properties.distance = (sampleRoute 9 3).properties.distance) ∧
      r.properties.distance = max 5 (min 15 (sampleRoute 9 3).properties.distance) ∧
      r.geometry = (sampleRoute 9 3).geometry :=
  ⟨rfl, by decide, by decide, rfl, C7_walk_clamp (sampleRoute 9 3) []⟩

/-- C8: for every trip type, each returned segment carries in
`originalDistance` the distance of the input segment at the same position,
adjusted or not; the adjuster returns for every bike list and every non-empty
list. -/
theorem C8_originalDistance_preserved (routes : List Route) (tripType : TripType) :
    (tripType = TripType.bike ∨ routes ≠ [] →
      ∃ out, adjustRoutesToConstraints routes tripType = some out) ∧
    ∀ out, adjustRoutesToConstraints routes tripType = some out →
      ∀ (i : Nat) (r : Route), out[i]? = some r →
        ∃ r0 : Route, routes[i]? = some r0 ∧
          r.properties.originalDistance = some r0.properties.distance := by
  refine ⟨adjustRoutesToConstraints_isSome routes tripType, ?_⟩
  intro out h i r hr
  obtain ⟨r0, h0, hr0⟩ := adjustRoutesToConstraints_getElem? h hr
  refine ⟨r0, h0, ?_⟩
  by_cases hb : tripType = TripType.bike
  · simp only [hb, if_true] at hr0
    rw [hr0]; simp [adjustBikeRoute]
  · simp only [hb, if_false] at hr0
    rw [hr0]; simp [adjustWalkRoute]

/-- C8 on a walk of 22 km relabelled to 15 km and on a bike day of 50 km left
alone: both keep the routed distance in `originalDistance`. -/
theorem C8_originalDistance_preserved_witness :
    (adjustRoutesToConstraints [sampleRoute 9 22] TripType.walk).map
        (fun out => out.map (fun r => (r.properties.distance, r.properties.originalDistance)))
      = some [(15, some 22)] ∧
    (adjustRoutesToConstraints [sampleRoute 9 50] TripType.bike).map
        (fun out => out.map (fun r => (r.properties.distance, r.properties.originalDistance)))
      = some [(50, some 50)] ∧
    ∀ (i : Nat) (r : Route), [adjustWalkRoute (sampleRoute 9 22)][i]? = some r →
      ∃ r0 : Route, [sampleRoute 9 22][i]? = some r0 ∧
        r.properties.originalDistance = some r0.properties.distance :=
  ⟨by decide, by decide,
    (C8_originalDistance_preserved [sampleRoute 9 22] TripType.walk).2 _ rfl⟩

/-! ## Generation guard: lemmas -/

theorem jsCeilDiv_eq_ceil (num : Int) (den : Nat) :
    jsCeilDiv num den = ⌈((num : ℚ) / (den : ℚ))⌉ := by
  unfold jsCeilDiv
  rw [Int.fdiv_eq_ediv _ (Int.natCast_nonneg den), ← Rat.floor_intCast_div_natCast,
    Int.cast_neg, neg_div, Int.floor_neg, neg_neg]

theorem duplicateCheck_other {κ : Type} [DecidableEq κ] (recentRequests : RecentRequests κ)
    (requestKey key : κ) (now : Int) (hne : requestKey ≠ key) :
    (duplicateCheck recentRequests requestKey now).2 key = recentRequests key := by
  have hk : ¬ key = requestKey := fun h => hne h.symm
  unfold duplicateCheck duplicateCheckAt
  split
  · split
    · rfl
    · simp [RecentRequests.set, hk]
  · simp [RecentRequests.set, hk]

/-- What the events that spare a reservation made at `t0` leave of it: the
entry itself, or nothing once a sweep found it older than the window. -/
theorem guardStep_spares {κ : Type} [DecidableEq κ] (recentRequests : RecentRequests κ)
    (key : κ) (t0 t : Int) (e : GuardEvent κ) (he : GuardEvent.sparesUntil key t e)
    (h : recentRequests key = some t0 ∨
      (recentRequests key = none ∧ REQUEST_CACHE_TIME < t - t0)) :
    guardStep recentRequests e key = some t0 ∨
      (guardStep recentRequests e key = none ∧ REQUEST_CACHE_TIME < t - t0) := by
  cases e with
  | request k now =>
    have hne : k ≠ key := he
    simp only [guardStep, duplicateCheck_other recentRequests k key now hne]
    exact h
  | release k =>
    have hne : ¬ key = k := fun h' => he h'.symm
    simp only [guardStep, RecentRequests.delete, hne, if_false]
    exact h
  | sweep now =>
    have hle : now ≤ t := he
    simp only [guardStep, sweep]
    rcases h with h | ⟨h, hlt⟩
    · rw [h]
      by_cases hold : now - t0 > REQUEST_CACHE_TIME
      · right
        simp only [hold, if_true, true_and]
        omega
      · left
        simp only [hold, if_false]
    · right
      rw [h]
      exact ⟨rfl, hlt⟩

theorem guardRun_spares {κ : Type} [DecidableEq κ] (events : List (GuardEvent κ))
    (recentRequests : RecentRequests κ) (key : κ) (t0 t : Int)
    (hev : ∀ e ∈ events, GuardEvent.sparesUntil key t e)
    (h : recentRequests key = some t0 ∨
      (recentRequests key = none ∧ REQUEST_CACHE_TIME < t - t0)) :
    guardRun recentRequests events key = some t0 ∨
      (guardRun recentRequests events key = none ∧ REQUEST_CACHE_TIME < t - t0) := by
  induction events generalizing recentRequests with
  | nil => exact h
  | cons e rest ih =>
    have hrun : guardRun recentRequests (e :: rest) = guardRun (guardStep recentRequests e) rest :=
      rfl
    rw [hrun]
    exact ih (guardStep recentRequests e)
      (fun e' he' => hev e' (List.mem_cons_of_mem e he'))
      (guardStep_spares recentRequests key t0 t e (hev e (List.mem_cons_self e rest)) h)

theorem duplicateCheck_refused {κ : Type} [DecidableEq κ] {recentRequests : RecentRequests κ}
    {key : κ} {lastRequest : Int} (now : Int) (hget : recentRequests key = some lastRequest)
    (hc : lastRequest ≠ 0 ∧ now - lastRequest < REQUEST_CACHE_TIME) :
    duplicateCheck recentRequests key now =
      (Verdict.refused (jsCeilDiv (REQUEST_CACHE_TIME - (now - lastRequest)) 1000),
        recentRequests) := by
  unfold duplicateCheck duplicateCheckAt
  rw [hget]
  exact if_pos hc

theorem duplicateCheck_stale {κ : Type} [DecidableEq κ] {recentRequests : RecentRequests κ}
    {key : κ} {lastRequest : Int} (now : Int) (hget : recentRequests key = some lastRequest)
    (hc : ¬ (lastRequest ≠ 0 ∧ now - lastRequest < REQUEST_CACHE_TIME)) :
    duplicateCheck recentRequests key now =
      (Verdict.accepted, recentRequests.set key now) := by
  unfold duplicateCheck duplicateCheckAt
  rw [hget]
  exact if_neg hc

theorem duplicateCheck_absent {κ : Type} [DecidableEq κ] {recentRequests : RecentRequests κ}
    {key : κ} (now : Int) (hget : recentRequests key = none) :
    duplicateCheck recentRequests key now =
      (Verdict.accepted, recentRequests.set key now) := by
  unfold duplicateCheck duplicateCheckAt
  rw [hget]

theorem duplicateCheck_accepted_get {κ : Type} [DecidableEq κ]
    (recentRequests : RecentRequests κ) (key : κ) (now : Int)
    (h : (duplicateCheck recentRequests key now).1 = Verdict.accepted) :
    (duplicateCheck recentRequests key now).2 key = some now := by
  cases hget : recentRequests key with
  | none => simp [duplicateCheck_absent now hget, RecentRequests.set]
  | some lastRequest =>
    by_cases hc : lastRequest ≠ 0 ∧ now - lastRequest < REQUEST_CACHE_TIME
    · rw [duplicateCheck_refused now hget hc] at h
      cases h
    · simp [duplicateCheck_stale now hget hc, RecentRequests.set]

/-! ## Generation guard: claims -/

/-- C9: once a request with key `k` has been accepted at a clock reading
`t0` (any reading of `Date.now()` but `0`, which the truthiness test of the
handler reads as no reservation), and until `t` only requests and releases of
other keys and sweeps have run, a request with key `k` at time `t` is refused,
leaving the table as it is, when `t - t0 < 15000`, and is accepted and
re-reserved at `t` when `t - t0 ≥ 15000`. -/
theorem C9_guard_window {κ : Type} [DecidableEq κ] (recentRequests : RecentRequests κ)
    (key : κ) (t0 t : Int) (events : List (GuardEvent κ)) (ht0 : t0 ≠ 0)
    (hacc : (duplicateCheck recentRequests key t0).1 = Verdict.accepted)
    (hev : ∀ e ∈ events, GuardEvent.sparesUntil key t e) :
    (t - t0 < 15000 →
      ∃ retryAfter,
        duplicateCheck (guardRun (duplicateCheck recentRequests key t0).2 events) key t =
          (Verdict.refused retryAfter,
            guardRun (duplicateCheck recentRequests key t0).2 events)) ∧
    (15000 ≤ t - t0 →
      (duplicateCheck (guardRun (duplicateCheck recentRequests key t0).2 events) key t).1 =
          Verdict.accepted ∧
        (duplicateCheck (guardRun (duplicateCheck recentRequests key t0).2 events) key t).2 key =
          some t) := by
  have hinv := guardRun_spares events (duplicateCheck recentRequests key t0).2 key t0 t hev
    (Or.inl (duplicateCheck_accepted_get recentRequests key t0 hacc))
  have hT : REQUEST_CACHE_TIME = 15000 := rfl
  constructor
  · intro hlt
    rcases hinv with hget | ⟨_, hold⟩
    · exact ⟨_, duplicateCheck_refused t hget ⟨ht0, by rw [hT]; exact hlt⟩⟩
    · rw [hT] at hold; omega
  · intro hge
    have hacc2 : (duplicateCheck (guardRun (duplicateCheck recentRequests key t0).2 events)
        key t).1 = Verdict.accepted := by
      rcases hinv with hget | ⟨hget, _⟩
      · rw [duplicateCheck_stale t hget (by rw [hT]; intro hc; omega)]
      · rw [duplicateCheck_absent t hget]
    exact ⟨hacc2, duplicateCheck_accepted_get _ key t hacc2⟩

/-- C9 after a reservation of key 7 at time 1000 followed by traffic on
key 8 and a sweep: refused at 6000, accepted and re-reserved at 16000. -/
theorem C9_guard_window_witness :
    (1000 : Int) ≠ 0 ∧
    (duplicateCheck (fun _ : Nat => (none : Option Int)) 7 1000).1 = Verdict.accepted ∧
    (∃ retryAfter,
      duplicateCheck (guardRun (duplicateCheck (fun _ : Nat => none) 7 1000).2 sampleEvents)
          7 6000 =
        (Verdict.refused retryAfter,
          guardRun (duplicateCheck (fun _ : Nat => none) 7 1000).2 sampleEvents)) ∧
    (duplicateCheck (guardRun (duplicateCheck (fun _ : Nat => none) 7 1000).2 sampleEvents)
        7 16000).1 = Verdict.accepted ∧
    (duplicateCheck (guardRun (duplicateCheck (fun _ : Nat => none) 7 1000).2 sampleEvents)
        7 16000).2 7 = some 16000 :=
  ⟨by decide, rfl,
    (C9_guard_window (fun _ : Nat => none) 7 1000 6000 sampleEvents (by decide) rfl
      (by
        intro e he
        simp only [sampleEvents, List.mem_cons, List.mem_singleton, List.not_mem_nil,
          or_false] at he
        rcases he with rfl | rfl | rfl <;> simp [GuardEvent.sparesUntil])).1 (by decide),
    (C9_guard_window (fun _ : Nat => none) 7 1000 16000 sampleEvents (by decide) rfl
      (by
        intro e he
        simp only [sampleEvents, List.mem_cons, List.mem_singleton, List.not_mem_nil,
          or_false] at he
        rcases he with rfl | rfl | rfl <;> simp [GuardEvent.sparesUntil])).2 (by decide)⟩

/-- C10, as stated, fails: with a reservation at time 1000, a request whose
refusal test reads the clock at `e = 14999` ms after it is refused, and when
the clock has moved on by one millisecond at the reading for `retryAfter` the
answer carries 0, where `ceil((15000 - 14999) / 1000)` is 1. -/
theorem C10_retryAfter_zero :
    sampleReserved 7 = some 1000 ∧
    (0 : Int) ≤ 14999 ∧ (14999 : Int) < 15000 ∧
    (duplicateCheckAt sampleReserved 7 (1000 + 14999) (1000 + 15000) (1000 + 15000)).1 =
      Verdict.refused 0 ∧
    ⌈(((15000 - 14999 : Int) : ℚ) / 1000)⌉ = 1 := by
  refine ⟨by decide, by decide, by decide, by decide, ?_⟩
  rw [Int.ceil_eq_iff]
  constructor <;> norm_num

/-- C10 amended: with a reservation at `t0`, the guard refuses exactly when `t0`
is not `0` and the reading of the refusal test is less than 15000 ms after it;
the `retryAfter` of a refusal is `⌈(15000 - e') / 1000⌉` for the time `e'`
elapsed at the next clock reading.  It is at most 15 when `e' ≥ 0`, at least 1
when `e' < 15000`, and 10 for `e' = 5000`; it is no more than
`⌈(15000 - e) / 1000⌉` for the elapsed time `e` of the test when the clock did
not run backwards, and when both readings coincide at `e ≥ 0` it is
`⌈(15000 - e) / 1000⌉` and lies between 1 and 15. -/
theorem C10_retryAfter_second_reading {κ : Type} [DecidableEq κ]
    (recentRequests : RecentRequests κ) (key : κ) (t0 nowTest nowRetry nowSet : Int)
    (hget : recentRequests key = some t0) :
    ((∃ retryAfter, (duplicateCheckAt recentRequests key nowTest nowRetry nowSet).1 =
        Verdict.refused retryAfter) ↔ t0 ≠ 0 ∧ nowTest - t0 < 15000) ∧
    ∀ retryAfter : Int,
      (duplicateCheckAt recentRequests key nowTest nowRetry nowSet).1 =
        Verdict.refused retryAfter →
      retryAfter = ⌈(((15000 - (nowRetry - t0) : Int) : ℚ) / 1000)⌉ ∧
      (0 ≤ nowRetry - t0 → retryAfter ≤ 15) ∧
      (nowRetry - t0 < 15000 → 1 ≤ retryAfter) ∧
      (nowRetry - t0 = 5000 → retryAfter = 10) ∧
      (nowTest ≤ nowRetry →
        retryAfter ≤ ⌈(((15000 - (nowTest - t0) : Int) : ℚ) / 1000)⌉) ∧
      (nowRetry = nowTest → 0 ≤ nowTest - t0 →
        retryAfter = ⌈(((15000 - (nowTest - t0) : Int) : ℚ) / 1000)⌉ ∧
          1 ≤ retryAfter ∧ retryAfter ≤ 15) := by
  have hT : REQUEST_CACHE_TIME = 15000 := rfl
  have hceil : ∀ x : Int, jsCeilDiv x 1000 = ⌈((x : ℚ) / 1000)⌉ := by
    intro x
    have h := jsCeilDiv_eq_ceil x 1000
    simpa using h
  have hdiv : ∀ x : Int, jsCeilDiv x 1000 = -((-x) / 1000) := by
    intro x
    unfold jsCeilDiv
    rw [Int.fdiv_eq_ediv _ (by decide)]
  by_cases hc : t0 ≠ 0 ∧ nowTest - t0 < REQUEST_CACHE_TIME
  · have hval : duplicateCheckAt recentRequests key nowTest nowRetry nowSet =
        (Verdict.refused (jsCeilDiv (REQUEST_CACHE_TIME - (nowRetry - t0)) 1000),
          recentRequests) := by
      unfold duplicateCheckAt
      rw [hget]
      exact if_pos hc
    have hlt : nowTest - t0 < 15000 := by rw [← hT]; exact hc.2
    rw [hval, hT]
    refine ⟨⟨fun _ => ⟨hc.1, hlt⟩, fun _ => ⟨_, rfl⟩⟩, ?_⟩
    intro retryAfter href
    simp only [Verdict.refused.injEq] at href
    subst href
    refine ⟨hceil _, ?_, ?_, ?_, ?_, ?_⟩
    · intro h; rw [hdiv]; omega
    · intro h; rw [hdiv]; omega
    · intro h; rw [hdiv]; omega
    · intro h; rw [← hceil, hdiv, hdiv]; omega
    · intro heq h0
      subst heq
      refine ⟨hceil _, ?_, ?_⟩
      · rw [hdiv]; omega
      · rw [hdiv]; omega
  · have hval : duplicateCheckAt recentRequests key nowTest nowRetry nowSet =
        (Verdict.accepted, recentRequests.set key nowSet) := by
      unfold duplicateCheckAt
      rw [hget]
      exact if_neg hc
    rw [hval]
    rw [hT] at hc
    refine ⟨⟨fun h => ?_, fun h => absurd h hc⟩, ?_⟩
    · obtain ⟨_, h⟩ := h
      cases h
    · intro retryAfter href
      cases href

/-- C10 amended, for a request 5 seconds after a reservation made at time 1000
whose clock readings coincide: the guard refuses and reports 10 seconds. -/
theorem C10_retryAfter_second_reading_witness :
    sampleReserved 7 = some 1000 ∧
    (duplicateCheckAt sampleReserved 7 6000 6000 6000).1 = Verdict.refused 10 ∧
    (10 : Int) = ⌈(((15000 - (6000 - 1000) : Int) : ℚ) / 1000)⌉ ∧
    ((0 : Int) ≤ 6000 - 1000 → (10 : Int) ≤ 15) ∧
    ((6000 : Int) - 1000 < 15000 → (1 : Int) ≤ 10) ∧
    ((6000 : Int) - 1000 = 5000 → (10 : Int) = 10) ∧
    ((6000 : Int) ≤ 6000 →
      (10 : Int) ≤ ⌈(((15000 - (6000 - 1000) : Int) : ℚ) / 1000)⌉) ∧
    ((6000 : Int) = 6000 → (0 : Int) ≤ 6000 - 1000 →
      (10 : Int) = ⌈(((15000 - (6000 - 1000) : Int) : ℚ) / 1000)⌉ ∧
        (1 : Int) ≤ 10 ∧ (10 : Int) ≤ 15) :=
  ⟨by decide, by decide,
    (C10_retryAfter_second_reading sampleReserved 7 1000 6000 6000 6000 (by decide)).2 10
      (by decide)⟩

/-! ## Final validation: the offending day and the total -/

/-- The error the `forEach` of the bike branch throws for a day whose distance
is out of range: the upper limit is tested first. -/
theorem checkBikeDays_first_offender (routes : List Route) (index : Nat)
    (h : ∃ r ∈ routes, 60 < r.properties.distance ∨ r.properties.distance < 10) :
    ∃ (i : Nat) (r : Route), routes[i]? = some r ∧
      (60 < r.properties.distance ∨ r.properties.distance < 10) ∧
      (∀ (j : Nat) (r' : Route), j < i → routes[j]? = some r' →
        10 ≤ r'.properties.distance ∧ r'.properties.distance ≤ 60) ∧
      checkBikeDays routes index = Except.error
        (if 60 < r.properties.distance
          then ValidationError.exceedsLimit (index + i + 1) r.properties.distance
          else ValidationError.tooShort (index + i + 1) r.properties.distance) := by
  induction routes generalizing index with
  | nil =>
    obtain ⟨r, hr, _⟩ := h
    cases hr
  | cons a rest ih =>
    by_cases hoff : 60 < a.properties.distance ∨ a.properties.distance < 10
    · refine ⟨0, a, by simp, hoff, fun j r' hj _ => absurd hj (Nat.not_lt_zero j), ?_⟩
      simp only [checkBikeDays, Nat.add_zero]
      by_cases h60 : 60 < a.properties.distance
      · simp [h60]
      · have h10 : a.properties.distance < 10 := hoff.resolve_left h60
        simp [h60, h10]
    · have hrest : ∃ r ∈ rest, 60 < r.properties.distance ∨ r.properties.distance < 10 := by
        obtain ⟨r, hr, hro⟩ := h
        rcases List.mem_cons.mp hr with rfl | hr'
        · exact absurd hro hoff
        · exact ⟨r, hr', hro⟩
      obtain ⟨i, r, hget, hro, hleast, hchk⟩ := ih (index + 1) hrest
      refine ⟨i + 1, r, by simpa using hget, hro, ?_, ?_⟩
      · intro j r' hj hj'
        cases j with
        | zero =>
          simp only [List.getElem?_cons_zero, Option.some.injEq] at hj'
          subst hj'
          omega
        | succ j =>
          simp only [List.getElem?_cons_succ] at hj'
          exact hleast j r' (by omega) hj'
      · have h60 : ¬ a.properties.distance > 60 := by omega
        have h10 : ¬ a.properties.distance < 10 := by omega
        simp only [checkBikeDays, h60, h10, if_false, hchk]
        have hidx : index + 1 + i + 1 = index + (i + 1) + 1 := by omega
        rw [hidx]

theorem foldl_distance_sum (routes : List Route) (init : Int) :
    routes.foldl (fun sum route => sum + route.properties.distance) init =
      init + (routes.map (fun route => route.properties.distance)).sum := by
  induction routes generalizing init with
  | nil => simp
  | cons a rest ih =>
    simp only [List.foldl_cons, List.map_cons, List.sum_cons, ih]
    omega

/-- C15: for a bike list of exactly 2 routes with some day above 60 or below
10, `validateFinalTrip` fails, and the error names the lowest-numbered
offending day (its index plus one) and carries that day's distance. -/
theorem C15_bike_error_names_first_day (routes : List Route) (hlen : routes.length = 2)
    (h : ∃ r ∈ routes, 60 < r.properties.distance ∨ r.properties.distance < 10) :
    ∃ (i : Nat) (r : Route), routes[i]? = some r ∧
      (60 < r.properties.distance ∨ r.properties.distance < 10) ∧
      (∀ (j : Nat) (r' : Route), j < i → routes[j]? = some r' →
        10 ≤ r'.properties.distance ∧ r'.properties.distance ≤ 60) ∧
      validateFinalTrip routes TripType.bike = Except.error
        (if 60 < r.properties.distance
          then ValidationError.exceedsLimit (i + 1) r.properties.distance
          else ValidationError.tooShort (i + 1) r.properties.distance) := by
  obtain ⟨i, r, hget, hro, hleast, hchk⟩ := checkBikeDays_first_offender routes 0 h
  refine ⟨i, r, hget, hro, hleast, ?_⟩
  unfold validateFinalTrip
  simp only [if_true, hlen, ne_eq, not_true_eq_false, if_false, hchk, Nat.zero_add]

/-- C15 on days of 70 km and 5 km the error is about day 1 and 70 km; on days
of 40 km and 5 km it is about day 2 and 5 km. -/
theorem C15_bike_error_names_first_day_witness :
    validateFinalTrip [sampleRoute 5 70, sampleRoute 5 5] TripType.bike
      = Except.error (ValidationError.exceedsLimit 1 70) ∧
    validateFinalTrip [sampleRoute 5 40, sampleRoute 5 5] TripType.bike
      = Except.error (ValidationError.tooShort 2 5) ∧
    ∃ (i : Nat) (r : Route), [sampleRoute 5 70, sampleRoute 5 5][i]? = some r ∧
      (60 < r.properties.distance ∨ r.properties.distance < 10) ∧
      (∀ (j : Nat) (r' : Route), j < i → [sampleRoute 5 70, sampleRoute 5 5][j]? = some r' →
        10 ≤ r'.properties.distance ∧ r'.properties.distance ≤ 60) ∧
      validateFinalTrip [sampleRoute 5 70, sampleRoute 5 5] TripType.bike = Except.error
        (if 60 < r.properties.distance
          then ValidationError.exceedsLimit (i + 1) r.properties.distance
          else ValidationError.tooShort (i + 1) r.properties.distance) :=
  ⟨rfl, rfl,
    C15_bike_error_names_first_day [sampleRoute 5 70, sampleRoute 5 5] rfl
      ⟨sampleRoute 5 70, List.mem_cons_self _ _, Or.inl (by decide)⟩⟩

/-- C17: for every route list that passes final validation, `buildFinalTrip`
returns a trip whose routes are the input routes in the same order and whose
`totalDistance` is the sum of their distances. -/
theorem C17_total_is_sum (routes : List Route) (destination : Destination)
    (tripType : TripType) (metadata : Option Metadata) (generatedAt : String)
    (hv : validateFinalTrip routes tripType = Except.ok ()) :
    ∃ trip, buildFinalTrip routes destination tripType metadata generatedAt = Except.ok trip ∧
      trip.routes = routes ∧
      trip.totalDistance = (trip.routes.map (fun route => route.properties.distance)).sum := by
  obtain ⟨trip, htrip⟩ :=
    (buildFinalTrip_returns_iff routes destination tripType metadata generatedAt).mpr hv
  obtain ⟨_, hr, ht⟩ := buildFinalTrip_ok_routes htrip
  refine ⟨trip, htrip, hr, ?_⟩
  rw [ht, hr, foldl_distance_sum]
  omega

/-- C17 on days of 40 km and 55 km: the total is 95 km. -/
theorem C17_total_is_sum_witness :
    ∃ trip, buildFinalTrip [sampleRoute 5 40, sampleRoute 5 55] ⟨"Italy", some "Rome", none⟩
        TripType.bike none "now" = Except.ok trip ∧
      trip.routes = [sampleRoute 5 40, sampleRoute 5 55] ∧
      trip.totalDistance = (trip.routes.map (fun route => route.properties.distance)).sum ∧
      trip.totalDistance = 95 := by
  obtain ⟨trip, h1, h2, h3⟩ := C17_total_is_sum [sampleRoute 5 40, sampleRoute 5 55]
    ⟨"Italy", some "Rome", none⟩ TripType.bike none "now" rfl
  refine ⟨trip, h1, h2, h3, ?_⟩
  rw [h3, h2]
  decide

/-! ## Destination coordinates of the assembled trip -/

/-- C18, as stated, fails: a destination that already carries `[7, 7]` is
assembled with a walk starting at `[12, 41]`, and the trip's destination
carries `[12, 41]`. -/
theorem C18_known_coordinates_overwritten :
    ∃ trip, buildFinalTrip [sampleLoop] ⟨"Greece", some "Athens", some ⟨7, 7⟩⟩
        TripType.walk none "now" = Except.ok trip ∧
      trip.destination.coordinates = some ⟨12, 41⟩ ∧
      trip.destination.coordinates ≠ some ⟨7, 7⟩ :=
  ⟨_, rfl, rfl, by decide⟩

/-- C18 amended: for every assembled trip, whatever coordinates the input
destination carries, the trip's `destination.coordinates` is the first
coordinate of the first route's geometry, and `[0, 0]` when that geometry is
empty; the other destination fields are kept. -/
theorem C18_coordinates_from_first_route (routes : List Route) (destination : Destination)
    (tripType : TripType) (metadata : Option Metadata) (generatedAt : String) (trip : Trip)
    (h : buildFinalTrip routes destination tripType metadata generatedAt = Except.ok trip) :
    routes ≠ [] ∧
    (∀ (r : Route) (rest : List Route) (c : Coord) (cs : List Coord),
      routes = r :: rest → r.geometry.coordinates = c :: cs →
        trip.destination.coordinates = some c) ∧
    (∀ (r : Route) (rest : List Route),
      routes = r :: rest → r.geometry.coordinates = [] →
        trip.destination.coordinates = some ⟨0, 0⟩) ∧
    trip.destination.country = destination.country ∧
    trip.destination.city = destination.city := by
  have hv := (buildFinalTrip_ok_routes h).1
  have hne : routes ≠ [] := by
    intro hnil
    subst hnil
    cases tripType <;> simp [validateFinalTrip] at hv
  unfold buildFinalTrip at h
  rw [hv] at h
  simp only [Except.ok.injEq] at h
  subst h
  refine ⟨hne, ?_, ?_, rfl, rfl⟩
  · intro r rest c cs hr hc
    subst hr
    simp [hc]
  · intro r rest hr hc
    subst hr
    simp [hc]

/-- C18 amended, on a destination without coordinates and a walk starting at
`[12, 41]`. -/
theorem C18_coordinates_from_first_route_witness :
    ∃ trip, buildFinalTrip [sampleLoop] ⟨"Greece", some "Athens", none⟩
        TripType.walk none "now" = Except.ok trip ∧
      trip.destination.coordinates = some ⟨12, 41⟩ :=
  ⟨_, rfl,
    (C18_coordinates_from_first_route [sampleLoop] ⟨"Greece", some "Athens", none⟩
      TripType.walk none "now" _ rfl).2.1 sampleLoop [] ⟨12, 41⟩ [⟨13, 42⟩, ⟨12, 41⟩] rfl rfl⟩

/-! ## How many coordinates truncation keeps -/

theorem bitLengthAux_spec (fuel : Nat) : ∀ n : Nat, n ≤ fuel →
    n < 2 ^ bitLengthAux fuel n ∧ (n ≠ 0 → 2 ^ (bitLengthAux fuel n - 1) ≤ n) := by
  induction fuel with
  | zero =>
    intro n hn
    have h0 : n = 0 := by omega
    subst h0
    simp [bitLengthAux]
  | succ fuel ih =>
    intro n hn
    by_cases h0 : n = 0
    · subst h0
      simp [bitLengthAux]
    · have hhalf : n / 2 ≤ fuel := by omega
      obtain ⟨hlt, hge⟩ := ih (n / 2) hhalf
      simp only [bitLengthAux, h0, if_false, Nat.add_sub_cancel]
      refine ⟨?_, fun _ => ?_⟩
      · rw [pow_succ]; omega
      · by_cases h2 : n / 2 = 0
        · have hb : bitLengthAux fuel (n / 2) = 0 := by
            rw [h2]
            cases fuel <;> simp [bitLengthAux]
          rw [hb]; simp; omega
        · have hge' := hge h2
          have hpos : 0 < bitLengthAux fuel (n / 2) := by
            by_contra hc
            have hz : bitLengthAux fuel (n / 2) = 0 := by omega
            rw [hz] at hlt
            simp at hlt
            exact h2 hlt
          have hsplit : 2 ^ bitLengthAux fuel (n / 2) = 2 ^ (bitLengthAux fuel (n / 2) - 1) * 2 := by
            rw [← pow_succ]
            congr 1
            omega
          rw [hsplit]
          omega

theorem bitLength_spec (n : Nat) (hn : 0 < n) :
    n < 2 ^ bitLength n ∧ 2 ^ (bitLength n - 1) ≤ n ∧ 0 < bitLength n := by
  obtain ⟨h1, h2⟩ := bitLengthAux_spec n n (le_refl n)
  refine ⟨h1, h2 (by omega), ?_⟩
  by_contra hc
  have hz : bitLength n = 0 := by omega
  unfold bitLength at hz
  rw [hz] at h1
  simp at h1
  omega


theorem two_zpow_split (k : Int) :
    (2 : ℚ) ^ k = (2 : ℚ) ^ k.toNat / (2 : ℚ) ^ (-k).toNat := by
  rcases le_total 0 k with h | h
  · have h1 : (-k).toNat = 0 := by omega
    rw [h1, pow_zero, div_one, ← zpow_natCast, Int.toNat_of_nonneg h]
  · have h1 : k.toNat = 0 := by omega
    have h2 : ((-k).toNat : Int) = -k := Int.toNat_of_nonneg (by omega)
    rw [h1, pow_zero, ← zpow_natCast, h2, zpow_neg, one_div, inv_inv]

theorem floorLog2_spec (num den : Nat) (hn : 0 < num) (hd : 0 < den) :
    (2 : ℚ) ^ floorLog2 num den ≤ (num : ℚ) / den ∧
      (num : ℚ) / den < (2 : ℚ) ^ (floorLog2 num den + 1) := by
  obtain ⟨hn1, hn2, hn3⟩ := bitLength_spec num hn
  obtain ⟨hd1, hd2, hd3⟩ := bitLength_spec den hd
  have hdq : (0 : ℚ) < den := by exact_mod_cast hd
  have hnq : (0 : ℚ) < num := by exact_mod_cast hn
  have hn1q : (num : ℚ) < (2 : ℚ) ^ (bitLength num : Int) := by
    rw [zpow_natCast]; exact_mod_cast hn1
  have hd1q : (den : ℚ) < (2 : ℚ) ^ (bitLength den : Int) := by
    rw [zpow_natCast]; exact_mod_cast hd1
  have hn2q : (2 : ℚ) ^ ((bitLength num : Int) - 1) ≤ (num : ℚ) := by
    have h : ((bitLength num - 1 : Nat) : Int) = (bitLength num : Int) - 1 := by omega
    rw [← h, zpow_natCast]; exact_mod_cast hn2
  have hd2q : (2 : ℚ) ^ ((bitLength den : Int) - 1) ≤ (den : ℚ) := by
    have h : ((bitLength den - 1 : Nat) : Int) = (bitLength den : Int) - 1 := by omega
    rw [← h, zpow_natCast]; exact_mod_cast hd2
  have h2 : (2 : ℚ) ≠ 0 := by norm_num
  have hpos : ∀ j : Int, (0 : ℚ) < (2 : ℚ) ^ j := fun j => zpow_pos (by norm_num) j
  unfold floorLog2
  simp only
  split
  · rename_i hc
    constructor
    · rw [two_zpow_split, div_le_div_iff₀ (pow_pos (by norm_num) _) hdq]
      have hcq : ((den * 2 ^ ((bitLength num : Int) - (bitLength den : Int)).toNat : Nat) : ℚ) ≤
          ((num * 2 ^ (-((bitLength num : Int) - (bitLength den : Int))).toNat : Nat) : ℚ) := by
        exact_mod_cast hc
      push_cast at hcq
      linarith
    · have he : (bitLength num : Int) - (bitLength den : Int) + 1 =
          (bitLength num : Int) - ((bitLength den : Int) - 1) := by ring
      rw [he, zpow_sub₀ h2, lt_div_iff₀ (hpos _), div_mul_eq_mul_div, div_lt_iff₀ hdq]
      calc (num : ℚ) * (2 : ℚ) ^ ((bitLength den : Int) - 1)
          ≤ (num : ℚ) * den := by
            exact mul_le_mul_of_nonneg_left hd2q (le_of_lt hnq)
        _ < (2 : ℚ) ^ (bitLength num : Int) * den := by
            exact mul_lt_mul_of_pos_right hn1q hdq
  · rename_i hc
    constructor
    · have he : (bitLength num : Int) - (bitLength den : Int) - 1 =
          ((bitLength num : Int) - 1) - (bitLength den : Int) := by ring
      rw [he, zpow_sub₀ h2, div_le_div_iff₀ (hpos _) hdq]
      calc (2 : ℚ) ^ ((bitLength num : Int) - 1) * den
          ≤ (num : ℚ) * den := mul_le_mul_of_nonneg_right hn2q (le_of_lt hdq)
        _ ≤ (num : ℚ) * (2 : ℚ) ^ (bitLength den : Int) :=
            mul_le_mul_of_nonneg_left (le_of_lt hd1q) (le_of_lt hnq)
    · have he : (bitLength num : Int) - (bitLength den : Int) - 1 + 1 =
          (bitLength num : Int) - (bitLength den : Int) := by ring
      rw [he, two_zpow_split, div_lt_div_iff₀ hdq (pow_pos (by norm_num) _)]
      have hcq : ((num * 2 ^ (-((bitLength num : Int) - (bitLength den : Int))).toNat : Nat) : ℚ) <
          ((den * 2 ^ ((bitLength num : Int) - (bitLength den : Int)).toNat : Nat) : ℚ) := by
        exact_mod_cast not_le.mp hc
      push_cast at hcq
      linarith

theorem roundHalfEven_spec (num den : Nat) (hd : 0 < den) :
    |(roundHalfEven num den : ℚ) - (num : ℚ) / den| ≤ 1 / 2 := by
  have hdq : (0 : ℚ) < den := by exact_mod_cast hd
  have hsplit : (num : ℚ) = den * (num / den : Nat) + (num % den : Nat) := by
    exact_mod_cast (Nat.div_add_mod num den).symm
  have hr : num % den < den := Nat.mod_lt num hd
  have hrq : ((num % den : Nat) : ℚ) < den := by exact_mod_cast hr
  have hr0 : (0 : ℚ) ≤ ((num % den : Nat) : ℚ) := Nat.cast_nonneg _
  have hx : (num : ℚ) / den = (num / den : Nat) + ((num % den : Nat) : ℚ) / den := by
    rw [hsplit]; field_simp; ring
  rw [abs_le]
  unfold roundHalfEven
  simp only
  split
  · rename_i h
    have hq : 2 * ((num % den : Nat) : ℚ) < den := by exact_mod_cast h
    rw [hx]
    constructor
    · have : ((num % den : Nat) : ℚ) / den ≤ 1 / 2 := by
        rw [div_le_iff₀ hdq]; linarith
      linarith
    · have : 0 ≤ ((num % den : Nat) : ℚ) / den := div_nonneg hr0 (le_of_lt hdq)
      linarith
  · rename_i h
    have hq : (den : ℚ) ≤ 2 * ((num % den : Nat) : ℚ) := by exact_mod_cast not_lt.mp h
    have hlo : 1 / 2 ≤ ((num % den : Nat) : ℚ) / den := by
      rw [le_div_iff₀ hdq]; linarith
    have hhi : ((num % den : Nat) : ℚ) / den < 1 := by
      rw [div_lt_iff₀ hdq]; linarith
    split
    · rw [hx]; push_cast
      constructor <;> linarith
    · rename_i h2
      have hq2 : 2 * ((num % den : Nat) : ℚ) ≤ den := by exact_mod_cast not_lt.mp h2
      have heq : ((num % den : Nat) : ℚ) / den = 1 / 2 := by
        apply le_antisymm _ hlo
        rw [div_le_iff₀ hdq]; linarith
      split
      · rw [hx, heq]
        constructor <;> linarith
      · rw [hx, heq]; push_cast
        constructor <;> linarith


theorem roundHalfEven_zero (den : Nat) (hd : 0 < den) : roundHalfEven 0 den = 0 := by
  unfold roundHalfEven
  simp [hd]

theorem roundToDouble_zero (den : Nat) (hd : 0 < den) :
    ∃ e : Int, roundToDouble 0 den = some (0, e) := by
  refine ⟨max (floorLog2 0 den - 52) (-1074), ?_⟩
  unfold roundToDouble
  simp only [zero_mul]
  rw [roundHalfEven_zero _ (Nat.mul_pos hd (pow_pos (by norm_num) _))]
  rw [if_neg]
  rintro ⟨_, h⟩
  rw [Nat.zero_mul] at h
  exact absurd h (Nat.not_le.mpr (pow_pos (by norm_num) 1024))

theorem roundToDouble_spec (num den : Nat) (hn : 0 < num) (hd : 0 < den)
    (hlo : (2 : ℚ) ^ (-1022 : Int) ≤ (num : ℚ) / den)
    (hhi : (num : ℚ) / den < (2 : ℚ) ^ (53 : Int)) :
    ∃ (m : Nat) (e : Int), roundToDouble num den = some (m, e) ∧
      |(m : ℚ) * (2 : ℚ) ^ e - (num : ℚ) / den| ≤ (num : ℚ) / den * (2 : ℚ) ^ (-53 : Int) := by
  obtain ⟨hL1, hL2⟩ := floorLog2_spec num den hn hd
  have h2 : (2 : ℚ) ≠ 0 := by norm_num
  have hpos : ∀ j : Int, (0 : ℚ) < (2 : ℚ) ^ j := fun j => zpow_pos (by norm_num) j
  have hLlo : -1022 ≤ floorLog2 num den := by
    by_contra hc
    have hle : (2 : ℚ) ^ (floorLog2 num den + 1) ≤ (2 : ℚ) ^ (-1022 : Int) :=
      zpow_le_zpow_right₀ (by norm_num) (by omega)
    exact absurd (lt_of_lt_of_le hL2 hle) (not_lt.mpr hlo)
  have hLhi : floorLog2 num den ≤ 52 := by
    by_contra hc
    have hle : (2 : ℚ) ^ (53 : Int) ≤ (2 : ℚ) ^ floorLog2 num den :=
      zpow_le_zpow_right₀ (by norm_num) (by omega)
    exact absurd (lt_of_le_of_lt (le_trans hle hL1) hhi) (lt_irrefl _)
  have hexp : max (floorLog2 num den - 52) (-1074) = floorLog2 num den - 52 :=
    max_eq_left (by omega)
  unfold roundToDouble
  simp only
  rw [hexp, if_neg (fun h => by omega)]
  refine ⟨_, _, rfl, ?_⟩
  have hden : 0 < den * 2 ^ (floorLog2 num den - 52).toNat :=
    Nat.mul_pos hd (pow_pos (by norm_num) _)
  have hround := roundHalfEven_spec (num * 2 ^ (-(floorLog2 num den - 52)).toNat)
    (den * 2 ^ (floorLog2 num den - 52).toNat) hden
  have hdq : (0 : ℚ) < den := by exact_mod_cast hd
  have hscaled : ((num * 2 ^ (-(floorLog2 num den - 52)).toNat : Nat) : ℚ) /
      ((den * 2 ^ (floorLog2 num den - 52).toNat : Nat) : ℚ) =
      (num : ℚ) / den * (2 : ℚ) ^ (-(floorLog2 num den - 52)) := by
    rw [two_zpow_split (-(floorLog2 num den - 52)), neg_neg]
    push_cast
    field_simp
  rw [hscaled] at hround
  have hfactor : (roundHalfEven (num * 2 ^ (-(floorLog2 num den - 52)).toNat)
        (den * 2 ^ (floorLog2 num den - 52).toNat) : ℚ) * (2 : ℚ) ^ (floorLog2 num den - 52) -
      (num : ℚ) / den =
      ((roundHalfEven (num * 2 ^ (-(floorLog2 num den - 52)).toNat)
        (den * 2 ^ (floorLog2 num den - 52).toNat) : ℚ) -
        (num : ℚ) / den * (2 : ℚ) ^ (-(floorLog2 num den - 52))) *
        (2 : ℚ) ^ (floorLog2 num den - 52) := by
    rw [sub_mul, mul_assoc, ← zpow_add₀ h2, neg_add_cancel, zpow_zero, mul_one]
  rw [hfactor, abs_mul, abs_of_pos (hpos _)]
  have hhalf : (2 : ℚ) ^ (floorLog2 num den - 52) =
      (2 : ℚ) ^ floorLog2 num den * (2 : ℚ) ^ (-53 : Int) * 2 := by
    have he : floorLog2 num den - 52 = floorLog2 num den + (-53) + 1 := by ring
    rw [he, zpow_add₀ h2, zpow_add₀ h2, zpow_one]
  calc |(roundHalfEven (num * 2 ^ (-(floorLog2 num den - 52)).toNat)
          (den * 2 ^ (floorLog2 num den - 52).toNat) : ℚ) -
          (num : ℚ) / den * (2 : ℚ) ^ (-(floorLog2 num den - 52))| *
        (2 : ℚ) ^ (floorLog2 num den - 52)
      ≤ 1 / 2 * (2 : ℚ) ^ (floorLog2 num den - 52) :=
        mul_le_mul_of_nonneg_right hround (le_of_lt (hpos _))
    _ = (2 : ℚ) ^ floorLog2 num den * (2 : ℚ) ^ (-53 : Int) := by rw [hhalf]; ring
    _ ≤ (num : ℚ) / den * (2 : ℚ) ^ (-53 : Int) :=
        mul_le_mul_of_nonneg_right hL1 (le_of_lt (hpos _))


theorem roundToDouble_near (num den : Nat) (hn : 0 < num) (hd : 0 < den)
    (hlo : (den : ℚ) ≤ (num : ℚ) * 2 ^ 54) (hhi : (num : ℚ) < (den : ℚ) * 2 ^ 53) :
    ∃ (m : Nat) (e : Int), roundToDouble num den = some (m, e) ∧
      |(m : ℚ) * (2 : ℚ) ^ e - (num : ℚ) / den| * 2 ^ 53 ≤ (num : ℚ) / den := by
  have hdq : (0 : ℚ) < den := by exact_mod_cast hd
  have h54 : (2 : ℚ) ^ (-54 : Int) = ((2 : ℚ) ^ 54)⁻¹ := by
    rw [zpow_neg, zpow_ofNat]
  have h53 : (2 : ℚ) ^ (-53 : Int) = ((2 : ℚ) ^ 53)⁻¹ := by
    rw [zpow_neg, zpow_ofNat]
  have hp53 : (2 : ℚ) ^ (53 : Int) = (2 : ℚ) ^ 53 := zpow_ofNat 2 53
  have hsmall : (2 : ℚ) ^ (-1022 : Int) ≤ (2 : ℚ) ^ (-54 : Int) :=
    zpow_le_zpow_right₀ (by norm_num) (by norm_num)
  have hlo' : (2 : ℚ) ^ (-1022 : Int) ≤ (num : ℚ) / den := by
    refine le_trans hsmall ?_
    rw [h54, le_div_iff₀ hdq, inv_mul_le_iff₀ (by positivity)]
    linarith
  have hhi' : (num : ℚ) / den < (2 : ℚ) ^ (53 : Int) := by
    rw [hp53, div_lt_iff₀ hdq]
    linarith
  obtain ⟨m, e, hm, herr⟩ := roundToDouble_spec num den hn hd hlo' hhi'
  refine ⟨m, e, hm, ?_⟩
  rw [h53] at herr
  have hB : (0 : ℚ) < 2 ^ 53 := by positivity
  calc |(m : ℚ) * (2 : ℚ) ^ e - (num : ℚ) / den| * 2 ^ 53
      ≤ (num : ℚ) / den * ((2 : ℚ) ^ 53)⁻¹ * 2 ^ 53 :=
        mul_le_mul_of_nonneg_right herr (le_of_lt hB)
    _ = (num : ℚ) / den := by field_simp; ring

theorem fdiv_pow_eq_floor (m : Nat) (e : Int) :
    Int.fdiv ((m * 2 ^ e.toNat : Nat) : Int) ((2 ^ (-e).toNat : Nat) : Int) =
      ⌊(m : ℚ) * (2 : ℚ) ^ e⌋ := by
  rw [Int.fdiv_eq_ediv _ (Int.natCast_nonneg _), ← Rat.floor_intCast_div_natCast,
    two_zpow_split e]
  push_cast
  rw [mul_div_assoc]

theorem floor_of_near (a d : Int) (v : ℚ) (hd : 0 < d)
    (hlt : v - (a : ℚ) / d < 1 / d) (hgt : -(1 / (d : ℚ)) < v - (a : ℚ) / d) :
    ⌊(a : ℚ) / d⌋ - 1 ≤ ⌊v⌋ ∧ ⌊v⌋ ≤ ⌊(a : ℚ) / d⌋ ∧ (¬ d ∣ a → ⌊v⌋ = ⌊(a : ℚ) / d⌋) := by
  have hdq : (0 : ℚ) < (d : ℚ) := by exact_mod_cast hd
  have hd1 : (1 : ℚ) ≤ (d : ℚ) := by exact_mod_cast hd
  have hinv : 1 / (d : ℚ) ≤ 1 := by
    rw [div_le_iff₀ hdq]; linarith
  have hK1 : ((⌊(a : ℚ) / d⌋ : Int) : ℚ) ≤ (a : ℚ) / d := Int.floor_le _
  have hK2 : (a : ℚ) / d < ((⌊(a : ℚ) / d⌋ : Int) : ℚ) + 1 := Int.lt_floor_add_one _
  have hKd : ⌊(a : ℚ) / d⌋ * d ≤ a := by
    have h : ((⌊(a : ℚ) / d⌋ : Int) : ℚ) * d ≤ a := (le_div_iff₀ hdq).mp hK1
    exact_mod_cast h
  have hKd2 : a + 1 ≤ (⌊(a : ℚ) / d⌋ + 1) * d := by
    have h : (a : ℚ) < (((⌊(a : ℚ) / d⌋ : Int) : ℚ) + 1) * d := (div_lt_iff₀ hdq).mp hK2
    have h' : a < (⌊(a : ℚ) / d⌋ + 1) * d := by exact_mod_cast h
    omega
  have hup : (a : ℚ) / d + 1 / d ≤ ((⌊(a : ℚ) / d⌋ : Int) : ℚ) + 1 := by
    rw [← add_div, div_le_iff₀ hdq]
    exact_mod_cast hKd2
  have hle : ⌊v⌋ ≤ ⌊(a : ℚ) / d⌋ := by
    have h : ⌊v⌋ < ⌊(a : ℚ) / d⌋ + 1 := by
      rw [Int.floor_lt]
      push_cast
      linarith
    omega
  refine ⟨?_, hle, ?_⟩
  · rw [Int.le_floor]
    push_cast
    linarith
  · intro hdvd
    apply le_antisymm hle
    rw [Int.le_floor]
    have hne : ⌊(a : ℚ) / d⌋ * d ≠ a := fun h => hdvd (Dvd.intro_left _ h)
    have hstep : ⌊(a : ℚ) / d⌋ * d + 1 ≤ a := by omega
    have hlow : ((⌊(a : ℚ) / d⌋ : Int) : ℚ) + 1 / d ≤ (a : ℚ) / d := by
      rw [le_div_iff₀ hdq, add_mul, one_div, inv_mul_cancel₀ (ne_of_gt hdq)]
      exact_mod_cast hstep
    linarith

theorem rounding_twice (N x r v c : ℚ) (hN : 0 ≤ N) (hx : 0 ≤ x)
    (h1 : |r - x| * 2 ^ 53 ≤ x) (h2 : |v - N * r| * 2 ^ 53 ≤ N * r)
    (h3 : 3 * (N * x) / 2 ^ 53 < c) :
    v - N * x < c ∧ -c < v - N * x ∧ N * (x / 2) ≤ N * r ∧ N * r ≤ N * (x * 2) := by
  have hB : (0 : ℚ) < 2 ^ 53 := by positivity
  have h1' : |r - x| ≤ x / 2 ^ 53 := by rw [le_div_iff₀ hB]; exact h1
  have h2' : |v - N * r| ≤ N * r / 2 ^ 53 := by rw [le_div_iff₀ hB]; exact h2
  obtain ⟨ha1, ha2⟩ := abs_le.mp h1'
  obtain ⟨hb1, hb2⟩ := abs_le.mp h2'
  have hPnn : 0 ≤ N * x := mul_nonneg hN hx
  have hNa2 := mul_le_mul_of_nonneg_left ha2 hN
  have hNa1 := mul_le_mul_of_nonneg_left ha1 hN
  have e1 : N * (r - x) = N * r - N * x := by ring
  have e2 : N * (x / 2 ^ 53) = N * x / 2 ^ 53 := by ring
  have e3 : N * -(x / 2 ^ 53) = -(N * x / 2 ^ 53) := by ring
  have e4 : N * (x / 2) = N * x / 2 := by ring
  have e5 : N * (x * 2) = N * x * 2 := by ring
  have e6 : 3 * (N * x) / 2 ^ 53 = 3 * (N * x / 2 ^ 53) := by ring
  rw [e1, e2] at hNa2
  rw [e1, e3] at hNa1
  rw [e4, e5]
  rw [e6] at h3
  have hQnn : 0 ≤ N * x / 2 ^ 53 := div_nonneg hPnn (le_of_lt hB)
  have hQle : N * x / 2 ^ 53 ≤ N * x / 2 :=
    div_le_div_of_nonneg_left hPnn (by norm_num) (by norm_num)
  have hQQ : N * x / 2 ^ 53 / 2 ^ 53 ≤ N * x / 2 ^ 53 := div_le_self hQnn (by norm_num)
  have hwdiv : N * r / 2 ^ 53 ≤ (N * x + N * x / 2 ^ 53) / 2 ^ 53 :=
    div_le_div_of_nonneg_right (by linarith) (le_of_lt hB)
  rw [add_div] at hwdiv
  refine ⟨by linarith, by linarith, by linarith, by linarith⟩

theorem rounding_once (x r : ℚ) (hx : 0 ≤ x) (h1 : |r - x| * 2 ^ 53 ≤ x) :
    x / 2 ≤ r ∧ r ≤ x * 2 := by
  have hB : (0 : ℚ) < 2 ^ 53 := by positivity
  have h1' : |r - x| ≤ x / 2 ^ 53 := by rw [le_div_iff₀ hB]; exact h1
  obtain ⟨ha1, ha2⟩ := abs_le.mp h1'
  have hle : x / 2 ^ 53 ≤ x / 2 := div_le_div_of_nonneg_left hx (by norm_num) (by norm_num)
  constructor <;> linarith

theorem jsFloorScaled_near_floor (n : Nat) (t d : Int) (ht : 0 < t) (ht2 : t < 2 ^ 53)
    (hd : 0 < d) (hd2 : d < 2 ^ 53) (hnt : 3 * ((n : Int) * t) < 2 ^ 53) :
    ∃ k : Int, jsFloorScaled n t d = JsNum.fin k ∧
      ⌊(((n : Int) * t : Int) : ℚ) / (d : ℚ)⌋ - 1 ≤ k ∧
      k ≤ ⌊(((n : Int) * t : Int) : ℚ) / (d : ℚ)⌋ ∧
      (¬ d ∣ (n : Int) * t → k = ⌊(((n : Int) * t : Int) : ℚ) / (d : ℚ)⌋) := by
  have hne : ¬ d = 0 := by omega
  have htq : (0 : ℚ) < (t : ℚ) := by exact_mod_cast ht
  have hdq : (0 : ℚ) < (d : ℚ) := by exact_mod_cast hd
  have htn : ((t.natAbs : Nat) : ℚ) = (t : ℚ) := by
    rw [Nat.cast_natAbs, abs_of_pos ht]
  have hdn : ((d.natAbs : Nat) : ℚ) = (d : ℚ) := by
    rw [Nat.cast_natAbs, abs_of_pos hd]
  have ht1 : (1 : ℚ) ≤ (t : ℚ) := by exact_mod_cast ht
  have hd1 : (1 : ℚ) ≤ (d : ℚ) := by exact_mod_cast hd
  have ht53 : (t : ℚ) < 2 ^ 53 := by exact_mod_cast ht2
  have hd53 : (d : ℚ) < 2 ^ 53 := by exact_mod_cast hd2
  have hB : (0 : ℚ) < 2 ^ 53 := by positivity
  have hxpos : (0 : ℚ) < (t : ℚ) / d := div_pos htq hdq
  have hxge : 1 / 2 ^ 53 ≤ (t : ℚ) / d := by
    rw [div_le_div_iff₀ hB hdq, one_mul]
    calc (d : ℚ) ≤ 1 * 2 ^ 53 := by rw [one_mul]; exact le_of_lt hd53
      _ ≤ (t : ℚ) * 2 ^ 53 := mul_le_mul_of_nonneg_right ht1 (le_of_lt hB)
  -- the quotient
  have hlo1 : (d : ℚ) ≤ (t : ℚ) * 2 ^ 54 := by
    calc (d : ℚ) ≤ 1 * 2 ^ 53 := by rw [one_mul]; exact le_of_lt hd53
      _ ≤ (t : ℚ) * 2 ^ 54 :=
        mul_le_mul ht1 (by norm_num) (le_of_lt hB) (le_of_lt htq)
  have hhi1 : (t : ℚ) < (d : ℚ) * 2 ^ 53 := by
    calc (t : ℚ) < 2 ^ 53 := ht53
      _ ≤ (d : ℚ) * 2 ^ 53 := le_mul_of_one_le_left (le_of_lt hB) hd1
  obtain ⟨m, e, hm, herr⟩ := roundToDouble_near t.natAbs d.natAbs
    (Int.natAbs_pos.mpr (by omega)) (Int.natAbs_pos.mpr (by omega))
    (by rw [htn, hdn]; exact hlo1) (by rw [htn, hdn]; exact hhi1)
  rw [htn, hdn] at herr
  unfold jsFloorScaled
  rw [if_neg hne, hm]
  have hneg : (decide (t < 0) != decide (d < 0)) = false := by
    have h1 : ¬ t < 0 := by omega
    have h3 : ¬ d < 0 := by omega
    simp [h1, h3]
  simp only [hneg]
  have hp : (((n : Int) * t : Int) : ℚ) / (d : ℚ) = (n : ℚ) * ((t : ℚ) / d) := by
    push_cast; ring
  by_cases hn0 : n = 0
  · subst hn0
    obtain ⟨e2, he2⟩ := roundToDouble_zero (2 ^ (-e).toNat) (pow_pos (by norm_num) _)
    rw [Nat.zero_mul, Nat.zero_mul, he2]
    refine ⟨0, by simp [Int.fdiv], ?_, ?_, ?_⟩
    · simp
    · simp
    · intro h; exact absurd (by simp) h
  · have hn1 : (1 : ℚ) ≤ (n : ℚ) := by
      have h : 1 ≤ n := Nat.one_le_iff_ne_zero.mpr hn0
      exact_mod_cast h
    have hn0q : (0 : ℚ) ≤ (n : ℚ) := le_trans zero_le_one hn1
    obtain ⟨hrlo, hrhi⟩ := rounding_once ((t : ℚ) / d) ((m : ℚ) * (2 : ℚ) ^ e)
      (le_of_lt hxpos) herr
    have hrpos : (0 : ℚ) < (m : ℚ) * (2 : ℚ) ^ e := by linarith only [hrlo, hxpos]
    have hmpos : 0 < m := by
      rcases Nat.eq_zero_or_pos m with h0 | h0
      · rw [h0] at hrpos; simp at hrpos
      · exact h0
    have hW : 0 < n * m * 2 ^ e.toNat :=
      Nat.mul_pos (Nat.mul_pos (Nat.pos_of_ne_zero hn0) hmpos) (pow_pos (by norm_num) _)
    have hDn : (0 : ℚ) < ((2 ^ (-e).toNat : Nat) : ℚ) := by positivity
    have hwval : ((n * m * 2 ^ e.toNat : Nat) : ℚ) / ((2 ^ (-e).toNat : Nat) : ℚ) =
        (n : ℚ) * ((m : ℚ) * (2 : ℚ) ^ e) := by
      rw [two_zpow_split e]
      push_cast
      ring
    have hntq : 3 * ((n : ℚ) * t) < 2 ^ 53 := by exact_mod_cast hnt
    have hPle : (n : ℚ) * ((t : ℚ) / d) ≤ (n : ℚ) * t := by
      apply mul_le_mul_of_nonneg_left _ hn0q
      rw [div_le_iff₀ hdq]
      exact le_mul_of_one_le_right (le_of_lt htq) hd1
    have hrn : (m : ℚ) * (2 : ℚ) ^ e ≤ (n : ℚ) * ((m : ℚ) * (2 : ℚ) ^ e) :=
      le_mul_of_one_le_left (le_of_lt hrpos) hn1
    have hw54 : 1 / 2 ^ 54 ≤ (n : ℚ) * ((m : ℚ) * (2 : ℚ) ^ e) := by
      have h54 : (1 : ℚ) / 2 ^ 54 = 1 / 2 ^ 53 / 2 := by norm_num
      rw [h54]
      linarith only [hxge, hrlo, hrn]
    have hnr : (n : ℚ) * ((m : ℚ) * (2 : ℚ) ^ e) ≤ (n : ℚ) * ((t : ℚ) / d * 2) :=
      mul_le_mul_of_nonneg_left hrhi hn0q
    have hw53 : (n : ℚ) * ((m : ℚ) * (2 : ℚ) ^ e) < 2 ^ 53 := by
      have e5 : (n : ℚ) * ((t : ℚ) / d * 2) = (n : ℚ) * ((t : ℚ) / d) * 2 := by ring
      rw [e5] at hnr
      have hnn : 0 ≤ (n : ℚ) * t := mul_nonneg hn0q (le_of_lt htq)
      linarith only [hnr, hPle, hntq, hnn]
    have hWlo : ((2 ^ (-e).toNat : Nat) : ℚ) ≤ ((n * m * 2 ^ e.toNat : Nat) : ℚ) * 2 ^ 54 := by
      have h := hw54
      rw [← hwval, div_le_div_iff₀ (by positivity) hDn, one_mul] at h
      exact h
    have hWhi : ((n * m * 2 ^ e.toNat : Nat) : ℚ) < ((2 ^ (-e).toNat : Nat) : ℚ) * 2 ^ 53 := by
      have h := hw53
      rw [← hwval, div_lt_iff₀ hDn] at h
      linarith only [h]
    obtain ⟨m2, e2, hm2, herrw⟩ := roundToDouble_near (n * m * 2 ^ e.toNat) (2 ^ (-e).toNat)
      hW (pow_pos (by norm_num) _) hWlo hWhi
    rw [hwval] at herrw
    have h3Q : 3 * ((n : ℚ) * ((t : ℚ) / d)) / 2 ^ 53 < 1 / d := by
      have h : 3 * ((n : ℚ) * ((t : ℚ) / d)) / 2 ^ 53 = 3 * ((n : ℚ) * t) / 2 ^ 53 * (1 / d) := by
        field_simp; ring
      rw [h]
      have h1 : 3 * ((n : ℚ) * t) / 2 ^ 53 < 1 := (div_lt_one hB).mpr hntq
      have hdi : (0 : ℚ) < 1 / d := by positivity
      calc 3 * ((n : ℚ) * t) / 2 ^ 53 * (1 / d) < 1 * (1 / d) :=
            mul_lt_mul_of_pos_right h1 hdi
        _ = 1 / d := one_mul _
    obtain ⟨hlt, hgt, _, _⟩ := rounding_twice (n : ℚ) ((t : ℚ) / d) ((m : ℚ) * (2 : ℚ) ^ e)
      ((m2 : ℚ) * (2 : ℚ) ^ e2) (1 / d) hn0q (le_of_lt hxpos) herr herrw h3Q
    rw [hm2]
    simp only [Bool.false_eq_true, if_false]
    rw [fdiv_pow_eq_floor]
    refine ⟨_, rfl, ?_⟩
    apply floor_of_near ((n : Int) * t) d _ hd
    · rw [hp]; exact hlt
    · rw [hp]; exact hgt

theorem truncateRouteToDistance_coordinates (route : Route) (maxDistance k : Int)
    (hk : jsFloorScaled route.geometry.coordinates.length maxDistance
      route.properties.distance = JsNum.fin k) :
    (truncateRouteToDistance route maxDistance).geometry.coordinates =
      route.geometry.coordinates.take (max 2 k).toNat := by
  have hnn : ¬ max 2 k < 0 := by omega
  simp only [truncateRouteToDistance, hk, jsMax2, jsSliceFromStart, hnn, if_false]

/-- C19, as stated, fails: a bike route of 72 km over 13 coordinates keeps its
first 10 coordinates, where `max(2, ceil(13 * 60 / 72))` is 11. -/
theorem C19_truncate_not_ceil :
    (sampleRoute 13 72).geometry.coordinates.length = 13 ∧
    (60 : Int) < (sampleRoute 13 72).properties.distance ∧
    max 2 ⌈((13 : ℚ) * 60 / 72)⌉ = 11 ∧
    (adjustBikeRoute (sampleRoute 13 72)).geometry.coordinates =
      (sampleRoute 13 72).geometry.coordinates.take 10 ∧
    (adjustBikeRoute (sampleRoute 13 72)).geometry.coordinates ≠
      (sampleRoute 13 72).geometry.coordinates.take 11 := by
  refine ⟨by decide, by decide, ?_, by decide, by decide⟩
  have hceil : ⌈((13 : ℚ) * 60 / 72)⌉ = 11 := by
    rw [Int.ceil_eq_iff]
    constructor <;> norm_num
  rw [hceil]
  decide

/-- C19 amended: for a bike route with `n < 2 ^ 32` coordinates and a routed
distance `d` with `60 < d < 2 ^ 53`, truncation to 60 km keeps exactly the
first `max(2, k)` coordinates, capped at `n`, where `k` is the floor of the
double product `n * (60 / d)`; `k` is `floor(n * 60 / d)` when `n * 60 / d` is
not a whole number, and `floor(n * 60 / d)` or one less when it is. -/
theorem C19_truncate_keeps_double_floor (route : Route)
    (hn : route.geometry.coordinates.length < 2 ^ 32)
    (hd : 60 < route.properties.distance) (hd2 : route.properties.distance < 2 ^ 53) :
    ∃ k : Int,
      jsFloorScaled route.geometry.coordinates.length 60 route.properties.distance =
        JsNum.fin k ∧
      (adjustBikeRoute route).geometry.coordinates =
        route.geometry.coordinates.take (max 2 k).toNat ∧
      (adjustBikeRoute route).geometry.coordinates =
        (truncateRouteToDistance route 60).geometry.coordinates ∧
      (adjustBikeRoute route).geometry.coordinates.length =
        min (max 2 k).toNat route.geometry.coordinates.length ∧
      ⌊(((route.geometry.coordinates.length : Int) * 60 : Int) : ℚ) /
          (route.properties.distance : ℚ)⌋ - 1 ≤ k ∧
      k ≤ ⌊(((route.geometry.coordinates.length : Int) * 60 : Int) : ℚ) /
          (route.properties.distance : ℚ)⌋ ∧
      (¬ route.properties.distance ∣ (route.geometry.coordinates.length : Int) * 60 →
        k = ⌊(((route.geometry.coordinates.length : Int) * 60 : Int) : ℚ) /
          (route.properties.distance : ℚ)⌋) := by
  have hgt : route.properties.distance > 60 := hd
  have hadj : (adjustBikeRoute route).geometry.coordinates =
      (truncateRouteToDistance route 60).geometry.coordinates := by
    simp [adjustBikeRoute, hgt]
  have hn' : (route.geometry.coordinates.length : Int) < 2 ^ 32 := by exact_mod_cast hn
  obtain ⟨k, hk, hlo, hhi, hex⟩ := jsFloorScaled_near_floor route.geometry.coordinates.length
    60 route.properties.distance (by norm_num) (by norm_num) (by omega) hd2
    (by norm_num at hn' ⊢; omega)
  have hco := truncateRouteToDistance_coordinates route 60 k hk
  refine ⟨k, hk, by rw [hadj, hco], hadj, ?_, hlo, hhi, hex⟩
  rw [hadj, hco, List.length_take]

/-- C19 amended, on 88 km over 22 coordinates: `22 * 60 / 88` is 15, the double
product is just below it, and 14 coordinates are kept. -/
theorem C19_truncate_keeps_double_floor_witness :
    (adjustBikeRoute (sampleRoute 22 88)).geometry.coordinates.length = 14 ∧
    jsFloorScaled 22 60 88 = JsNum.fin 14 ∧
    ⌊((((22 : Nat) : Int) * 60 : Int) : ℚ) / ((88 : Int) : ℚ)⌋ = 15 ∧
    ∃ k : Int,
      jsFloorScaled (sampleRoute 22 88).geometry.coordinates.length 60
        (sampleRoute 22 88).properties.distance = JsNum.fin k ∧
      (adjustBikeRoute (sampleRoute 22 88)).geometry.coordinates =
        (sampleRoute 22 88).geometry.coordinates.take (max 2 k).toNat ∧
      (adjustBikeRoute (sampleRoute 22 88)).geometry.coordinates =
        (truncateRouteToDistance (sampleRoute 22 88) 60).geometry.coordinates ∧
      (adjustBikeRoute (sampleRoute 22 88)).geometry.coordinates.length =
        min (max 2 k).toNat (sampleRoute 22 88).geometry.coordinates.length ∧
      ⌊((((sampleRoute 22 88).geometry.coordinates.length : Int) * 60 : Int) : ℚ) /
          ((sampleRoute 22 88).properties.distance : ℚ)⌋ - 1 ≤ k ∧
      k ≤ ⌊((((sampleRoute 22 88).geometry.coordinates.length : Int) * 60 : Int) : ℚ) /
          ((sampleRoute 22 88).properties.distance : ℚ)⌋ ∧
      (¬ (sampleRoute 22 88).properties.distance ∣
          ((sampleRoute 22 88).geometry.coordinates.length : Int) * 60 →
        k = ⌊((((sampleRoute 22 88).geometry.coordinates.length : Int) * 60 : Int) : ℚ) /
          ((sampleRoute 22 88).properties.distance : ℚ)⌋) :=
  ⟨by decide, by decide, by rw [Int.floor_eq_iff]; norm_num,
    C19_truncate_keeps_double_floor (sampleRoute 22 88) (by decide) (by decide) (by decide)⟩

/-! ## Plausibility check and unit conversion -/

theorem isValidRoute_eq_false_iff (coordinates : List Coord) (distanceKm : Int) :
    isValidRoute coordinates distanceKm = false ↔
      20 < distanceKm ∧ (coordinates.length : Int) < 2 * distanceKm := by
  unfold isValidRoute
  by_cases hd : distanceKm > 20
  · have hpos : (0 : ℚ) < (distanceKm : ℚ) := by
      have : (0 : Int) < distanceKm := by omega
      exact_mod_cast this
    have hiff : (coordinates.length : ℚ) / (distanceKm : ℚ) < 2 ↔
        (coordinates.length : Int) < 2 * distanceKm := by
      rw [div_lt_iff₀ hpos]
      constructor
      · intro h; exact_mod_cast h
      · intro h; exact_mod_cast h
    by_cases hn : (coordinates.length : Int) < 2 * distanceKm
    · have hq := hiff.mpr hn
      simp [hd, hn, hq]
    · have hq : ¬ (coordinates.length : ℚ) / (distanceKm : ℚ) < 2 := fun h => hn (hiff.mp h)
      simp only [hq, false_and, if_false]
      constructor
      · intro h; cases h
      · intro h; exact absurd h.2 hn
  · have h20 : ¬ 20 < distanceKm := hd
    simp [hd, h20]

theorem isValidRoute_of_le (coordinates : List Coord) (distanceKm : Int)
    (h : distanceKm ≤ 20) : isValidRoute coordinates distanceKm = true := by
  cases hv : isValidRoute coordinates distanceKm with
  | true => rfl
  | false =>
    have := (isValidRoute_eq_false_iff coordinates distanceKm).mp hv
    omega

theorem jsRound_eq_iff (x : ℚ) (k : Int) :
    jsRound x = k ↔ (k : ℚ) - 1 / 2 ≤ x ∧ x < (k : ℚ) + 1 / 2 := by
  unfold jsRound
  rw [Int.floor_eq_iff]
  constructor
  · rintro ⟨h1, h2⟩; constructor <;> linarith
  · rintro ⟨h1, h2⟩; constructor <;> linarith

theorem jsRound_nonneg (x : ℚ) (hx : 0 ≤ x) : 0 ≤ jsRound x := by
  unfold jsRound
  exact Int.floor_nonneg.mpr (by linarith)

/-- C20: for a coordinate list of length `n` and a positive distance `d`,
`isValidRoute` returns `false` exactly when `n / d < 2` and `d > 20`, that is
when `d > 20` and `n < 2 * d`; every route of 20 km or less is judged
plausible. -/
theorem C20_plausibility (coordinates : List Coord) (distanceKm : Int)
    (hd : 0 < distanceKm) :
    (isValidRoute coordinates distanceKm = false ↔
      (coordinates.length : ℚ) / (distanceKm : ℚ) < 2 ∧ 20 < distanceKm) ∧
    (isValidRoute coordinates distanceKm = false ↔
      20 < distanceKm ∧ (coordinates.length : Int) < 2 * distanceKm) ∧
    (distanceKm ≤ 20 → isValidRoute coordinates distanceKm = true) := by
  refine ⟨?_, isValidRoute_eq_false_iff coordinates distanceKm,
    isValidRoute_of_le coordinates distanceKm⟩
  have hpos : (0 : ℚ) < (distanceKm : ℚ) := by exact_mod_cast hd
  rw [isValidRoute_eq_false_iff, div_lt_iff₀ hpos]
  constructor
  · rintro ⟨h1, h2⟩
    exact ⟨by exact_mod_cast h2, h1⟩
  · rintro ⟨h1, h2⟩
    exact ⟨h2, by exact_mod_cast h1⟩

/-- C20 on 30 km: 59 points are too few, 60 points are enough. -/
theorem C20_plausibility_witness :
    isValidRoute (sampleRoute 59 30).geometry.coordinates 30 = false ∧
    isValidRoute (sampleRoute 60 30).geometry.coordinates 30 = true ∧
    isValidRoute (sampleRoute 2 20).geometry.coordinates 20 = true := by
  refine ⟨?_, ?_, ?_⟩
  · exact (C20_plausibility (sampleRoute 59 30).geometry.coordinates 30 (by decide)).2.1.mpr
      (by decide)
  · cases hv : isValidRoute (sampleRoute 60 30).geometry.coordinates 30 with
    | true => rfl
    | false =>
      exact absurd ((C20_plausibility (sampleRoute 60 30).geometry.coordinates 30
        (by decide)).2.1.mp hv) (by decide)
  · exact (C20_plausibility (sampleRoute 2 20).geometry.coordinates 20 (by decide)).2.2
      (by decide)

/-! ## Road router: what a call returns -/

theorem createOSRMRoute_direct (osrm : Osrm) (issued : Nat) (coordinates : List Coord)
    (profile : String) (route : OsrmRoute) (rest : List OsrmRoute)
    (hreply : osrm issued ⟨profile, coordinates, true⟩ = OsrmReply.routes (route :: rest))
    (hvalid : isValidRoute route.geometry.coordinates (jsRound (route.distance / 1000)) = true) :
    createOSRMRoute osrm issued coordinates profile =
      (Except.ok (some (osrmFeature route profile false)), [⟨profile, coordinates, true⟩]) := by
  simp only [createOSRMRoute, hreply, hvalid, if_true]

theorem createOSRMRoute_repair (osrm : Osrm) (issued : Nat) (coordinates : List Coord)
    (profile : String) (route : OsrmRoute) (rest : List OsrmRoute)
    (hreply : osrm issued ⟨profile, coordinates, true⟩ = OsrmReply.routes (route :: rest))
    (hvalid : isValidRoute route.geometry.coordinates (jsRound (route.distance / 1000)) = false) :
    createOSRMRoute osrm issued coordinates profile =
      (Except.ok (createShorterOSRMRoute osrm (issued + 1) coordinates profile).1,
        ⟨profile, coordinates, true⟩ ::
          (createShorterOSRMRoute osrm (issued + 1) coordinates profile).2) := by
  simp only [createOSRMRoute, hreply, hvalid, Bool.false_eq_true, if_false]

theorem createShorterOSRMRoute_routes (osrm : Osrm) (issued : Nat)
    (originalCoords : List Coord) (profile : String) (route : OsrmRoute)
    (rest : List OsrmRoute)
    (hreply : osrm issued ⟨profile, jsSliceFromStart originalCoords
        (JsNum.fin (jsCeilDiv originalCoords.length 2)), false⟩ =
          OsrmReply.routes (route :: rest)) :
    createShorterOSRMRoute osrm issued originalCoords profile =
      (some (osrmFeature route profile true),
        [⟨profile, jsSliceFromStart originalCoords
          (JsNum.fin (jsCeilDiv originalCoords.length 2)), false⟩]) := by
  simp only [createShorterOSRMRoute, hreply]

theorem createShorterOSRMRoute_null (osrm : Osrm) (issued : Nat)
    (originalCoords : List Coord) (profile : String)
    (hreply : osrm issued ⟨profile, jsSliceFromStart originalCoords
        (JsNum.fin (jsCeilDiv originalCoords.length 2)), false⟩ = OsrmReply.failed ∨
      osrm issued ⟨profile, jsSliceFromStart originalCoords
        (JsNum.fin (jsCeilDiv originalCoords.length 2)), false⟩ = OsrmReply.routes []) :
    createShorterOSRMRoute osrm issued originalCoords profile =
      (none,
        [⟨profile, jsSliceFromStart originalCoords
          (JsNum.fin (jsCeilDiv originalCoords.length 2)), false⟩]) := by
  rcases hreply with hreply | hreply <;> simp only [createShorterOSRMRoute, hreply]

theorem createShorterOSRMRoute_log (osrm : Osrm) (issued : Nat) (originalCoords : List Coord)
    (profile : String) :
    (createShorterOSRMRoute osrm issued originalCoords profile).2 =
      [⟨profile, jsSliceFromStart originalCoords
        (JsNum.fin (jsCeilDiv originalCoords.length 2)), false⟩] := by
  cases hreply : osrm issued ⟨profile, jsSliceFromStart originalCoords
      (JsNum.fin (jsCeilDiv originalCoords.length 2)), false⟩ with
  | failed => rw [createShorterOSRMRoute_null osrm issued originalCoords profile (Or.inl hreply)]
  | routes routes =>
    cases routes with
    | nil => rw [createShorterOSRMRoute_null osrm issued originalCoords profile (Or.inr hreply)]
    | cons route rest =>
      rw [createShorterOSRMRoute_routes osrm issued originalCoords profile route rest hreply]

/-- A feature returned by the repair step is built from the first route of the
reply to the repair request. -/
theorem createShorterOSRMRoute_some (osrm : Osrm) (issued : Nat) (originalCoords : List Coord)
    (profile : String) (segment : Route)
    (h : (createShorterOSRMRoute osrm issued originalCoords profile).1 = some segment) :
    ∃ (route : OsrmRoute) (rest : List OsrmRoute),
      osrm issued ⟨profile, jsSliceFromStart originalCoords
        (JsNum.fin (jsCeilDiv originalCoords.length 2)), false⟩ =
          OsrmReply.routes (route :: rest) ∧
      segment = osrmFeature route profile true := by
  cases hreply : osrm issued ⟨profile, jsSliceFromStart originalCoords
      (JsNum.fin (jsCeilDiv originalCoords.length 2)), false⟩ with
  | failed =>
    rw [createShorterOSRMRoute_null osrm issued originalCoords profile (Or.inl hreply)] at h
    cases h
  | routes routes =>
    cases routes with
    | nil =>
      rw [createShorterOSRMRoute_null osrm issued originalCoords profile (Or.inr hreply)] at h
      cases h
    | cons route rest =>
      rw [createShorterOSRMRoute_routes osrm issued originalCoords profile route rest hreply] at h
      simp only [Option.some.injEq] at h
      exact ⟨route, rest, rfl, h.symm⟩

/-- Every feature `createOSRMRoute` returns is built from the first route of a
reply to one of the requests it sent. -/
theorem createOSRMRoute_some (osrm : Osrm) (issued : Nat) (coordinates : List Coord)
    (profile : String) (segment : Route)
    (h : (createOSRMRoute osrm issued coordinates profile).1 = Except.ok (some segment)) :
    ∃ (k : Nat) (request : OsrmRequest) (route : OsrmRoute) (rest : List OsrmRoute)
      (shortened : Bool),
      request ∈ (createOSRMRoute osrm issued coordinates profile).2 ∧
      osrm k request = OsrmReply.routes (route :: rest) ∧
      segment = osrmFeature route profile shortened := by
  cases hreply : osrm issued ⟨profile, coordinates, true⟩ with
  | failed =>
    simp only [createOSRMRoute, hreply] at h
    cases h
  | routes routes =>
    cases routes with
    | nil =>
      simp only [createOSRMRoute, hreply] at h
      cases h
    | cons route rest =>
      cases hvalid : isValidRoute route.geometry.coordinates (jsRound (route.distance / 1000)) with
      | true =>
        rw [createOSRMRoute_direct osrm issued coordinates profile route rest hreply hvalid]
          at h ⊢
        simp only [Except.ok.injEq, Option.some.injEq] at h
        exact ⟨issued, _, route, rest, false, List.mem_singleton.mpr rfl, hreply, h.symm⟩
      | false =>
        rw [createOSRMRoute_repair osrm issued coordinates profile route rest hreply hvalid]
          at h ⊢
        simp only [Except.ok.injEq] at h
        obtain ⟨route', rest', hreply', hseg⟩ :=
          createShorterOSRMRoute_some osrm (issued + 1) coordinates profile segment h
        refine ⟨issued + 1, _, route', rest', true, ?_, hreply', hseg⟩
        rw [createShorterOSRMRoute_log]
        simp

/-- C16: the segment `createOSRMRoute` produces comes from a route of the
routing service with distance `m` metres and duration `s` seconds; its
distance is `m / 1000` rounded to the nearest whole number, halves up, its
duration is `s / 60` rounded the same way, and both are non-negative when `m`
and `s` are. -/
theorem C16_rounded_units (osrm : Osrm) (issued : Nat) (coordinates : List Coord)
    (profile : String) (segment : Route)
    (h : (createOSRMRoute osrm issued coordinates profile).1 = Except.ok (some segment)) :
    ∃ (k : Nat) (request : OsrmRequest) (route : OsrmRoute) (rest : List OsrmRoute),
      request ∈ (createOSRMRoute osrm issued coordinates profile).2 ∧
      osrm k request = OsrmReply.routes (route :: rest) ∧
      segment.geometry = route.geometry ∧
      ((segment.properties.distance : ℚ) - 1 / 2 ≤ route.distance / 1000 ∧
        route.distance / 1000 < (segment.properties.distance : ℚ) + 1 / 2) ∧
      ((segment.properties.duration : ℚ) - 1 / 2 ≤ route.duration / 60 ∧
        route.duration / 60 < (segment.properties.duration : ℚ) + 1 / 2) ∧
      (0 ≤ route.distance → 0 ≤ segment.properties.distance) ∧
      (0 ≤ route.duration → 0 ≤ segment.properties.duration) := by
  obtain ⟨k, request, route, rest, shortened, hmem, hreply, hseg⟩ :=
    createOSRMRoute_some osrm issued coordinates profile segment h
  refine ⟨k, request, route, rest, hmem, hreply, ?_, ?_, ?_, ?_, ?_⟩
  · rw [hseg]; rfl
  · rw [hseg]
    exact (jsRound_eq_iff (route.distance / 1000) _).mp rfl
  · rw [hseg]
    exact (jsRound_eq_iff (route.duration / 60) _).mp rfl
  · intro hm
    rw [hseg]
    exact jsRound_nonneg _ (div_nonneg hm (by norm_num))
  · intro hs
    rw [hseg]
    exact jsRound_nonneg _ (div_nonneg hs (by norm_num))

theorem sampleOsrmRoute_distance : jsRound (sampleOsrmRoute.distance / 1000) = 13 :=
  (jsRound_eq_iff _ 13).mpr (by constructor <;> norm_num [sampleOsrmRoute])

theorem sampleOsrmRoute_duration : jsRound (sampleOsrmRoute.duration / 60) = 61 :=
  (jsRound_eq_iff _ 61).mpr (by constructor <;> norm_num [sampleOsrmRoute])

theorem sampleOsrm_createOSRMRoute (issued : Nat) (coordinates : List Coord)
    (profile : String) :
    createOSRMRoute sampleOsrm issued coordinates profile =
      (Except.ok (some (osrmFeature sampleOsrmRoute profile false)),
        [⟨profile, coordinates, true⟩]) :=
  createOSRMRoute_direct sampleOsrm issued coordinates profile sampleOsrmRoute [] rfl
    (isValidRoute_of_le _ _ (by rw [sampleOsrmRoute_distance]; decide))

/-- C16 on an answer of 12500 m and 3630 s: the segment carries 13 km (12.5
rounds up) and 61 min (60.5 rounds up). -/
theorem C16_rounded_units_witness :
    (createOSRMRoute sampleOsrm 0 [⟨0, 0⟩, ⟨2, 2⟩] "cycling").1 =
      Except.ok (some (osrmFeature sampleOsrmRoute "cycling" false)) ∧
    (osrmFeature sampleOsrmRoute "cycling" false).properties.distance = 13 ∧
    (osrmFeature sampleOsrmRoute "cycling" false).properties.duration = 61 ∧
    ∃ (k : Nat) (request : OsrmRequest) (route : OsrmRoute) (rest : List OsrmRoute),
      request ∈ (createOSRMRoute sampleOsrm 0 [⟨0, 0⟩, ⟨2, 2⟩] "cycling").2 ∧
      sampleOsrm k request = OsrmReply.routes (route :: rest) ∧
      (osrmFeature sampleOsrmRoute "cycling" false).geometry = route.geometry ∧
      ((((osrmFeature sampleOsrmRoute "cycling" false).properties.distance : Int) : ℚ) - 1 / 2
          ≤ route.distance / 1000 ∧
        route.distance / 1000 <
          (((osrmFeature sampleOsrmRoute "cycling" false).properties.distance : Int) : ℚ)
            + 1 / 2) ∧
      ((((osrmFeature sampleOsrmRoute "cycling" false).properties.duration : Int) : ℚ) - 1 / 2
          ≤ route.duration / 60 ∧
        route.duration / 60 <
          (((osrmFeature sampleOsrmRoute "cycling" false).properties.duration : Int) : ℚ)
            + 1 / 2) ∧
      (0 ≤ route.distance →
        0 ≤ (osrmFeature sampleOsrmRoute "cycling" false).properties.distance) ∧
      (0 ≤ route.duration →
        0 ≤ (osrmFeature sampleOsrmRoute "cycling" false).properties.duration) :=
  ⟨by rw [sampleOsrm_createOSRMRoute], sampleOsrmRoute_distance, sampleOsrmRoute_duration,
    C16_rounded_units sampleOsrm 0 [⟨0, 0⟩, ⟨2, 2⟩] "cycling"
      (osrmFeature sampleOsrmRoute "cycling" false) (by rw [sampleOsrm_createOSRMRoute])⟩

/-! ## Closing the walking loop -/

theorem closeWalkLoop_cons (first : Waypoint) (rest : List Waypoint) :
    closeWalkLoop (first :: rest) =
      if first.coordinates = ((first :: rest).map (fun wp => wp.coordinates)).getLast
          (by simp) then
        some ((first :: rest).map (fun wp => wp.coordinates), first :: rest)
      else
        some ((first :: rest).map (fun wp => wp.coordinates) ++ [first.coordinates],
          (first :: rest) ++ [{ first with name := "חזרה ל" ++ first.name, type := "end" }]) := by
  have hlast : ((first :: rest).map (fun wp => wp.coordinates)).getLast? =
      some (((first :: rest).map (fun wp => wp.coordinates)).getLast (by simp)) :=
    List.getLast?_eq_getLast _ (by simp)
  generalize hl : ((first :: rest).map (fun wp => wp.coordinates)).getLast (by simp) = lastCoord
    at hlast ⊢
  unfold closeWalkLoop
  simp only [List.head?_cons, hlast]
  by_cases heq : first.coordinates = lastCoord
  · have hno : ¬ (first.coordinates.lon ≠ lastCoord.lon ∨ first.coordinates.lat ≠ lastCoord.lat) := by
      rw [heq]; simp
    simp only [List.map_cons, List.head?_cons, heq, if_true] at hno ⊢
    simp
  · have hyes : first.coordinates.lon ≠ lastCoord.lon ∨ first.coordinates.lat ≠ lastCoord.lat := by
      by_contra hcon
      push_neg at hcon
      apply heq
      cases hf : first.coordinates
      cases hl' : lastCoord
      simp only [hf, hl'] at hcon
      simp [hcon.1, hcon.2]
    simp only [List.map_cons, List.head?_cons, hyes, heq, if_true, if_false]

/-- The requests of one `createOSRMRoute` call: the original one, followed by
the repair request when the first answer was judged implausible. -/
theorem createOSRMRoute_log (osrm : Osrm) (issued : Nat) (coordinates : List Coord)
    (profile : String) :
    (createOSRMRoute osrm issued coordinates profile).2 = [⟨profile, coordinates, true⟩] ∨
    (createOSRMRoute osrm issued coordinates profile).2 =
      [⟨profile, coordinates, true⟩,
        ⟨profile, jsSliceFromStart coordinates (JsNum.fin (jsCeilDiv coordinates.length 2)),
          false⟩] := by
  cases hreply : osrm issued ⟨profile, coordinates, true⟩ with
  | failed => left; simp only [createOSRMRoute, hreply]
  | routes routes =>
    cases routes with
    | nil => left; simp only [createOSRMRoute, hreply]
    | cons route rest =>
      cases hvalid : isValidRoute route.geometry.coordinates (jsRound (route.distance / 1000)) with
      | true =>
        left
        rw [createOSRMRoute_direct osrm issued coordinates profile route rest hreply hvalid]
      | false =>
        right
        rw [createOSRMRoute_repair osrm issued coordinates profile route rest hreply hvalid,
          createShorterOSRMRoute_log]

theorem createWalkRouteWithOSRM_log (osrm : Osrm) (issued : Nat) (waypoints : List Waypoint)
    (coordinates : List Coord) (closedWaypoints : List Waypoint)
    (h : closeWalkLoop waypoints = some (coordinates, closedWaypoints)) :
    (createWalkRouteWithOSRM osrm issued waypoints).2 =
      (createOSRMRoute osrm issued coordinates "foot").2 := by
  unfold createWalkRouteWithOSRM
  rw [h]
  simp only
  split <;> rfl

/-- C12: for a non-empty walk waypoint list with coordinates `cs`, the list
routed by `createWalkRouteWithOSRM` is `cs` itself when the first coordinate
equals the last, the waypoint list staying as it is, and `cs` followed by one
copy of the first coordinate otherwise; either way the routed list starts and
ends at the first coordinate. -/
theorem C12_walk_loop_closed (osrm : Osrm) (issued : Nat) (waypoints : List Waypoint)
    (hne : waypoints ≠ []) :
    ∃ (firstCoord lastCoord : Coord) (coordinates : List Coord)
      (closedWaypoints : List Waypoint),
      (waypoints.map (fun wp => wp.coordinates)).head? = some firstCoord ∧
      (waypoints.map (fun wp => wp.coordinates)).getLast? = some lastCoord ∧
      closeWalkLoop waypoints = some (coordinates, closedWaypoints) ∧
      (createWalkRouteWithOSRM osrm issued waypoints).2.head? =
        some ⟨"foot", coordinates, true⟩ ∧
      (firstCoord = lastCoord →
        coordinates = waypoints.map (fun wp => wp.coordinates) ∧
          closedWaypoints = waypoints) ∧
      (firstCoord ≠ lastCoord →
        coordinates = waypoints.map (fun wp => wp.coordinates) ++ [firstCoord] ∧
          closedWaypoints.length = waypoints.length + 1 ∧
          closedWaypoints.take waypoints.length = waypoints) ∧
      coordinates.head? = some firstCoord ∧ coordinates.getLast? = some firstCoord := by
  match waypoints, hne with
  | first :: rest, _ =>
    have hlast : ((first :: rest).map (fun wp => wp.coordinates)).getLast? =
        some (((first :: rest).map (fun wp => wp.coordinates)).getLast (by simp)) :=
      List.getLast?_eq_getLast _ (by simp)
    have hclose := closeWalkLoop_cons first rest
    generalize ((first :: rest).map (fun wp => wp.coordinates)).getLast (by simp) = lastCoord
      at hlast hclose
    have hhead : ∀ (cs : List Coord) (ws : List Waypoint),
        closeWalkLoop (first :: rest) = some (cs, ws) →
        (createWalkRouteWithOSRM osrm issued (first :: rest)).2.head? =
          some ⟨"foot", cs, true⟩ := by
      intro cs ws h
      rw [createWalkRouteWithOSRM_log osrm issued _ cs ws h]
      rcases createOSRMRoute_log osrm issued cs "foot" with hl | hl <;> rw [hl] <;> rfl
    by_cases heq : first.coordinates = lastCoord
    · rw [if_pos heq] at hclose
      refine ⟨first.coordinates, lastCoord, _, _, by simp, hlast, hclose, hhead _ _ hclose,
        fun _ => ⟨rfl, rfl⟩, fun hcon => absurd heq hcon, by simp, ?_⟩
      rw [hlast, heq]
    · rw [if_neg heq] at hclose
      refine ⟨first.coordinates, lastCoord, _, _, by simp, hlast, hclose, hhead _ _ hclose,
        fun hcon => absurd hcon heq, fun _ => ⟨rfl, by simp, by simp⟩, by simp, ?_⟩
      rw [List.getLast?_append, List.getLast?_singleton]
      rfl

/-- C12 on a closed list of 4 waypoints, routed unchanged, and on an open list
of 4, routed with the first coordinate appended. -/
theorem C12_walk_loop_closed_witness :
    closeWalkLoop sampleClosedWalk =
      some (sampleClosedWalk.map (fun wp => wp.coordinates), sampleClosedWalk) ∧
    (closeWalkLoop sampleOpenWalk).map (fun p => (p.1, p.2.length)) =
      some ([⟨10, 10⟩, ⟨11, 10⟩, ⟨11, 11⟩, ⟨10, 11⟩, ⟨10, 10⟩], 5) ∧
    ∃ (firstCoord lastCoord : Coord) (coordinates : List Coord)
      (closedWaypoints : List Waypoint),
      (sampleOpenWalk.map (fun wp => wp.coordinates)).head? = some firstCoord ∧
      (sampleOpenWalk.map (fun wp => wp.coordinates)).getLast? = some lastCoord ∧
      closeWalkLoop sampleOpenWalk = some (coordinates, closedWaypoints) ∧
      (createWalkRouteWithOSRM sampleOsrm 0 sampleOpenWalk).2.head? =
        some ⟨"foot", coordinates, true⟩ ∧
      (firstCoord = lastCoord →
        coordinates = sampleOpenWalk.map (fun wp => wp.coordinates) ∧
          closedWaypoints = sampleOpenWalk) ∧
      (firstCoord ≠ lastCoord →
        coordinates = sampleOpenWalk.map (fun wp => wp.coordinates) ++ [firstCoord] ∧
          closedWaypoints.length = sampleOpenWalk.length + 1 ∧
          closedWaypoints.take sampleOpenWalk.length = sampleOpenWalk) ∧
      coordinates.head? = some firstCoord ∧ coordinates.getLast? = some firstCoord :=
  ⟨by decide, by decide, C12_walk_loop_closed sampleOsrm 0 sampleOpenWalk (by decide)⟩

/-! ## The pipeline: what a returned trip went through -/

/-- A returned trip went through every stage of `generateTrip`, with `trek`
turned into `walk`: waypoints, routes, adjustment and assembly all succeeded. -/
theorem generateTrip_ok (groqApiKey : Option String)
    (groq : Destination → TripType → Option GroqData) (osrm : Osrm)
    (destination : Destination) (tripType : TripType) (generatedAt : String) (trip : Trip)
    (h : (generateTrip groqApiKey groq osrm destination tripType generatedAt).1 =
      Except.ok trip) :
    ∃ (groqData : GroqData) (routes adjustedRoutes : List Route),
      groq destination (if tripType = TripType.trek then TripType.walk else tripType) =
        some groqData ∧
      (createRealRoutesFromWaypoints osrm 0 groqData
        (if tripType = TripType.trek then TripType.walk else tripType)).1 =
          Except.ok (some routes) ∧
      routes ≠ [] ∧
      adjustRoutesToConstraints routes
        (if tripType = TripType.trek then TripType.walk else tripType) = some adjustedRoutes ∧
      buildFinalTrip adjustedRoutes destination
        (if tripType = TripType.trek then TripType.walk else tripType) groqData.metadata
        generatedAt = Except.ok trip := by
  unfold generateTrip at h
  by_cases hkey : orDefault groqApiKey "" = ""
  · rw [if_pos hkey] at h
    cases h
  · rw [if_neg hkey] at h
    simp only at h
    cases hg : groq destination (if tripType = TripType.trek then TripType.walk else tripType) with
    | none => rw [hg] at h; cases h
    | some groqData =>
      rw [hg] at h
      simp only at h
      cases hr : (createRealRoutesFromWaypoints osrm 0 groqData
          (if tripType = TripType.trek then TripType.walk else tripType)).1 with
      | error e => rw [hr] at h; cases h
      | ok found =>
        rw [hr] at h
        cases found with
        | none => cases h
        | some routes =>
          cases routes with
          | nil => cases h
          | cons route rest =>
            simp only at h
            cases ha : adjustRoutesToConstraints (route :: rest)
                (if tripType = TripType.trek then TripType.walk else tripType) with
            | none => rw [ha] at h; cases h
            | some adjustedRoutes =>
              rw [ha] at h
              simp only at h
              cases hb : buildFinalTrip adjustedRoutes destination
                  (if tripType = TripType.trek then TripType.walk else tripType)
                  groqData.metadata generatedAt with
              | error e => rw [hb] at h; cases h
              | ok finalTrip =>
                rw [hb] at h
                simp only [Except.ok.injEq] at h
                subst h
                exact ⟨groqData, route :: rest, adjustedRoutes, rfl, hr, by simp, ha, hb⟩

theorem generateTrip_total (groqApiKey : Option String)
    (groq : Destination → TripType → Option GroqData) (osrm : Osrm)
    (destination : Destination) (tripType : TripType) (generatedAt : String)
    (h : ∀ trip, (generateTrip groqApiKey groq osrm destination tripType generatedAt).1 ≠
      Except.ok trip) :
    ∃ e, (generateTrip groqApiKey groq osrm destination tripType generatedAt).1 =
      Except.error e := by
  cases hres : (generateTrip groqApiKey groq osrm destination tripType generatedAt).1 with
  | error e => exact ⟨e, rfl⟩
  | ok trip => exact absurd hres (h trip)

theorem validateFinalTrip_bike_length (routes : List Route)
    (h : validateFinalTrip routes TripType.bike = Except.ok ()) : routes.length = 2 := by
  unfold validateFinalTrip at h
  by_cases hlen : routes.length = 2
  · exact hlen
  · simp [hlen] at h

/-- A day block yields at most one route, and yields one only when the day has
at least 2 waypoints and `createOSRMRoute` returned a feature. -/
theorem bikeDay_ok (osrm : Osrm) (issued day : Nat) (label : String)
    (dayWaypoints : List Waypoint) (routes : List Route)
    (h : (bikeDay osrm issued day label dayWaypoints).1 = Except.ok routes) :
    routes.length ≤ 1 ∧
    (routes.length = 1 →
      2 ≤ dayWaypoints.length ∧
      ∃ dayRoute, (createOSRMRoute osrm issued (dayWaypoints.map (fun wp => wp.coordinates))
        "cycling").1 = Except.ok (some dayRoute)) := by
  unfold bikeDay at h
  by_cases hlen : dayWaypoints.length ≥ 2
  · rw [if_pos hlen] at h
    simp only at h
    cases hr : (createOSRMRoute osrm issued (dayWaypoints.map (fun wp => wp.coordinates))
        "cycling").1 with
    | error e => rw [hr] at h; cases h
    | ok found =>
      rw [hr] at h
      cases found with
      | none =>
        simp only [Except.ok.injEq] at h
        subst h
        simp
      | some dayRoute =>
        simp only [Except.ok.injEq] at h
        subst h
        exact ⟨by simp, fun _ => ⟨hlen, dayRoute, rfl⟩⟩
  · rw [if_neg hlen] at h
    simp only [Except.ok.injEq] at h
    subst h
    simp

theorem createBikeRoutesWithOSRM_ok (osrm : Osrm) (issued : Nat) (waypoints : List Waypoint)
    (routes : List Route)
    (h : (createBikeRoutesWithOSRM osrm issued waypoints).1 = Except.ok routes) :
    ∃ routes1 routes2,
      (bikeDay osrm issued 1 "יום 1: " (waypoints.filter (fun wp => wp.day = some 1))).1 =
        Except.ok routes1 ∧
      (bikeDay osrm
        (issued + (bikeDay osrm issued 1 "יום 1: "
          (waypoints.filter (fun wp => wp.day = some 1))).2.length) 2 "יום 2: "
        (waypoints.filter (fun wp => wp.day = some 2))).1 = Except.ok routes2 ∧
      routes = routes1 ++ routes2 := by
  unfold createBikeRoutesWithOSRM at h
  simp only at h
  cases h1 : (bikeDay osrm issued 1 "יום 1: "
      (waypoints.filter (fun wp => wp.day = some 1))).1 with
  | error e => rw [h1] at h; cases h
  | ok routes1 =>
    rw [h1] at h
    simp only at h
    cases h2 : (bikeDay osrm
        (issued + (bikeDay osrm issued 1 "יום 1: "
          (waypoints.filter (fun wp => wp.day = some 1))).2.length) 2 "יום 2: "
        (waypoints.filter (fun wp => wp.day = some 2))).1 with
    | error e => rw [h2] at h; cases h
    | ok routes2 =>
      rw [h2] at h
      simp only [Except.ok.injEq] at h
      exact ⟨routes1, routes2, rfl, rfl, h.symm⟩

/-- A bike trip is returned only when each day has at least 2 waypoints and
`createOSRMRoute` returned a feature for each day. -/
theorem generateTrip_bike_ok (groqApiKey : Option String)
    (groq : Destination → TripType → Option GroqData) (osrm : Osrm)
    (destination : Destination) (generatedAt : String) (trip : Trip)
    (h : (generateTrip groqApiKey groq osrm destination TripType.bike generatedAt).1 =
      Except.ok trip) :
    ∃ (groqData : GroqData) (day1Route day2Route : Route),
      groq destination TripType.bike = some groqData ∧
      2 ≤ (groqData.waypoints.filter (fun wp => wp.day = some 1)).length ∧
      2 ≤ (groqData.waypoints.filter (fun wp => wp.day = some 2)).length ∧
      (createOSRMRoute osrm 0
        ((groqData.waypoints.filter (fun wp => wp.day = some 1)).map (fun wp => wp.coordinates))
        "cycling").1 = Except.ok (some day1Route) ∧
      (createOSRMRoute osrm
        (bikeDay osrm 0 1 "יום 1: "
          (groqData.waypoints.filter (fun wp => wp.day = some 1))).2.length
        ((groqData.waypoints.filter (fun wp => wp.day = some 2)).map (fun wp => wp.coordinates))
        "cycling").1 = Except.ok (some day2Route) := by
  obtain ⟨groqData, routes, adjustedRoutes, hg, hr, _, ha, hb⟩ :=
    generateTrip_ok groqApiKey groq osrm destination TripType.bike generatedAt trip h
  have htt : (if TripType.bike = TripType.trek then TripType.walk else TripType.bike) =
      TripType.bike := by decide
  rw [htt] at hg hr ha hb
  have hv := (buildFinalTrip_ok_routes hb).1
  have hlen := validateFinalTrip_bike_length adjustedRoutes hv
  simp only [adjustRoutesToConstraints, if_true, Option.some.injEq] at ha
  rw [← ha, List.length_map] at hlen
  simp only [createRealRoutesFromWaypoints, if_true] at hr
  cases hc : (createBikeRoutesWithOSRM osrm 0 groqData.waypoints).1 with
  | error e => rw [hc] at hr; cases hr
  | ok found =>
    rw [hc] at hr
    simp only [Except.ok.injEq, Option.some.injEq] at hr
    subst hr
    obtain ⟨routes1, routes2, h1, h2, hsum⟩ :=
      createBikeRoutesWithOSRM_ok osrm 0 groqData.waypoints found hc
    have hb1 := bikeDay_ok osrm 0 1 _ _ routes1 h1
    have hb2 := bikeDay_ok osrm _ 2 _ _ routes2 h2
    rw [hsum, List.length_append] at hlen
    obtain ⟨hw1, day1Route, hd1⟩ := hb1.2 (by omega)
    obtain ⟨hw2, day2Route, hd2⟩ := hb2.2 (by omega)
    rw [Nat.zero_add] at hd2
    exact ⟨groqData, day1Route, day2Route, hg, hw1, hw2, hd1, hd2⟩

/-- A walk trip is returned only when `createOSRMRoute` returned a feature for
the closed loop. -/
theorem generateTrip_walk_ok (groqApiKey : Option String)
    (groq : Destination → TripType → Option GroqData) (osrm : Osrm)
    (destination : Destination) (tripType : TripType) (generatedAt : String) (trip : Trip)
    (hnb : tripType ≠ TripType.bike)
    (h : (generateTrip groqApiKey groq osrm destination tripType generatedAt).1 =
      Except.ok trip) :
    ∃ (groqData : GroqData) (coordinates : List Coord) (closedWaypoints : List Waypoint)
      (route : Route),
      groq destination TripType.walk = some groqData ∧
      closeWalkLoop groqData.waypoints = some (coordinates, closedWaypoints) ∧
      (createOSRMRoute osrm 0 coordinates "foot").1 = Except.ok (some route) := by
  obtain ⟨groqData, routes, adjustedRoutes, hg, hr, _, _, _⟩ :=
    generateTrip_ok groqApiKey groq osrm destination tripType generatedAt trip h
  have htt : (if tripType = TripType.trek then TripType.walk else tripType) =
      TripType.walk := by
    cases tripType
    · exact absurd rfl hnb
    · rfl
    · rfl
  rw [htt] at hg hr
  have hwb : ¬ TripType.walk = TripType.bike := by decide
  simp only [createRealRoutesFromWaypoints, hwb, if_false] at hr
  unfold createWalkRouteWithOSRM at hr
  cases hc : closeWalkLoop groqData.waypoints with
  | none => rw [hc] at hr; cases hr
  | some closed =>
    obtain ⟨coordinates, closedWaypoints⟩ := closed
    rw [hc] at hr
    simp only at hr
    cases ho : (createOSRMRoute osrm 0 coordinates "foot").1 with
    | error e => rw [ho] at hr; cases hr
    | ok found =>
      cases found with
      | none => rw [ho] at hr; cases hr
      | some route => exact ⟨groqData, coordinates, closedWaypoints, route, hg, hc, ho⟩

theorem createOSRMRoute_null_iff (osrm : Osrm) (issued : Nat) (coordinates : List Coord)
    (profile : String) :
    (createOSRMRoute osrm issued coordinates profile).1 = Except.ok none ↔
      ∃ (route : OsrmRoute) (rest : List OsrmRoute),
        osrm issued ⟨profile, coordinates, true⟩ = OsrmReply.routes (route :: rest) ∧
        isValidRoute route.geometry.coordinates (jsRound (route.distance / 1000)) = false ∧
        (createShorterOSRMRoute osrm (issued + 1) coordinates profile).1 = none := by
  cases hreply : osrm issued ⟨profile, coordinates, true⟩ with
  | failed =>
    simp only [createOSRMRoute, hreply]
    constructor
    · intro h; cases h
    · rintro ⟨_, _, h, _⟩; cases h
  | routes routes =>
    cases routes with
    | nil =>
      simp only [createOSRMRoute, hreply]
      constructor
      · intro h; cases h
      · rintro ⟨_, _, h, _⟩; cases h
    | cons route rest =>
      cases hvalid : isValidRoute route.geometry.coordinates (jsRound (route.distance / 1000)) with
      | true =>
        rw [createOSRMRoute_direct osrm issued coordinates profile route rest hreply hvalid]
        constructor
        · intro h; cases h
        · rintro ⟨route', rest', h, hinv, _⟩
          simp only [OsrmReply.routes.injEq, List.cons.injEq] at h
          rw [← h.1, hvalid] at hinv
          cases hinv
      | false =>
        rw [createOSRMRoute_repair osrm issued coordinates profile route rest hreply hvalid]
        constructor
        · intro h
          simp only [Except.ok.injEq] at h
          exact ⟨route, rest, rfl, hvalid, h⟩
        · rintro ⟨_, _, _, _, h⟩
          simp only [h]

/-- C14: with the routing service as an oracle, `createOSRMRoute` returns
`null` exactly when its first answer is judged implausible and the repair step
returns `null`; whenever that happens for the walk loop or for day 1 or day 2
of a bike trip, `generateTrip` fails; and one `createOSRMRoute` call sends at
most two requests, the original and one repair, the repaired route being
returned without a plausibility check or a further repair. -/
theorem C14_null_repair_fails (groqApiKey : Option String)
    (groq : Destination → TripType → Option GroqData) (osrm : Osrm)
    (destination : Destination) (generatedAt : String) :
    (∀ (tripType : TripType) (groqData : GroqData) (coordinates : List Coord)
        (closedWaypoints : List Waypoint),
      tripType ≠ TripType.bike →
      groq destination TripType.walk = some groqData →
      closeWalkLoop groqData.waypoints = some (coordinates, closedWaypoints) →
      (createOSRMRoute osrm 0 coordinates "foot").1 = Except.ok none →
      ∃ e, (generateTrip groqApiKey groq osrm destination tripType generatedAt).1 =
        Except.error e) ∧
    (∀ (groqData : GroqData),
      groq destination TripType.bike = some groqData →
      (createOSRMRoute osrm 0
        ((groqData.waypoints.filter (fun wp => wp.day = some 1)).map (fun wp => wp.coordinates))
        "cycling").1 = Except.ok none ∨
      (createOSRMRoute osrm
        (bikeDay osrm 0 1 "יום 1: "
          (groqData.waypoints.filter (fun wp => wp.day = some 1))).2.length
        ((groqData.waypoints.filter (fun wp => wp.day = some 2)).map (fun wp => wp.coordinates))
        "cycling").1 = Except.ok none →
      ∃ e, (generateTrip groqApiKey groq osrm destination TripType.bike generatedAt).1 =
        Except.error e) ∧
    (∀ (issued : Nat) (coordinates : List Coord) (profile : String),
      (createOSRMRoute osrm issued coordinates profile).2.length ≤ 2 ∧
      ((createOSRMRoute osrm issued coordinates profile).1 = Except.ok none ↔
        ∃ (route : OsrmRoute) (rest : List OsrmRoute),
          osrm issued ⟨profile, coordinates, true⟩ = OsrmReply.routes (route :: rest) ∧
          isValidRoute route.geometry.coordinates (jsRound (route.distance / 1000)) = false ∧
          (createShorterOSRMRoute osrm (issued + 1) coordinates profile).1 = none) ∧
      (∀ (route repaired : OsrmRoute) (rest rest' : List OsrmRoute),
        osrm issued ⟨profile, coordinates, true⟩ = OsrmReply.routes (route :: rest) →
        isValidRoute route.geometry.coordinates (jsRound (route.distance / 1000)) = false →
        osrm (issued + 1) ⟨profile, jsSliceFromStart coordinates
            (JsNum.fin (jsCeilDiv coordinates.length 2)), false⟩ =
          OsrmReply.routes (repaired :: rest') →
        createOSRMRoute osrm issued coordinates profile =
          (Except.ok (some (osrmFeature repaired profile true)),
            [⟨profile, coordinates, true⟩,
              ⟨profile, jsSliceFromStart coordinates
                (JsNum.fin (jsCeilDiv coordinates.length 2)), false⟩]))) := by
  refine ⟨?_, ?_, ?_⟩
  · intro tripType groqData coordinates closedWaypoints hnb hg hc hnull
    apply generateTrip_total
    intro trip htrip
    obtain ⟨groqData', coordinates', closedWaypoints', route, hg', hc', ho'⟩ :=
      generateTrip_walk_ok groqApiKey groq osrm destination tripType generatedAt trip hnb htrip
    rw [hg] at hg'
    simp only [Option.some.injEq] at hg'
    subst hg'
    rw [hc] at hc'
    simp only [Option.some.injEq, Prod.mk.injEq] at hc'
    rw [← hc'.1, hnull] at ho'
    cases ho'
  · intro groqData hg hnull
    apply generateTrip_total
    intro trip htrip
    obtain ⟨groqData', day1Route, day2Route, hg', _, _, hd1, hd2⟩ :=
      generateTrip_bike_ok groqApiKey groq osrm destination generatedAt trip htrip
    rw [hg] at hg'
    simp only [Option.some.injEq] at hg'
    subst hg'
    rcases hnull with hnull | hnull
    · rw [hnull] at hd1; cases hd1
    · rw [hnull] at hd2; cases hd2
  · intro issued coordinates profile
    refine ⟨?_, createOSRMRoute_null_iff osrm issued coordinates profile, ?_⟩
    · rcases createOSRMRoute_log osrm issued coordinates profile with hl | hl <;> rw [hl] <;>
        simp
    · intro route repaired rest rest' hreply hvalid hrepair
      rw [createOSRMRoute_repair osrm issued coordinates profile route rest hreply hvalid,
        createShorterOSRMRoute_routes osrm (issued + 1) coordinates profile repaired rest'
          hrepair]

theorem sparseOsrm_createOSRMRoute (issued : Nat) (coordinates : List Coord)
    (profile : String) :
    createOSRMRoute sparseOsrm issued coordinates profile =
      (Except.ok none,
        [⟨profile, coordinates, true⟩,
          ⟨profile, jsSliceFromStart coordinates (JsNum.fin (jsCeilDiv coordinates.length 2)),
            false⟩]) := by
  have hkm : jsRound (sparseOsrmRoute.distance / 1000) = 30 :=
    (jsRound_eq_iff _ 30).mpr (by constructor <;> norm_num [sparseOsrmRoute])
  have hvalid : isValidRoute sparseOsrmRoute.geometry.coordinates
      (jsRound (sparseOsrmRoute.distance / 1000)) = false := by
    rw [hkm]
    exact (isValidRoute_eq_false_iff _ _).mpr (by decide)
  rw [createOSRMRoute_repair sparseOsrm issued coordinates profile sparseOsrmRoute [] rfl
      hvalid,
    createShorterOSRMRoute_null sparseOsrm (issued + 1) coordinates profile (Or.inl rfl)]

/-- C14 on a walk whose first routing answer is sparse and whose repair request
is rejected: two requests are sent, the result is `null`, and `generateTrip`
fails. -/
theorem C14_null_repair_fails_witness :
    createOSRMRoute sparseOsrm 0
        [⟨10, 10⟩, ⟨11, 10⟩, ⟨11, 11⟩, ⟨10, 11⟩, ⟨10, 10⟩] "foot" =
      (Except.ok none,
        [⟨"foot", [⟨10, 10⟩, ⟨11, 10⟩, ⟨11, 11⟩, ⟨10, 11⟩, ⟨10, 10⟩], true⟩,
          ⟨"foot", [⟨10, 10⟩, ⟨11, 10⟩, ⟨11, 11⟩], false⟩]) ∧
    ∃ e, (generateTrip (some "key") sampleWalkGroq sparseOsrm ⟨"Greece", some "Athens", none⟩
      TripType.walk "now").1 = Except.error e :=
  ⟨by rw [sparseOsrm_createOSRMRoute]; rfl,
    (C14_null_repair_fails (some "key") sampleWalkGroq sparseOsrm
      ⟨"Greece", some "Athens", none⟩ "now").1 TripType.walk ⟨sampleOpenWalk, none⟩
      [⟨10, 10⟩, ⟨11, 10⟩, ⟨11, 11⟩, ⟨10, 11⟩, ⟨10, 10⟩]
      (sampleOpenWalk ++ [⟨some 1, "חזרה ל" ++ "Main Square", ⟨10, 10⟩, "end"⟩])
      (by decide) rfl (by decide) (by rw [sparseOsrm_createOSRMRoute])⟩

/-! ## Waypoint proposer: the filter -/

/-- Whenever the filter callback returns, it returns the validity the
specification describes. -/
theorem keepWaypoint_eq_validWaypoint (wp : Json) (keep : Bool)
    (h : keepWaypoint wp = some keep) : keep = validWaypoint wp := by
  unfold keepWaypoint at h
  unfold validWaypoint
  split at h
  · cases h
  · split at h
    · rename_i lon lat hc
      rw [hc]
      split at h
      · rename_i name hn
        rw [hn]
        simp only [Option.some.injEq] at h
        rw [← h]
        by_cases hempty : name = ""
        · subst hempty
          rfl
        · simp [hempty]
      · rename_i other hnot hn
        rw [hn]
        split at h
        · cases h
        · simp only [Option.some.injEq] at h
          rw [← h]
          cases other <;> first | rfl | exact absurd rfl (hnot _)
      · rename_i hn
        rw [hn]
        simp only [Option.some.injEq] at h
        exact h.symm
    · rename_i hc
      simp only [Option.some.injEq] at h
      rw [← h]
      split
      · rename_i lon lat name hc' _
        exact absurd hc' (hc lon lat)
      · rfl

theorem filterWaypoints_eq_filter (waypoints kept : List Json)
    (h : filterWaypoints waypoints = some kept) : kept = waypoints.filter validWaypoint := by
  induction waypoints generalizing kept with
  | nil =>
    simp only [filterWaypoints, Option.some.injEq] at h
    rw [← h]; rfl
  | cons wp rest ih =>
    unfold filterWaypoints at h
    cases hk : keepWaypoint wp with
    | none => rw [hk] at h; cases h
    | some keep =>
      rw [hk] at h
      cases hr : filterWaypoints rest with
      | none => rw [hr] at h; cases h
      | some keptRest =>
        rw [hr] at h
        simp only [Option.some.injEq] at h
        have hv := keepWaypoint_eq_validWaypoint wp keep hk
        have hrest := ih keptRest hr
        rw [← h, hrest, List.filter_cons, ← hv]

theorem filterWaypoints_of_no_throw (waypoints : List Json)
    (h : ∀ wp ∈ waypoints, keepWaypoint wp ≠ none) :
    filterWaypoints waypoints = some (waypoints.filter validWaypoint) := by
  induction waypoints with
  | nil => rfl
  | cons wp rest ih =>
    have hrest := ih (fun w hw => h w (List.mem_cons_of_mem wp hw))
    cases hk : keepWaypoint wp with
    | none => exact absurd hk (h wp (List.mem_cons_self wp rest))
    | some keep =>
      have hv := keepWaypoint_eq_validWaypoint wp keep hk
      unfold filterWaypoints
      rw [hk, hrest, List.filter_cons, ← hv]

/-- On a response none of whose waypoints makes the filter callback throw,
`parseGroqWaypoints` keeps the valid waypoints in order and succeeds exactly
when at least 2 remain. -/
theorem filterParsedData_of_no_throw (parsedData : Json) (waypoints : List Json)
    (hget : parsedData.get "waypoints" = some (Json.arr waypoints))
    (h : ∀ wp ∈ waypoints, keepWaypoint wp ≠ none) :
    (2 ≤ (waypoints.filter validWaypoint).length →
      filterParsedData parsedData =
        Except.ok (parsedData.set "waypoints" (Json.arr (waypoints.filter validWaypoint)))) ∧
    ((waypoints.filter validWaypoint).length < 2 →
      filterParsedData parsedData = Except.error ParseError.invalidResponse) := by
  have hf := filterWaypoints_of_no_throw waypoints h
  cases parsedData with
  | obj fields =>
    constructor
    · intro hlen
      have hnot : ¬ (waypoints.filter validWaypoint).length < 2 := by omega
      simp only [filterParsedData, hget, hf, hnot, if_false]
    · intro hlen
      simp only [filterParsedData, hget, hf, hlen, if_true]
  | null => cases hget
  | bool b => cases hget
  | num n => cases hget
  | str s => cases hget
  | arr items => cases hget

/-- C13 fails on the code: in a response whose first waypoint has the number 5
as its name and whose other two waypoints are well-formed, two valid waypoints
remain, yet the filter callback throws on the first one and
`parseGroqWaypoints` fails. -/
theorem C13_numeric_name_fails_parse :
    ([Json.obj [("day", Json.num 1), ("name", Json.num 5),
        ("coordinates", Json.arr [Json.num 10, Json.num 10])],
       sampleJsonWaypoint "Cathedral" 11 10,
       sampleJsonWaypoint "City Park" 11 11].filter validWaypoint).length = 2 ∧
    keepWaypoint (Json.obj [("day", Json.num 1), ("name", Json.num 5),
      ("coordinates", Json.arr [Json.num 10, Json.num 10])]) = none ∧
    filterParsedData sampleNumericName = Except.error ParseError.invalidResponse ∧
    parseGroqWaypoints (fun _ => some sampleNumericName) "Here is the route" =
      Except.error ParseError.invalidResponse :=
  ⟨by decide, rfl, rfl, rfl⟩

/-! ## Request handler: releasing the reservation -/

/-- With a city in the request, the `catch` block rebuilds the reserved key and
the reservation is gone after a failure. -/
theorem generateHandler_failure_with_city {ε : Type}
    (recentRequests : RecentRequests RequestKey) (userId : String) (destination : Destination)
    (tripType : TripType) (now : Int) (service : Destination → TripType → Except ε Trip)
    (error : ε) (hcity : orDefault destination.city "" ≠ "")
    (hacc : (duplicateCheck recentRequests (requestKey userId destination tripType) now).1 =
      Verdict.accepted)
    (hfail : service destination tripType = Except.error error) :
    (generateHandler recentRequests userId destination tripType now service).2
      (requestKey userId destination tripType) = none := by
  have hd : defaultCity destination = destination := by
    unfold defaultCity
    rw [if_neg hcity]
  unfold generateHandler
  simp only [hacc, hd, hfail, RecentRequests.delete, if_true]

/-- Without a city, the `catch` block deletes the key of the destination with
the city filled in, and the reservation made under the key of the request as
sent stays. -/
theorem generateHandler_failure_without_city {ε : Type}
    (recentRequests : RecentRequests RequestKey) (userId : String) (destination : Destination)
    (tripType : TripType) (now : Int) (service : Destination → TripType → Except ε Trip)
    (error : ε) (hcity : orDefault destination.city "" = "")
    (hcountry : destination.city ≠ some destination.country)
    (hacc : (duplicateCheck recentRequests (requestKey userId destination tripType) now).1 =
      Verdict.accepted)
    (hfail : service (defaultCity destination) tripType = Except.error error) :
    (generateHandler recentRequests userId destination tripType now service).2
      (requestKey userId destination tripType) = some now := by
  have hd : defaultCity destination = { destination with city := some destination.country } := by
    unfold defaultCity
    rw [if_pos hcity]
  have hne : ¬ requestKey userId destination tripType =
      requestKey userId { destination with city := some destination.country } tripType := by
    intro heq
    have hdest := congrArg RequestKey.destination heq
    have hc := congrArg Destination.city hdest
    exact hcountry hc
  have hget := duplicateCheck_accepted_get recentRequests
    (requestKey userId destination tripType) now hacc
  unfold generateHandler
  simp only [hacc]
  rw [hfail]
  simp only [hd, RecentRequests.delete, hne, if_false]
  exact hget

/-- C11 fails on the code: a request for Italy without a city is accepted at
time 1000 and its pipeline fails; the reservation is still in the table, and
the identical request one millisecond later is refused with `retryAfter` 15.
The same scenario with a city releases the reservation and the retry is
accepted. -/
theorem C11_release_misses_reserved_key :
    (generateHandler (fun _ => none) "user1" sampleNoCity TripType.bike 1000
      sampleFailingService).1 = HandlerOutcome.failure "No routes returned from OSRM" ∧
    (generateHandler (fun _ => none) "user1" sampleNoCity TripType.bike 1000
      sampleFailingService).2 (requestKey "user1" sampleNoCity TripType.bike) = some 1000 ∧
    (generateHandler
      (generateHandler (fun _ => none) "user1" sampleNoCity TripType.bike 1000
        sampleFailingService).2
      "user1" sampleNoCity TripType.bike 1001 sampleFailingService).1 =
        HandlerOutcome.tooManyRequests 15 ∧
    (generateHandler (fun _ => none) "user1" sampleWithCity TripType.bike 1000
      sampleFailingService).2 (requestKey "user1" sampleWithCity TripType.bike) = none ∧
    (generateHandler
      (generateHandler (fun _ => none) "user1" sampleWithCity TripType.bike 1000
        sampleFailingService).2
      "user1" sampleWithCity TripType.bike 1001 sampleFailingService).1 =
        HandlerOutcome.failure "No routes returned from OSRM" :=
  ⟨rfl, rfl, rfl, rfl, rfl⟩

/-! ## Generation guard: the sweep and refused requests -/

theorem sweep_some {κ : Type} (recentRequests : RecentRequests κ) (now : Int) (key : κ)
    (timestamp : Int) (hget : recentRequests key = some timestamp) :
    sweep recentRequests now key =
      if now - timestamp > REQUEST_CACHE_TIME then none else some timestamp := by
  unfold sweep
  rw [hget]

theorem sweep_none {κ : Type} (recentRequests : RecentRequests κ) (now : Int) (key : κ)
    (hget : recentRequests key = none) : sweep recentRequests now key = none := by
  unfold sweep
  rw [hget]

/-- C23, as stated, fails: a reservation made at time 1000 is 20000 ms old at
time 21000, less than twice the window, and the sweep run at 21000 removes it. -/
theorem C23_sweep_removes_before_twice_window :
    sampleReserved 7 = some 1000 ∧ ¬ ((21000 : Int) - 1000 > 30000) ∧
    sweep sampleReserved 21000 7 = none :=
  ⟨rfl, by decide, rfl⟩

/-- C23 amended: a sweep run at time `now` removes a reservation exactly when
its age `now - timestamp` exceeds the 15-second window (15000 ms), keeps every
reservation of age at most 15000 ms as it is, and adds none. -/
theorem C23_sweep_threshold {κ : Type} (recentRequests : RecentRequests κ) (now : Int)
    (key : κ) :
    (∀ timestamp, recentRequests key = some timestamp →
      (sweep recentRequests now key = none ↔ now - timestamp > 15000) ∧
      (now - timestamp ≤ 15000 → sweep recentRequests now key = some timestamp)) ∧
    (recentRequests key = none → sweep recentRequests now key = none) := by
  have hT : REQUEST_CACHE_TIME = 15000 := rfl
  refine ⟨?_, sweep_none recentRequests now key⟩
  intro timestamp hget
  rw [sweep_some recentRequests now key timestamp hget, hT]
  by_cases hold : now - timestamp > 15000
  · rw [if_pos hold]
    exact ⟨⟨fun _ => hold, fun _ => rfl⟩, fun hle => absurd hold (by omega)⟩
  · rw [if_neg hold]
    exact ⟨⟨fun h => (by cases h), fun h => absurd h hold⟩, fun _ => rfl⟩

/-- C23 amended, on a reservation made at time 1000: kept by the sweep at
16000 (age 15000), removed by the sweep at 16001. -/
theorem C23_sweep_threshold_witness :
    sweep sampleReserved 16000 7 = some 1000 ∧ sweep sampleReserved 16001 7 = none :=
  ⟨((C23_sweep_threshold sampleReserved 16000 7).1 1000 rfl).2 (by decide),
    ((C23_sweep_threshold sampleReserved 16001 7).1 1000 rfl).1.mpr (by decide)⟩

/-- C24: for every table, time and key, the guard gives a request at time
`now` the same verdict, with the same `retryAfter`, whether or not a sweep
runs at `now` first; the sweep leaves every reservation younger than the
15-second window in place. -/
theorem C24_sweep_keeps_verdict {κ : Type} [DecidableEq κ]
    (recentRequests : RecentRequests κ) (now : Int) (key : κ) :
    (duplicateCheck (sweep recentRequests now) key now).1 =
      (duplicateCheck recentRequests key now).1 ∧
    (∀ timestamp, recentRequests key = some timestamp → now - timestamp < 15000 →
      sweep recentRequests now key = some timestamp) := by
  have hT : REQUEST_CACHE_TIME = 15000 := rfl
  constructor
  · cases hget : recentRequests key with
    | none =>
      rw [duplicateCheck_absent now hget,
        duplicateCheck_absent now (sweep_none recentRequests now key hget)]
    | some timestamp =>
      have hs := sweep_some recentRequests now key timestamp hget
      by_cases hold : now - timestamp > REQUEST_CACHE_TIME
      · rw [if_pos hold] at hs
        rw [duplicateCheck_absent now hs,
          duplicateCheck_stale now hget (by rw [hT] at hold ⊢; intro hc; omega)]
      · rw [if_neg hold] at hs
        by_cases hc : timestamp ≠ 0 ∧ now - timestamp < REQUEST_CACHE_TIME
        · rw [duplicateCheck_refused now hget hc, duplicateCheck_refused now hs hc]
        · rw [duplicateCheck_stale now hget hc, duplicateCheck_stale now hs hc]
  · intro timestamp hget hyoung
    rw [sweep_some recentRequests now key timestamp hget, hT]
    exact if_neg (by omega)

/-- C24 on a reservation made at time 1000: refused with 10 seconds at 6000
and accepted at 20000, with or without a sweep first. -/
theorem C24_sweep_keeps_verdict_witness :
    (duplicateCheck (sweep sampleReserved 6000) 7 6000).1 = Verdict.refused 10 ∧
    (duplicateCheck sampleReserved 7 6000).1 = Verdict.refused 10 ∧
    (duplicateCheck (sweep sampleReserved 20000) 7 20000).1 = Verdict.accepted ∧
    (duplicateCheck sampleReserved 7 20000).1 = Verdict.accepted ∧
    sweep sampleReserved 6000 7 = some 1000 :=
  ⟨by decide, by decide, by decide, by decide,
    (C24_sweep_keeps_verdict sampleReserved 6000 7).2 1000 rfl (by decide)⟩

theorem guardRun_refused {κ : Type} [DecidableEq κ] (recentRequests : RecentRequests κ)
    (events : List (GuardEvent κ))
    (h : ∀ e ∈ events, ∃ (key : κ) (now retryAfter : Int),
      e = GuardEvent.request key now ∧
      (duplicateCheck recentRequests key now).1 = Verdict.refused retryAfter) :
    guardRun recentRequests events = recentRequests := by
  have hkeep : ∀ (key : κ) (now retryAfter : Int),
      (duplicateCheck recentRequests key now).1 = Verdict.refused retryAfter →
      (duplicateCheck recentRequests key now).2 = recentRequests := by
    intro key now retryAfter href
    cases hget : recentRequests key with
    | none => rw [duplicateCheck_absent now hget] at href; cases href
    | some lastRequest =>
      by_cases hc : lastRequest ≠ 0 ∧ now - lastRequest < REQUEST_CACHE_TIME
      · rw [duplicateCheck_refused now hget hc]
      · rw [duplicateCheck_stale now hget hc] at href; cases href
  induction events with
  | nil => rfl
  | cons e rest ih =>
    obtain ⟨key, now, retryAfter, he, href⟩ := h e (List.mem_cons_self e rest)
    have hstep : guardStep recentRequests e = recentRequests := by
      rw [he]
      exact hkeep key now retryAfter href
    have hrun : guardRun recentRequests (e :: rest) =
        guardRun (guardStep recentRequests e) rest := rfl
    rw [hrun, hstep]
    exact ih (fun e' he' => h e' (List.mem_cons_of_mem e he'))

/-- C30: a refused request leaves the reservation table as it is, so any run of
refused requests leaves it as it is; after such a run the reservation made at
`t0` still refuses the key before `t0 + 15000` (for a reading `t0` other than
`0`) and accepts it from `t0 + 15000` on. -/
theorem C30_refused_leaves_table {κ : Type} [DecidableEq κ]
    (recentRequests : RecentRequests κ) (events : List (GuardEvent κ))
    (h : ∀ e ∈ events, ∃ (key : κ) (now retryAfter : Int),
      e = GuardEvent.request key now ∧
      (duplicateCheck recentRequests key now).1 = Verdict.refused retryAfter) :
    (∀ (key : κ) (now retryAfter : Int),
      (duplicateCheck recentRequests key now).1 = Verdict.refused retryAfter →
      (duplicateCheck recentRequests key now).2 = recentRequests) ∧
    guardRun recentRequests events = recentRequests ∧
    (∀ (key : κ) (t0 t : Int), recentRequests key = some t0 →
      (t0 ≠ 0 → t - t0 < 15000 →
        ∃ retryAfter, duplicateCheck (guardRun recentRequests events) key t =
          (Verdict.refused retryAfter, guardRun recentRequests events)) ∧
      (15000 ≤ t - t0 →
        (duplicateCheck (guardRun recentRequests events) key t).1 = Verdict.accepted)) := by
  have hT : REQUEST_CACHE_TIME = 15000 := rfl
  have hrun := guardRun_refused recentRequests events h
  refine ⟨?_, hrun, ?_⟩
  · intro key now retryAfter href
    have := guardRun_refused recentRequests [GuardEvent.request key now]
      (fun e he => ⟨key, now, retryAfter, List.mem_singleton.mp he, href⟩)
    exact this
  · intro key t0 t hget
    rw [hrun]
    constructor
    · intro ht0 hlt
      exact ⟨_, duplicateCheck_refused t hget ⟨ht0, by rw [hT]; exact hlt⟩⟩
    · intro hge
      rw [duplicateCheck_stale t hget (by rw [hT]; intro hc; omega)]

/-- C30 on a reservation made at time 1000 and refused requests at 2000, 6000
and 15999: the stored time is still 1000, and the request at 16000 is
accepted. -/
theorem C30_refused_leaves_table_witness :
    guardRun sampleReserved
      [GuardEvent.request 7 2000, GuardEvent.request 7 6000, GuardEvent.request 7 15999] =
      sampleReserved ∧
    sampleReserved 7 = some 1000 ∧
    (duplicateCheck (guardRun sampleReserved
      [GuardEvent.request 7 2000, GuardEvent.request 7 6000, GuardEvent.request 7 15999])
      7 16000).1 = Verdict.accepted :=
  have h := C30_refused_leaves_table sampleReserved
    [GuardEvent.request 7 2000, GuardEvent.request 7 6000, GuardEvent.request 7 15999]
    (by
      intro e he
      simp only [List.mem_cons, List.mem_singleton, List.not_mem_nil, or_false] at he
      rcases he with rfl | rfl | rfl
      · exact ⟨7, 2000, 14, rfl, by decide⟩
      · exact ⟨7, 6000, 10, rfl, by decide⟩
      · exact ⟨7, 15999, 1, rfl, by decide⟩)
  ⟨h.2.1, rfl, (h.2.2 7 1000 16000 rfl).2 (by decide)⟩

/-! ## Constraint adjuster: ranges, durations and a second pass -/

theorem adjustBikeRoute_distance (route : Route) :
    (adjustBikeRoute route).properties.distance =
      if route.properties.distance > 60 then 60
      else if route.properties.distance < 35 then 35 else route.properties.distance := by
  unfold adjustBikeRoute
  by_cases h60 : route.properties.distance > 60
  · simp [h60, truncateRouteToDistance]
  · by_cases h35 : route.properties.distance < 35
    · simp [h60, h35, extendRouteToDistance]
    · simp [h60, h35]

theorem adjustBikeRoute_duration (route : Route) :
    (adjustBikeRoute route).properties.duration =
      if route.properties.distance > 60 then 180
      else if route.properties.distance < 35 then 105 else route.properties.duration := by
  have h180 : jsRoundDiv 3600 20 = 180 := by decide
  have h105 : jsRoundDiv 2100 20 = 105 := by decide
  unfold adjustBikeRoute
  by_cases h60 : route.properties.distance > 60
  · simp [h60, truncateRouteToDistance, h180]
  · by_cases h35 : route.properties.distance < 35
    · simp [h60, h35, extendRouteToDistance, h105]
    · simp [h60, h35]

theorem adjustBikeRoute_in_range (route : Route)
    (h35 : 35 ≤ route.properties.distance) (h60 : route.properties.distance ≤ 60) :
    adjustBikeRoute route =
      { route with
        properties := { route.properties with
          originalDistance := some route.properties.distance
          adjusted := some false } } := by
  have hgt : ¬ route.properties.distance > 60 := by omega
  have hlt : ¬ route.properties.distance < 35 := by omega
  simp [adjustBikeRoute, hgt, hlt]

theorem adjustBikeRoute_range (route : Route) :
    35 ≤ (adjustBikeRoute route).properties.distance ∧
    (adjustBikeRoute route).properties.distance ≤ 60 := by
  rw [adjustBikeRoute_distance]
  split_ifs <;> omega

theorem jsRoundDiv_walk (distance : Int) : jsRoundDiv (distance * 60) 4 = 15 * distance := by
  unfold jsRoundDiv
  rw [Int.fdiv_eq_ediv _ (by decide)]
  omega

theorem adjustWalkRoute_distance (route : Route) :
    (adjustWalkRoute route).properties.distance =
      if route.properties.distance < 5 then 5
      else if route.properties.distance > 15 then 15 else route.properties.distance := rfl

theorem adjustWalkRoute_duration (route : Route) :
    (adjustWalkRoute route).properties.duration =
      15 * (adjustWalkRoute route).properties.distance := by
  rw [← jsRoundDiv_walk]
  rfl

theorem adjustWalkRoute_range (route : Route) :
    5 ≤ (adjustWalkRoute route).properties.distance ∧
    (adjustWalkRoute route).properties.distance ≤ 15 := by
  rw [adjustWalkRoute_distance]
  split_ifs <;> omega

theorem adjustWalkRoute_in_range (route : Route)
    (h5 : 5 ≤ route.properties.distance) (h15 : route.properties.distance ≤ 15) :
    adjustWalkRoute route =
      { route with
        properties := { route.properties with
          duration := 15 * route.properties.distance
          originalDistance := some route.properties.distance
          adjusted := some false } } := by
  have hlt : ¬ route.properties.distance < 5 := by omega
  have hgt : ¬ route.properties.distance > 15 := by omega
  have hd : (adjustWalkRoute route).properties.distance = route.properties.distance := by
    rw [adjustWalkRoute_distance, if_neg hlt, if_neg hgt]
  have hdur := adjustWalkRoute_duration route
  rw [hd] at hdur
  have hadj : (adjustWalkRoute route).properties.adjusted = some false := by
    simp [adjustWalkRoute, hlt, hgt]
  cases hr : adjustWalkRoute route with
  | mk geometry properties =>
    cases properties
    have hg : (adjustWalkRoute route).geometry = route.geometry := rfl
    have hp1 : (adjustWalkRoute route).properties.routingEngine =
      route.properties.routingEngine := rfl
    have hp2 : (adjustWalkRoute route).properties.profile = route.properties.profile := rfl
    have hp3 : (adjustWalkRoute route).properties.shortened = route.properties.shortened := rfl
    have hp4 : (adjustWalkRoute route).properties.day = route.properties.day := rfl
    have hp5 : (adjustWalkRoute route).properties.description =
      route.properties.description := rfl
    have hp6 : (adjustWalkRoute route).properties.waypoints = route.properties.waypoints := rfl
    have hp7 : (adjustWalkRoute route).properties.originalDistance =
      some route.properties.distance := rfl
    rw [hr] at hd hdur hadj hg hp1 hp2 hp3 hp4 hp5 hp6 hp7
    simp only at hd hdur hadj hg hp1 hp2 hp3 hp4 hp5 hp6 hp7
    subst hd hdur hadj hg hp1 hp2 hp3 hp4 hp5 hp6 hp7
    rfl

/-! ## The pipeline: how final validation can fail -/

theorem buildFinalTrip_error {routes : List Route} {destination : Destination}
    {tripType : TripType} {metadata : Option Metadata} {generatedAt : String}
    {e : ValidationError}
    (h : buildFinalTrip routes destination tripType metadata generatedAt = Except.error e) :
    validateFinalTrip routes tripType = Except.error e := by
  unfold buildFinalTrip at h
  cases hv : validateFinalTrip routes tripType with
  | error e' =>
    rw [hv] at h
    simp only [Except.error.injEq] at h
    rw [h]
  | ok u => rw [hv] at h; cases h

theorem createRealRoutesFromWaypoints_error (osrm : Osrm) (issued : Nat) (groqData : GroqData)
    (tripType : TripType) (e : GenerationError)
    (h : (createRealRoutesFromWaypoints osrm issued groqData tripType).1 = Except.error e) :
    e = GenerationError.typeError ∨ ∃ re, e = GenerationError.routing re := by
  unfold createRealRoutesFromWaypoints at h
  by_cases hb : tripType = TripType.bike
  · rw [if_pos hb] at h
    simp only at h
    cases hc : (createBikeRoutesWithOSRM osrm issued groqData.waypoints).1 with
    | error re =>
      rw [hc] at h
      simp only [Except.error.injEq] at h
      exact Or.inr ⟨re, h.symm⟩
    | ok routes => rw [hc] at h; cases h
  · rw [if_neg hb] at h
    unfold createWalkRouteWithOSRM at h
    cases hc : closeWalkLoop groqData.waypoints with
    | none =>
      rw [hc] at h
      simp only [Except.error.injEq] at h
      exact Or.inl h.symm
    | some closed =>
      obtain ⟨coordinates, closedWaypoints⟩ := closed
      rw [hc] at h
      simp only at h
      cases ho : (createOSRMRoute osrm issued coordinates "foot").1 with
      | error re =>
        rw [ho] at h
        simp only [Except.error.injEq] at h
        exact Or.inr ⟨re, h.symm⟩
      | ok found =>
        rw [ho] at h
        cases found with
        | none => cases h
        | some route => cases h

/-- A validation error of `generateTrip` comes from `buildFinalTrip` on the
adjusted routes. -/
theorem generateTrip_validation_error (groqApiKey : Option String)
    (groq : Destination → TripType → Option GroqData) (osrm : Osrm)
    (destination : Destination) (tripType : TripType) (generatedAt : String)
    (e : ValidationError)
    (h : (generateTrip groqApiKey groq osrm destination tripType generatedAt).1 =
      Except.error (GenerationError.validation e)) :
    ∃ (groqData : GroqData) (routes adjustedRoutes : List Route),
      groq destination (if tripType = TripType.trek then TripType.walk else tripType) =
        some groqData ∧
      (createRealRoutesFromWaypoints osrm 0 groqData
        (if tripType = TripType.trek then TripType.walk else tripType)).1 =
          Except.ok (some routes) ∧
      routes ≠ [] ∧
      adjustRoutesToConstraints routes
        (if tripType = TripType.trek then TripType.walk else tripType) = some adjustedRoutes ∧
      validateFinalTrip adjustedRoutes
        (if tripType = TripType.trek then TripType.walk else tripType) = Except.error e := by
  unfold generateTrip at h
  by_cases hkey : orDefault groqApiKey "" = ""
  · rw [if_pos hkey] at h
    cases h
  · rw [if_neg hkey] at h
    simp only at h
    cases hg : groq destination (if tripType = TripType.trek then TripType.walk else tripType) with
    | none => rw [hg] at h; cases h
    | some groqData =>
      rw [hg] at h
      simp only at h
      cases hr : (createRealRoutesFromWaypoints osrm 0 groqData
          (if tripType = TripType.trek then TripType.walk else tripType)).1 with
      | error e' =>
        rw [hr] at h
        simp only [Except.error.injEq] at h
        rcases createRealRoutesFromWaypoints_error osrm 0 groqData _ e' hr with he | ⟨re, he⟩
        · rw [he] at h; cases h
        · rw [he] at h; cases h
      | ok found =>
        rw [hr] at h
        cases found with
        | none => cases h
        | some routes =>
          cases routes with
          | nil => cases h
          | cons route rest =>
            simp only at h
            cases ha : adjustRoutesToConstraints (route :: rest)
                (if tripType = TripType.trek then TripType.walk else tripType) with
            | none => rw [ha] at h; cases h
            | some adjustedRoutes =>
              rw [ha] at h
              simp only at h
              cases hb : buildFinalTrip adjustedRoutes destination
                  (if tripType = TripType.trek then TripType.walk else tripType)
                  groqData.metadata generatedAt with
              | error e' =>
                rw [hb] at h
                simp only [Except.error.injEq, GenerationError.validation.injEq] at h
                subst h
                exact ⟨groqData, route :: rest, adjustedRoutes, rfl, hr, by simp, ha,
                  buildFinalTrip_error hb⟩
              | ok finalTrip => rw [hb] at h; cases h

theorem validateFinalTrip_adjusted_bike (routes : List Route) :
    (routes.length = 2 →
      validateFinalTrip (routes.map adjustBikeRoute) TripType.bike = Except.ok ()) ∧
    (routes.length ≠ 2 →
      validateFinalTrip (routes.map adjustBikeRoute) TripType.bike =
        Except.error (ValidationError.bikeRouteCount routes.length)) := by
  constructor
  · intro hlen
    unfold validateFinalTrip
    simp only [if_true, List.length_map, hlen, ne_eq, not_true_eq_false, if_false]
    rw [checkBikeDays_ok_iff]
    intro r hr
    obtain ⟨r0, _, rfl⟩ := List.mem_map.mp hr
    have hrange := adjustBikeRoute_range r0
    exact ⟨by omega, hrange.2⟩
  · intro hlen
    unfold validateFinalTrip
    simp only [if_true, List.length_map, ne_eq, hlen, not_false_eq_true]

theorem validateFinalTrip_adjusted_walk (route : Route) (tripType : TripType)
    (hnb : tripType ≠ TripType.bike) :
    validateFinalTrip [adjustWalkRoute route] tripType = Except.ok () := by
  have hr := adjustWalkRoute_range route
  have hno : ¬ ((adjustWalkRoute route).properties.distance < 5 ∨
      (adjustWalkRoute route).properties.distance > 15) := by omega
  unfold validateFinalTrip
  simp only [hnb, if_false, hno]

/-- C26: for every list of bike routes, `adjustRoutesToConstraints` returns a
list of the same length whose segment at each position is the adjusted input
segment of that position, with distance in [35, 60]; final validation of the
adjusted list fails only on the route count; and every bike trip returned by
`generateTrip` has 2 days, each with distance in [35, 60]. -/
theorem C26_bike_adjusted_range (routes : List Route) :
    adjustRoutesToConstraints routes TripType.bike = some (routes.map adjustBikeRoute) ∧
    (routes.map adjustBikeRoute).length = routes.length ∧
    (∀ (i : Nat) (r0 : Route), routes[i]? = some r0 →
      (routes.map adjustBikeRoute)[i]? = some (adjustBikeRoute r0) ∧
      35 ≤ (adjustBikeRoute r0).properties.distance ∧
      (adjustBikeRoute r0).properties.distance ≤ 60 ∧
      (adjustBikeRoute r0).properties.originalDistance = some r0.properties.distance ∧
      (adjustBikeRoute r0).properties.day = r0.properties.day) ∧
    (routes.length = 2 →
      validateFinalTrip (routes.map adjustBikeRoute) TripType.bike = Except.ok ()) ∧
    (routes.length ≠ 2 →
      validateFinalTrip (routes.map adjustBikeRoute) TripType.bike =
        Except.error (ValidationError.bikeRouteCount routes.length)) ∧
    (∀ (groqApiKey : Option String) (groq : Destination → TripType → Option GroqData)
        (osrm : Osrm) (destination : Destination) (generatedAt : String) (trip : Trip),
      (generateTrip groqApiKey groq osrm destination TripType.bike generatedAt).1 =
        Except.ok trip →
      trip.routes.length = 2 ∧
      ∀ r ∈ trip.routes, 35 ≤ r.properties.distance ∧ r.properties.distance ≤ 60) := by
  refine ⟨by simp [adjustRoutesToConstraints], by simp, ?_,
    (validateFinalTrip_adjusted_bike routes).1, (validateFinalTrip_adjusted_bike routes).2, ?_⟩
  · intro i r0 h0
    refine ⟨by simp [List.getElem?_map, h0], (adjustBikeRoute_range r0).1,
      (adjustBikeRoute_range r0).2, ?_, ?_⟩
    · simp [adjustBikeRoute]
    · unfold adjustBikeRoute
      by_cases h60 : r0.properties.distance > 60
      · simp [h60, truncateRouteToDistance]
      · by_cases h35 : r0.properties.distance < 35
        · simp [h60, h35, extendRouteToDistance]
        · simp [h60, h35]
  · intro groqApiKey groq osrm destination generatedAt trip htrip
    obtain ⟨groqData, found, adjustedRoutes, _, _, _, ha, hb⟩ :=
      generateTrip_ok groqApiKey groq osrm destination TripType.bike generatedAt trip htrip
    have htt : (if TripType.bike = TripType.trek then TripType.walk else TripType.bike) =
        TripType.bike := by decide
    rw [htt] at ha hb
    obtain ⟨hv, hr, _⟩ := buildFinalTrip_ok_routes hb
    simp only [adjustRoutesToConstraints, if_true, Option.some.injEq] at ha
    rw [hr]
    refine ⟨validateFinalTrip_bike_length adjustedRoutes hv, ?_⟩
    intro r hmem
    rw [← ha] at hmem
    obtain ⟨r0, _, rfl⟩ := List.mem_map.mp hmem
    exact adjustBikeRoute_range r0

/-- C26 on days of 72 km and 20 km: the adjusted distances are 60 and 35 and
final validation accepts them. -/
theorem C26_bike_adjusted_range_witness :
    ((adjustRoutesToConstraints [sampleRoute 13 72, sampleRoute 5 20] TripType.bike).map
      (fun out => out.map (fun r => r.properties.distance))) = some [60, 35] ∧
    validateFinalTrip ([sampleRoute 13 72, sampleRoute 5 20].map adjustBikeRoute)
      TripType.bike = Except.ok () ∧
    validateFinalTrip ([sampleRoute 13 72].map adjustBikeRoute) TripType.bike =
      Except.error (ValidationError.bikeRouteCount 1) :=
  ⟨by decide,
    (C26_bike_adjusted_range [sampleRoute 13 72, sampleRoute 5 20]).2.2.2.1 rfl,
    (C26_bike_adjusted_range [sampleRoute 13 72]).2.2.2.2.1 (by decide)⟩

/-- C27: for a non-empty list of walk routes, `adjustRoutesToConstraints`
returns exactly one segment, the adjusted first route (same geometry, day and
description, the routed distance kept in `originalDistance`), with distance in
[5, 15]; final validation accepts it, and `generateTrip` never fails at final
validation for a walk. -/
theorem C27_walk_single_segment (route : Route) (rest : List Route) (tripType : TripType)
    (hnb : tripType ≠ TripType.bike) :
    adjustRoutesToConstraints (route :: rest) tripType = some [adjustWalkRoute route] ∧
    (adjustWalkRoute route).geometry = route.geometry ∧
    (adjustWalkRoute route).properties.originalDistance = some route.properties.distance ∧
    (adjustWalkRoute route).properties.day = route.properties.day ∧
    (adjustWalkRoute route).properties.description = route.properties.description ∧
    5 ≤ (adjustWalkRoute route).properties.distance ∧
    (adjustWalkRoute route).properties.distance ≤ 15 ∧
    validateFinalTrip [adjustWalkRoute route] tripType = Except.ok () ∧
    (∀ (groqApiKey : Option String) (groq : Destination → TripType → Option GroqData)
        (osrm : Osrm) (destination : Destination) (generatedAt : String)
        (e : ValidationError),
      (generateTrip groqApiKey groq osrm destination tripType generatedAt).1 ≠
        Except.error (GenerationError.validation e)) := by
  refine ⟨by simp [adjustRoutesToConstraints, hnb], rfl, rfl, rfl, rfl,
    (adjustWalkRoute_range route).1, (adjustWalkRoute_range route).2,
    validateFinalTrip_adjusted_walk route tripType hnb, ?_⟩
  intro groqApiKey groq osrm destination generatedAt e herr
  obtain ⟨groqData, found, adjustedRoutes, _, _, hne, ha, hv⟩ :=
    generateTrip_validation_error groqApiKey groq osrm destination tripType generatedAt e herr
  have htt : (if tripType = TripType.trek then TripType.walk else tripType) =
      TripType.walk := by
    cases tripType
    · exact absurd rfl hnb
    · rfl
    · rfl
  rw [htt] at ha hv
  have hwb : TripType.walk ≠ TripType.bike := by decide
  match found, hne with
  | first :: others, _ =>
    simp only [adjustRoutesToConstraints, hwb, if_false, Option.some.injEq] at ha
    rw [← ha, validateFinalTrip_adjusted_walk first TripType.walk hwb] at hv
    cases hv

/-- C27 on walk routes of 3 km and 40 km: one segment of 5 km comes back and
passes final validation. -/
theorem C27_walk_single_segment_witness :
    ((adjustRoutesToConstraints [sampleRoute 9 3, sampleRoute 9 40] TripType.walk).map
      (fun out => out.map (fun r => (r.properties.distance, r.properties.originalDistance))))
      = some [(5, some 3)] ∧
    validateFinalTrip [adjustWalkRoute (sampleRoute 9 3)] TripType.walk = Except.ok () :=
  ⟨by decide,
    (C27_walk_single_segment (sampleRoute 9 3) [sampleRoute 9 40] TripType.walk
      (by decide)).2.2.2.2.2.2.2.1⟩

theorem adjustBikeRoute_second_pass (route : Route) :
    (adjustBikeRoute (adjustBikeRoute route)).properties.distance =
      (adjustBikeRoute route).properties.distance ∧
    (adjustBikeRoute (adjustBikeRoute route)).properties.duration =
      (adjustBikeRoute route).properties.duration ∧
    (adjustBikeRoute (adjustBikeRoute route)).geometry = (adjustBikeRoute route).geometry ∧
    (adjustBikeRoute (adjustBikeRoute route)).properties.adjusted = some false ∧
    (adjustBikeRoute (adjustBikeRoute route)).properties.originalDistance =
      some (adjustBikeRoute route).properties.distance := by
  have hrange := adjustBikeRoute_range route
  rw [adjustBikeRoute_in_range (adjustBikeRoute route) hrange.1 hrange.2]
  exact ⟨rfl, rfl, rfl, rfl, rfl⟩

theorem adjustWalkRoute_second_pass (route : Route) :
    (adjustWalkRoute (adjustWalkRoute route)).properties.distance =
      (adjustWalkRoute route).properties.distance ∧
    (adjustWalkRoute (adjustWalkRoute route)).properties.duration =
      (adjustWalkRoute route).properties.duration ∧
    (adjustWalkRoute (adjustWalkRoute route)).geometry = (adjustWalkRoute route).geometry ∧
    (adjustWalkRoute (adjustWalkRoute route)).properties.adjusted = some false ∧
    (adjustWalkRoute (adjustWalkRoute route)).properties.originalDistance =
      some (adjustWalkRoute route).properties.distance := by
  have hrange := adjustWalkRoute_range route
  rw [adjustWalkRoute_in_range (adjustWalkRoute route) hrange.1 hrange.2]
  exact ⟨rfl, (adjustWalkRoute_duration route).symm, rfl, rfl, rfl⟩

/-- C28: for every trip type and route list on which the adjuster returns, a
second pass over its output returns a list of the same length whose segments
have the distance, duration and geometry of the first pass, `adjusted = false`
and `originalDistance` equal to the already adjusted distance. -/
theorem C28_second_pass (routes : List Route) (tripType : TripType) (once : List Route)
    (h : adjustRoutesToConstraints routes tripType = some once) :
    ∃ twice, adjustRoutesToConstraints once tripType = some twice ∧
      twice.length = once.length ∧
      ∀ (i : Nat) (r1 : Route), once[i]? = some r1 →
        ∃ r2 : Route, twice[i]? = some r2 ∧
          r2.properties.distance = r1.properties.distance ∧
          r2.properties.duration = r1.properties.duration ∧
          r2.geometry = r1.geometry ∧
          r2.properties.adjusted = some false ∧
          r2.properties.originalDistance = some r1.properties.distance := by
  by_cases hb : tripType = TripType.bike
  · subst hb
    simp only [adjustRoutesToConstraints, if_true, Option.some.injEq] at h
    refine ⟨once.map adjustBikeRoute, by simp [adjustRoutesToConstraints], by simp, ?_⟩
    intro i r1 h1
    have hmem : r1 ∈ once := List.getElem?_mem h1
    rw [← h] at hmem
    obtain ⟨r0, _, rfl⟩ := List.mem_map.mp hmem
    exact ⟨adjustBikeRoute (adjustBikeRoute r0), by simp [List.getElem?_map, h1],
      adjustBikeRoute_second_pass r0⟩
  · match routes, h with
    | [], h => simp [adjustRoutesToConstraints, hb] at h
    | route :: rest, h =>
      simp only [adjustRoutesToConstraints, hb, if_false, Option.some.injEq] at h
      subst h
      refine ⟨[adjustWalkRoute (adjustWalkRoute route)],
        by simp [adjustRoutesToConstraints, hb], rfl, ?_⟩
      intro i r1 h1
      match i, h1 with
      | 0, h1 =>
        simp only [List.getElem?_cons_zero, Option.some.injEq] at h1
        subst h1
        exact ⟨adjustWalkRoute (adjustWalkRoute route), by simp,
          adjustWalkRoute_second_pass route⟩

/-- C28 on a bike day of 72 km and on a walk of 3 km: the second pass keeps 60
km and 180 min, and 5 km and 75 min, with the flag cleared and the adjusted
distance as `originalDistance`. -/
theorem C28_second_pass_witness :
    ((adjustRoutesToConstraints [adjustBikeRoute (sampleRoute 13 72)] TripType.bike).map
      (fun out => out.map (fun r => (r.properties.distance, r.properties.duration,
        r.properties.adjusted, r.properties.originalDistance))))
      = some [(60, 180, some false, some 60)] ∧
    ((adjustRoutesToConstraints [adjustWalkRoute (sampleRoute 9 3)] TripType.walk).map
      (fun out => out.map (fun r => (r.properties.distance, r.properties.duration,
        r.properties.adjusted, r.properties.originalDistance))))
      = some [(5, 75, some false, some 5)] ∧
    ∃ twice, adjustRoutesToConstraints [adjustBikeRoute (sampleRoute 13 72)] TripType.bike
        = some twice ∧
      twice.length = [adjustBikeRoute (sampleRoute 13 72)].length ∧
      ∀ (i : Nat) (r1 : Route), [adjustBikeRoute (sampleRoute 13 72)][i]? = some r1 →
        ∃ r2 : Route, twice[i]? = some r2 ∧
          r2.properties.distance = r1.properties.distance ∧
          r2.properties.duration = r1.properties.duration ∧
          r2.geometry = r1.geometry ∧
          r2.properties.adjusted = some false ∧
          r2.properties.originalDistance = some r1.properties.distance :=
  ⟨by decide, by decide,
    C28_second_pass [sampleRoute 13 72] TripType.bike [adjustBikeRoute (sampleRoute 13 72)] rfl⟩

/-- C29: the adjusted walk segment's duration is 15 minutes per final
kilometre, `round(distance / 4 * 60)`, also when the distance is within
[5, 15] and `adjusted = false`; a bike segment's duration is 180 when truncated
to 60 km, 105 when relabelled to 35 km, and the router's own when the distance
is within [35, 60]. -/
theorem C29_duration_relabelling (route : Route) (rest : List Route) :
    (∃ r, adjustRoutesToConstraints (route :: rest) TripType.walk = some [r] ∧
      r.properties.duration = 15 * r.properties.distance ∧
      r.properties.duration = jsRound ((r.properties.distance : ℚ) / 4 * 60) ∧
      (5 ≤ route.properties.distance → route.properties.distance ≤ 15 →
        r.properties.adjusted = some false ∧
        r.properties.duration = 15 * route.properties.distance)) ∧
    (∃ out r, adjustRoutesToConstraints (route :: rest) TripType.bike = some out ∧
      out[0]? = some r ∧
      (60 < route.properties.distance →
        r.properties.distance = 60 ∧ r.properties.duration = 180) ∧
      (route.properties.distance < 35 →
        r.properties.distance = 35 ∧ r.properties.duration = 105) ∧
      (35 ≤ route.properties.distance → route.properties.distance ≤ 60 →
        r.properties.distance = route.properties.distance ∧
        r.properties.duration = route.properties.duration)) := by
  constructor
  · refine ⟨adjustWalkRoute route, by simp [adjustRoutesToConstraints],
      adjustWalkRoute_duration route, ?_, ?_⟩
    · rw [adjustWalkRoute_duration]
      symm
      rw [jsRound_eq_iff]
      push_cast
      constructor <;> linarith
    · intro h5 h15
      rw [adjustWalkRoute_in_range route h5 h15]
      exact ⟨rfl, rfl⟩
  · refine ⟨(route :: rest).map adjustBikeRoute, adjustBikeRoute route,
      by simp [adjustRoutesToConstraints], by simp, ?_, ?_, ?_⟩
    · intro h60
      have hgt : route.properties.distance > 60 := h60
      rw [adjustBikeRoute_distance, adjustBikeRoute_duration, if_pos hgt, if_pos hgt]
      exact ⟨rfl, rfl⟩
    · intro h35
      have hgt : ¬ route.properties.distance > 60 := by omega
      rw [adjustBikeRoute_distance, adjustBikeRoute_duration, if_neg hgt, if_neg hgt,
        if_pos h35, if_pos h35]
      exact ⟨rfl, rfl⟩
    · intro h35 h60
      have hgt : ¬ route.properties.distance > 60 := by omega
      have hlt : ¬ route.properties.distance < 35 := by omega
      rw [adjustBikeRoute_distance, adjustBikeRoute_duration, if_neg hgt, if_neg hgt,
        if_neg hlt, if_neg hlt]
      exact ⟨rfl, rfl⟩

/-- C29 on the closed walk of 9 km routed in 135 min, left at 9 km and
relabelled to 135 min by the rule, and on bike days of 72, 20 and 40 km. -/
theorem C29_duration_relabelling_witness :
    ((adjustRoutesToConstraints [{ sampleLoop with
        properties := { sampleLoop.properties with duration := 100 } }] TripType.walk).map
      (fun out => out.map (fun r => (r.properties.distance, r.properties.duration,
        r.properties.adjusted)))) = some [(9, 135, some false)] ∧
    ((adjustRoutesToConstraints [sampleRoute 13 72, sampleRoute 5 20, sampleRoute 5 40]
        TripType.bike).map
      (fun out => out.map (fun r => (r.properties.distance, r.properties.duration))))
      = some [(60, 180), (35, 105), (40, 120)] ∧
    ∃ r, adjustRoutesToConstraints [sampleLoop] TripType.walk = some [r] ∧
      r.properties.duration = 15 * r.properties.distance ∧
      r.properties.duration = jsRound ((r.properties.distance : ℚ) / 4 * 60) ∧
      (5 ≤ sampleLoop.properties.distance → sampleLoop.properties.distance ≤ 15 →
        r.properties.adjusted = some false ∧
        r.properties.duration = 15 * sampleLoop.properties.distance) :=
  ⟨by decide, by decide, (C29_duration_relabelling sampleLoop []).1⟩

/-! ## Repair step: which coordinates are routed -/

theorem jsCeilDiv_half (n : Nat) : jsCeilDiv (n : Int) 2 = (((n + 1) / 2 : Nat) : Int) := by
  unfold jsCeilDiv
  rw [Int.fdiv_eq_ediv _ (by decide)]
  omega

theorem natCeil_half (n : Nat) : ⌈((n : ℚ) / 2)⌉₊ = (n + 1) / 2 := by
  apply le_antisymm
  · rw [Nat.ceil_le]
    have h : n ≤ 2 * ((n + 1) / 2) := by omega
    have hq : (n : ℚ) ≤ 2 * (((n + 1) / 2 : Nat) : ℚ) := by exact_mod_cast h
    linarith
  · by_contra hlt
    push_neg at hlt
    have hle : (n : ℚ) / 2 ≤ (⌈((n : ℚ) / 2)⌉₊ : ℚ) := Nat.le_ceil _
    have hn : (n : ℚ) ≤ 2 * (⌈((n : ℚ) / 2)⌉₊ : ℚ) := by linarith
    have hnat : n ≤ 2 * ⌈((n : ℚ) / 2)⌉₊ := by exact_mod_cast hn
    omega

theorem repair_slice (originalCoords : List Coord) :
    jsSliceFromStart originalCoords (JsNum.fin (jsCeilDiv originalCoords.length 2)) =
      originalCoords.take ((originalCoords.length + 1) / 2) := by
  rw [jsCeilDiv_half]
  have hnn : ¬ (((originalCoords.length + 1) / 2 : Nat) : Int) < 0 := by omega
  simp only [jsSliceFromStart, hnn, if_false, Int.toNat_ofNat]

/-- C21: the repair step sends one request, with exactly the first
`ceil(n / 2)` coordinates of the original list of length `n`, in order; that
is at least 2 points when `n ≥ 3` and exactly 1 point when `n = 2`. -/
theorem C21_repair_first_half (osrm : Osrm) (issued : Nat) (originalCoords : List Coord)
    (profile : String) :
    (createShorterOSRMRoute osrm issued originalCoords profile).2 =
      [⟨profile, originalCoords.take ⌈((originalCoords.length : ℚ) / 2)⌉₊, false⟩] ∧
    ⌈((originalCoords.length : ℚ) / 2)⌉₊ = (originalCoords.length + 1) / 2 ∧
    (originalCoords.take ⌈((originalCoords.length : ℚ) / 2)⌉₊).length =
      ⌈((originalCoords.length : ℚ) / 2)⌉₊ ∧
    (3 ≤ originalCoords.length →
      2 ≤ (originalCoords.take ⌈((originalCoords.length : ℚ) / 2)⌉₊).length) ∧
    (originalCoords.length = 2 →
      (originalCoords.take ⌈((originalCoords.length : ℚ) / 2)⌉₊).length = 1) := by
  have hceil := natCeil_half originalCoords.length
  rw [createShorterOSRMRoute_log, repair_slice, hceil, List.length_take]
  refine ⟨rfl, rfl, ?_, ?_, ?_⟩
  · omega
  · intro h3; omega
  · intro h2; omega

/-- C21 on 5 and on 2 coordinates: the repair request carries the first 3, and
the first 1. -/
theorem C21_repair_first_half_witness :
    (createShorterOSRMRoute sampleOsrm 1 (sampleRoute 5 30).geometry.coordinates "cycling").2 =
      [⟨"cycling", [⟨0, 0⟩, ⟨1, 0⟩, ⟨2, 0⟩], false⟩] ∧
    (createShorterOSRMRoute sampleOsrm 1 (sampleRoute 2 30).geometry.coordinates "cycling").2 =
      [⟨"cycling", [⟨0, 0⟩], false⟩] ∧
    ((sampleRoute 2 30).geometry.coordinates.take
      ⌈(((sampleRoute 2 30).geometry.coordinates.length : ℚ) / 2)⌉₊).length = 1 :=
  ⟨by rw [createShorterOSRMRoute_log]; decide, by rw [createShorterOSRMRoute_log]; decide,
    (C21_repair_first_half sampleOsrm 1 (sampleRoute 2 30).geometry.coordinates
      "cycling").2.2.2.2 (by decide)⟩

/-! ## Bike days with fewer than 2 waypoints -/

/-- The bike run of `generateTrip` once the key is present and the waypoints
have arrived, by the outcome of `createBikeRoutesWithOSRM`. -/
theorem generateTrip_bike_forward (groqApiKey : Option String)
    (groq : Destination → TripType → Option GroqData) (osrm : Osrm)
    (destination : Destination) (generatedAt : String) (groqData : GroqData)
    (hkey : orDefault groqApiKey "" ≠ "")
    (hg : groq destination TripType.bike = some groqData) :
    (generateTrip groqApiKey groq osrm destination TripType.bike generatedAt).1 =
      match (createBikeRoutesWithOSRM osrm 0 groqData.waypoints).1 with
      | Except.error re => Except.error (GenerationError.routing re)
      | Except.ok [] => Except.error GenerationError.noRealRoutes
      | Except.ok (route :: rest) =>
        match buildFinalTrip ((route :: rest).map adjustBikeRoute) destination TripType.bike
            groqData.metadata generatedAt with
        | Except.error e => Except.error (GenerationError.validation e)
        | Except.ok finalTrip => Except.ok finalTrip := by
  have htt : (if TripType.bike = TripType.trek then TripType.walk else TripType.bike) =
      TripType.bike := by decide
  unfold generateTrip
  rw [if_neg hkey]
  simp only [htt, hg, createRealRoutesFromWaypoints, if_true]
  cases hc : (createBikeRoutesWithOSRM osrm 0 groqData.waypoints).1 with
  | error re => rfl
  | ok routes =>
    cases routes with
    | nil => rfl
    | cons route rest =>
      simp only [adjustRoutesToConstraints, if_true]
      cases hb : buildFinalTrip ((route :: rest).map adjustBikeRoute) destination TripType.bike
          groqData.metadata generatedAt with
      | error e => rfl
      | ok finalTrip => rfl

theorem bikeDay_short (osrm : Osrm) (issued day : Nat) (label : String)
    (dayWaypoints : List Waypoint) (h : dayWaypoints.length < 2) :
    bikeDay osrm issued day label dayWaypoints = (Except.ok [], []) := by
  have hnot : ¬ dayWaypoints.length ≥ 2 := by omega
  unfold bikeDay
  rw [if_neg hnot]

/-- C25, as stated, fails: with two waypoints on day 1, one on day 2 and a
routing service that rejects the day 1 request, `generateTrip` fails with the
routing error, neither for having no routes nor at final validation. -/
theorem C25_short_day_routing_error :
    (sampleShortDay.filter (fun wp => wp.day = some 1)).length = 2 ∧
    (sampleShortDay.filter (fun wp => wp.day = some 2)).length = 1 ∧
    generateTrip (some "key") sampleShortDayGroq rejectingOsrm sampleWithCity TripType.bike
      "now" =
      (Except.error (GenerationError.routing RoutingError.requestFailed),
        [⟨"cycling", [⟨10, 10⟩, ⟨12, 10⟩], true⟩]) :=
  ⟨by decide, by decide, rfl⟩

/-- C25 amended: when fewer than 2 bike waypoints are tagged day 1 or fewer
than 2 are tagged day 2, that day sends no request and yields no route, and
`generateTrip` never returns a trip, whatever the routing service answers: it
fails for having no routes, at final validation for having 1 route instead of
2, or with the routing error thrown while routing the other day. -/
theorem C25_short_day_fails (groqApiKey : Option String)
    (groq : Destination → TripType → Option GroqData) (osrm : Osrm)
    (destination : Destination) (generatedAt : String) (groqData : GroqData)
    (hg : groq destination TripType.bike = some groqData)
    (hshort : (groqData.waypoints.filter (fun wp => wp.day = some 1)).length < 2 ∨
      (groqData.waypoints.filter (fun wp => wp.day = some 2)).length < 2) :
    ((groqData.waypoints.filter (fun wp => wp.day = some 1)).length < 2 →
      ∀ issued, bikeDay osrm issued 1 "יום 1: "
        (groqData.waypoints.filter (fun wp => wp.day = some 1)) = (Except.ok [], [])) ∧
    ((groqData.waypoints.filter (fun wp => wp.day = some 2)).length < 2 →
      ∀ issued, bikeDay osrm issued 2 "יום 2: "
        (groqData.waypoints.filter (fun wp => wp.day = some 2)) = (Except.ok [], [])) ∧
    ∃ e, (generateTrip groqApiKey groq osrm destination TripType.bike generatedAt).1 =
        Except.error e ∧
      (orDefault groqApiKey "" ≠ "" →
        e = GenerationError.noRealRoutes ∨
        e = GenerationError.validation (ValidationError.bikeRouteCount 1) ∨
        ∃ re, e = GenerationError.routing re) := by
  refine ⟨fun h issued => bikeDay_short osrm issued 1 _ _ h,
    fun h issued => bikeDay_short osrm issued 2 _ _ h, ?_⟩
  by_cases hkey : orDefault groqApiKey "" = ""
  · refine ⟨GenerationError.missingApiKey, ?_, fun hk => absurd hkey hk⟩
    unfold generateTrip
    rw [if_pos hkey]
  · rw [generateTrip_bike_forward groqApiKey groq osrm destination generatedAt groqData hkey hg]
    cases hc : (createBikeRoutesWithOSRM osrm 0 groqData.waypoints).1 with
    | error re => exact ⟨_, rfl, fun _ => Or.inr (Or.inr ⟨re, rfl⟩)⟩
    | ok routes =>
      obtain ⟨routes1, routes2, h1, h2, hsum⟩ :=
        createBikeRoutesWithOSRM_ok osrm 0 groqData.waypoints routes hc
      have hb1 := bikeDay_ok osrm 0 1 _ _ routes1 h1
      have hb2 := bikeDay_ok osrm _ 2 _ _ routes2 h2
      have hlen : routes.length ≤ 1 := by
        rw [hsum, List.length_append]
        rcases hshort with hs | hs
        · have : routes1.length ≠ 1 := fun h => by have := (hb1.2 h).1; omega
          omega
        · have : routes2.length ≠ 1 := fun h => by have := (hb2.2 h).1; omega
          omega
      match routes, hlen with
      | [], _ => exact ⟨_, rfl, fun _ => Or.inl rfl⟩
      | [route], _ =>
        have hv := (validateFinalTrip_adjusted_bike [route]).2 (by simp)
        refine ⟨GenerationError.validation (ValidationError.bikeRouteCount 1), ?_,
          fun _ => Or.inr (Or.inl rfl)⟩
        simp only [buildFinalTrip, hv]
        rfl

/-- C25 amended, on two waypoints for day 1 and one for day 2 with a routing
service that always answers: day 2 yields no route and `generateTrip` fails. -/
theorem C25_short_day_fails_witness :
    bikeDay sampleOsrm 1 2 "יום 2: " (sampleShortDay.filter (fun wp => wp.day = some 2)) =
      (Except.ok [], []) ∧
    ∃ e, (generateTrip (some "key") sampleShortDayGroq sampleOsrm sampleWithCity TripType.bike
        "now").1 = Except.error e ∧
      (orDefault (some "key") "" ≠ "" →
        e = GenerationError.noRealRoutes ∨
        e = GenerationError.validation (ValidationError.bikeRouteCount 1) ∨
        ∃ re, e = GenerationError.routing re) :=
  have h := C25_short_day_fails (some "key") sampleShortDayGroq sampleOsrm sampleWithCity "now"
    ⟨sampleShortDay, none⟩ rfl (Or.inr (by decide))
  ⟨h.2.1 (by decide) 1, h.2.2⟩

/-! ## Waypoint proposer: the text handed to the JSON parser -/

theorem dropWhile_append_stop (p : Char → Bool) (pre : List Char) (c : Char)
    (rest : List Char) (hc : p c = false) :
    (pre ++ c :: rest).dropWhile p = pre.dropWhile p ++ c :: rest := by
  induction pre with
  | nil => simp [List.dropWhile, hc]
  | cons a pre ih =>
    by_cases ha : p a = true
    · simp only [List.cons_append, List.dropWhile_cons, ha, if_true]
      exact ih
    · simp only [List.cons_append, List.dropWhile_cons, ha]
      rfl

/-- Trimming a text whose first opening brace and last closing brace are known
trims only what lies outside them. -/
theorem jsTrimChars_braces (pre mid post : List Char) :
    jsTrimChars (pre ++ '\x7b' :: mid ++ '\x7d' :: post) =
      pre.dropWhile jsIsWhiteSpace ++ '\x7b' :: mid ++
        '\x7d' :: (post.reverse.dropWhile jsIsWhiteSpace).reverse := by
  unfold jsTrimChars
  have h1 : (pre ++ '\x7b' :: mid ++ '\x7d' :: post).dropWhile jsIsWhiteSpace =
      pre.dropWhile jsIsWhiteSpace ++ '\x7b' :: (mid ++ '\x7d' :: post) := by
    have := dropWhile_append_stop jsIsWhiteSpace pre '\x7b' (mid ++ '\x7d' :: post) (by decide)
    simpa using this
  rw [h1]
  have h2 : (pre.dropWhile jsIsWhiteSpace ++ '\x7b' :: (mid ++ '\x7d' :: post)).reverse =
      post.reverse ++ '\x7d' :: (pre.dropWhile jsIsWhiteSpace ++ '\x7b' :: mid).reverse := by
    simp
  rw [h2, dropWhile_append_stop jsIsWhiteSpace post.reverse '\x7d' _ (by decide)]
  simp

theorem jsIndexOf_first (pre rest : List Char) (c : Char) (h : c ∉ pre) :
    jsIndexOf (pre ++ c :: rest) c = pre.length := by
  unfold jsIndexOf
  have hmem : c ∈ pre ++ c :: rest := by simp
  rw [if_pos hmem, List.indexOf_append_of_not_mem h, List.indexOf_cons_self]
  simp

theorem jsLastIndexOf_last (pre post : List Char) (c : Char) (h : c ∉ post) :
    jsLastIndexOf (pre ++ c :: post) c = pre.length := by
  unfold jsLastIndexOf
  have hmem : c ∈ pre ++ c :: post := by simp
  have hrev : (pre ++ c :: post).reverse = post.reverse ++ c :: pre.reverse := by simp
  have hnot : c ∉ post.reverse := by simpa using h
  rw [if_pos hmem, hrev, List.indexOf_append_of_not_mem hnot, List.indexOf_cons_self]
  simp only [List.length_append, List.length_cons, List.length_reverse, Nat.add_zero]
  push_cast
  omega

/-- The text cut out of a trimmed response in which an opening brace precedes
a closing one. -/
theorem extract_of_braces (pre mid post : List Char) (hpre : '\x7b' ∉ pre)
    (hpost : '\x7d' ∉ post) :
    jsIndexOf (pre ++ '\x7b' :: mid ++ '\x7d' :: post) '\x7b' = pre.length ∧
    jsLastIndexOf (pre ++ '\x7b' :: mid ++ '\x7d' :: post) '\x7d' + 1 =
      ((pre.length + mid.length + 2 : Nat) : Int) ∧
    ((pre ++ '\x7b' :: mid ++ '\x7d' :: post).take (pre.length + mid.length + 2)).drop
      pre.length = '\x7b' :: mid ++ ['\x7d'] := by
  refine ⟨?_, ?_, ?_⟩
  · have := jsIndexOf_first pre (mid ++ '\x7d' :: post) '\x7b' hpre
    simpa using this
  · have h := jsLastIndexOf_last (pre ++ '\x7b' :: mid) post '\x7d' hpost
    have heq : pre ++ '\x7b' :: mid ++ '\x7d' :: post =
        (pre ++ '\x7b' :: mid) ++ '\x7d' :: post := by simp
    rw [heq, h]
    simp only [List.length_append, List.length_cons]
    push_cast
    omega
  · have heq : pre ++ '\x7b' :: mid ++ '\x7d' :: post =
        (pre ++ ('\x7b' :: mid ++ ['\x7d'])) ++ post := by simp
    have hlen : (pre ++ ('\x7b' :: mid ++ ['\x7d'])).length = pre.length + mid.length + 2 := by
      simp only [List.length_append, List.length_cons, List.length_nil]
      omega
    rw [heq, List.take_left' hlen, List.drop_left]

theorem first_split (cs : List Char) (c : Char) (h : c ∈ cs) :
    ∃ pre rest, cs = pre ++ c :: rest ∧ c ∉ pre := by
  induction cs with
  | nil => cases h
  | cons a cs ih =>
    by_cases ha : c = a
    · exact ⟨[], cs, by simp [ha], by simp⟩
    · have hmem : c ∈ cs := by
        rcases List.mem_cons.mp h with h' | h'
        · exact absurd h' ha
        · exact h'
      obtain ⟨pre, rest, hcs, hpre⟩ := ih hmem
      refine ⟨a :: pre, rest, by simp [hcs], ?_⟩
      intro hin
      rcases List.mem_cons.mp hin with h' | h'
      · exact ha h'
      · exact hpre h'

theorem last_split (cs : List Char) (c : Char) (h : c ∈ cs) :
    ∃ pre post, cs = pre ++ c :: post ∧ c ∉ post := by
  obtain ⟨a, b, hrev, ha⟩ := first_split cs.reverse c (by simpa using h)
  refine ⟨b.reverse, a.reverse, ?_, by simpa using ha⟩
  have := congrArg List.reverse hrev
  simpa using this

/-- The trimmed text sits inside the original one. -/
theorem jsTrimChars_infix (cs : List Char) :
    ∃ before after, cs = before ++ jsTrimChars cs ++ after := by
  obtain ⟨before, hb⟩ := List.dropWhile_suffix (l := cs) jsIsWhiteSpace
  obtain ⟨tail, ht⟩ :=
    List.dropWhile_suffix (l := (cs.dropWhile jsIsWhiteSpace).reverse) jsIsWhiteSpace
  refine ⟨before, tail.reverse, ?_⟩
  unfold jsTrimChars
  have hrev := congrArg List.reverse ht
  simp only [List.reverse_append, List.reverse_reverse] at hrev
  rw [List.append_assoc, hrev, hb]

/-- When the test of `parseGroqWaypoints` on the brace positions succeeds, an
opening brace precedes a closing brace in the text. -/
theorem braces_of_test (cs : List Char)
    (h : jsIndexOf cs '\x7b' ≠ -1 ∧ jsLastIndexOf cs '\x7d' + 1 > jsIndexOf cs '\x7b') :
    ∃ pre mid post, cs = pre ++ '\x7b' :: mid ++ '\x7d' :: post := by
  have hopen : '\x7b' ∈ cs := by
    by_contra hno
    exact h.1 (by simp [jsIndexOf, hno])
  have hclose : '\x7d' ∈ cs := by
    by_contra hno
    have hlast : jsLastIndexOf cs '\x7d' = -1 := by simp [jsLastIndexOf, hno]
    have hidx : 0 ≤ jsIndexOf cs '\x7b' := by
      simp only [jsIndexOf, hopen, if_true]
      omega
    have := h.2
    rw [hlast] at this
    omega
  obtain ⟨pre, rest, hcs, hpre⟩ := first_split cs '\x7b' hopen
  obtain ⟨pre2, post, hcs2, hpost⟩ := last_split cs '\x7d' hclose
  have hi : jsIndexOf cs '\x7b' = pre.length := by
    rw [hcs]; exact jsIndexOf_first pre rest '\x7b' hpre
  have hj : jsLastIndexOf cs '\x7d' = pre2.length := by
    rw [hcs2]; exact jsLastIndexOf_last pre2 post '\x7d' hpost
  have hle : pre.length ≤ pre2.length := by
    have := h.2
    rw [hi, hj] at this
    omega
  have heq : pre ++ '\x7b' :: rest = pre2 ++ '\x7d' :: post := by rw [← hcs, ← hcs2]
  rcases List.append_eq_append_iff.mp heq with ⟨a, ha, hb⟩ | ⟨a, ha, hb⟩
  · cases a with
    | nil =>
      simp only [List.nil_append, List.cons.injEq] at hb
      exact absurd hb.1 (by decide)
    | cons x mid =>
      simp only [List.cons_append, List.cons.injEq] at hb
      refine ⟨pre, mid, post, ?_⟩
      rw [hcs, hb.2]
      simp
  · cases a with
    | nil =>
      simp only [List.nil_append, List.cons.injEq] at hb
      exact absurd hb.1 (by decide)
    | cons x more =>
      have hlen := congrArg List.length ha
      simp only [List.length_append, List.length_cons] at hlen
      omega

theorem extractJsonText_of_braces (llmResponse : String) (pre mid post : List Char)
    (hresp : llmResponse.toList = pre ++ '\x7b' :: mid ++ '\x7d' :: post)
    (hpre : '\x7b' ∉ pre) (hpost : '\x7d' ∉ post) :
    extractJsonText llmResponse = String.mk ('\x7b' :: mid ++ ['\x7d']) := by
  have hpre' : '\x7b' ∉ pre.dropWhile jsIsWhiteSpace :=
    fun hin => hpre ((List.dropWhile_suffix jsIsWhiteSpace).subset hin)
  have hpost' : '\x7d' ∉ (post.reverse.dropWhile jsIsWhiteSpace).reverse := by
    intro hin
    rw [List.mem_reverse] at hin
    exact hpost (List.mem_reverse.mp ((List.dropWhile_suffix jsIsWhiteSpace).subset hin))
  obtain ⟨h1, h2, h3⟩ := extract_of_braces (pre.dropWhile jsIsWhiteSpace) mid
    ((post.reverse.dropWhile jsIsWhiteSpace).reverse) hpre' hpost'
  unfold extractJsonText
  simp only [hresp, jsTrimChars_braces, h1, h2]
  have hcond : ((pre.dropWhile jsIsWhiteSpace).length : Int) ≠ -1 ∧
      (((pre.dropWhile jsIsWhiteSpace).length + mid.length + 2 : Nat) : Int) >
        ((pre.dropWhile jsIsWhiteSpace).length : Int) := by
    constructor
    · omega
    · push_cast; omega
  rw [if_pos hcond]
  simp only [Int.toNat_ofNat, h3]

/-- C22: when the response text has an opening brace before a closing brace,
the text handed to the JSON parser is the part from the first opening brace
through the last closing brace, so that text before the first and after the
last brace does not change the outcome; when there is no such pair, the
trimmed text is handed over as it is. -/
theorem C22_json_text (llmResponse : String) :
    (∀ (pre mid post : List Char),
      llmResponse.toList = pre ++ '\x7b' :: mid ++ '\x7d' :: post →
      '\x7b' ∉ pre → '\x7d' ∉ post →
      extractJsonText llmResponse = String.mk ('\x7b' :: mid ++ ['\x7d'])) ∧
    ((¬ ∃ (pre mid post : List Char),
        llmResponse.toList = pre ++ '\x7b' :: mid ++ '\x7d' :: post) →
      extractJsonText llmResponse = jsTrim llmResponse) ∧
    (∀ (jsonParse : String → Option Json),
      (∀ parsedData, jsonParse (extractJsonText llmResponse) = some parsedData →
        parseGroqWaypoints jsonParse llmResponse = filterParsedData parsedData) ∧
      (jsonParse (extractJsonText llmResponse) = none →
        parseGroqWaypoints jsonParse llmResponse =
          Except.error ParseError.invalidResponse)) ∧
    (∀ (jsonParse : String → Option Json) (other : String)
        (pre mid post pre' post' : List Char),
      llmResponse.toList = pre ++ '\x7b' :: mid ++ '\x7d' :: post →
      '\x7b' ∉ pre → '\x7d' ∉ post →
      other.toList = pre' ++ '\x7b' :: mid ++ '\x7d' :: post' →
      '\x7b' ∉ pre' → '\x7d' ∉ post' →
      parseGroqWaypoints jsonParse llmResponse = parseGroqWaypoints jsonParse other) := by
  refine ⟨extractJsonText_of_braces llmResponse, ?_, ?_, ?_⟩
  · intro hno
    unfold extractJsonText
    simp only
    by_cases hc : jsIndexOf (jsTrimChars llmResponse.toList) '\x7b' ≠ -1 ∧
        jsLastIndexOf (jsTrimChars llmResponse.toList) '\x7d' + 1 >
          jsIndexOf (jsTrimChars llmResponse.toList) '\x7b'
    · exfalso
      obtain ⟨pre, mid, post, hcs⟩ := braces_of_test _ hc
      obtain ⟨before, after, hall⟩ := jsTrimChars_infix llmResponse.toList
      apply hno
      refine ⟨before ++ pre, mid, post ++ after, ?_⟩
      rw [hall, hcs]
      simp
    · rw [if_neg hc]
      rfl
  · intro jsonParse
    constructor
    · intro parsedData hp
      unfold parseGroqWaypoints
      rw [hp]
    · intro hp
      unfold parseGroqWaypoints
      rw [hp]
  · intro jsonParse other pre mid post pre' post' h1 hpre hpost h2 hpre' hpost'
    unfold parseGroqWaypoints
    rw [extractJsonText_of_braces llmResponse pre mid post h1 hpre hpost,
      extractJsonText_of_braces other pre' mid post' h2 hpre' hpost']

/-- C22 on a response with text around the braces, on one without braces and
on one whose only closing brace comes before the opening one. -/
theorem C22_json_text_witness :
    extractJsonText "  Sure, here it is: \x7bwaypoints\x7d Enjoy the trip!  " =
      "\x7bwaypoints\x7d" ∧
    extractJsonText "  no structured data  " = "no structured data" ∧
    extractJsonText " \x7d and then \x7b " = "\x7d and then \x7b" ∧
    extractJsonText "  Sure, here it is: \x7bwaypoints\x7d Enjoy the trip!  " =
      String.mk ('\x7b' :: "waypoints".toList ++ ['\x7d']) :=
  ⟨by decide, by decide, by decide,
    (C22_json_text "  Sure, here it is: \x7bwaypoints\x7d Enjoy the trip!  ").1
      "  Sure, here it is: ".toList "waypoints".toList " Enjoy the trip!  ".toList
      (by decide) (by decide) (by decide)⟩

end TripPlanner
